import Mathlib

/-!
SOS schema layer (`src/sos/src/sos_schema.c`).

A shallow embedding of the schema and attribute functions of the Scalable
Object Store, and theorems about them.

Conventions of the embedding.

* C strings are `String`; `strcmp(a, b) == 0` is `a = b`, `strlen` is `String.length`.
* A pointer that may be `NULL` is an `Option`.
* The structure declarations (`sos_priv.h`) are not part of the sources at hand.
  The `sizeof` values and limits they fix are collected in `sos_priv_h` and every
  function that uses one takes it as its first argument.  Integer fields are
  natural numbers: the development covers schemas whose sizes fit their fields.
* Calls that leave the schema layer (`calloc`, `strdup`, the ODS allocator, the
  index library) take their outcome from an explicit environment argument, so a
  theorem quantified over the environment covers every behaviour of the callee.
* `schema->data` and `attr->data` are pointers, either to storage embedded in the
  handle or into the persistent schema record.  The embedding keeps the pointee by
  value together with the place it lives in (`data_loc`).
* A value view's data pointer is the place it points to (the view's own buffer, a
  byte offset in a record, the payload of an array record); records live in the
  store of the object's partition, which the value functions take and return.
-/

namespace SOS

/-! ## errno values (Linux) -/

def ENOENT : Nat := 2
def ENOMEM : Nat := 12
def EBUSY : Nat := 16
def EEXIST : Nat := 17
def EINVAL : Nat := 22
def ENOSYS : Nat := 38

/-! ## Type tags -/

/-- Modelled from the spec: `enum sos_type_e` is declared in `sos/sos.h`, which is
not among the sources; the tags are numbered in the order in which the tables
`type_sizes`, `key_types` and `type_names` list them. -/
abbrev sos_type_t := Nat

def SOS_TYPE_INT32 : sos_type_t := 0
def SOS_TYPE_INT64 : sos_type_t := 1
def SOS_TYPE_UINT32 : sos_type_t := 2
def SOS_TYPE_UINT64 : sos_type_t := 3
def SOS_TYPE_FLOAT : sos_type_t := 4
def SOS_TYPE_DOUBLE : sos_type_t := 5
def SOS_TYPE_LONG_DOUBLE : sos_type_t := 6
def SOS_TYPE_TIMESTAMP : sos_type_t := 7
def SOS_TYPE_OBJ : sos_type_t := 8
def SOS_TYPE_BYTE_ARRAY : sos_type_t := 9
def SOS_TYPE_ARRAY : sos_type_t := 9
def SOS_TYPE_INT32_ARRAY : sos_type_t := 10
def SOS_TYPE_INT64_ARRAY : sos_type_t := 11
def SOS_TYPE_UINT32_ARRAY : sos_type_t := 12
def SOS_TYPE_UINT64_ARRAY : sos_type_t := 13
def SOS_TYPE_FLOAT_ARRAY : sos_type_t := 14
def SOS_TYPE_DOUBLE_ARRAY : sos_type_t := 15
def SOS_TYPE_LONG_DOUBLE_ARRAY : sos_type_t := 16
def SOS_TYPE_OBJ_ARRAY : sos_type_t := 17
def SOS_TYPE_LAST : sos_type_t := 17

/-- The table `type_sizes[]`: bytes an attribute of the type occupies inside the
record.  Tags past the end of the table read as 0; no caller gets that far. -/
def type_sizes : sos_type_t → Nat
  | 0 => 4
  | 1 => 8
  | 2 => 4
  | 3 => 8
  | 4 => 4
  | 5 => 8
  | 6 => 16
  | 7 => 8
  | 8 => 16
  | 9 => 8
  | 10 => 8
  | 11 => 8
  | 12 => 8
  | 13 => 8
  | 14 => 8
  | 15 => 8
  | 16 => 8
  | 17 => 8
  | _ => 0

/-- The table `key_types[]`: the default key type name of each type tag. -/
def key_types : sos_type_t → String
  | 0 => "INT32"
  | 1 => "INT64"
  | 2 => "UINT32"
  | 3 => "UINT64"
  | 4 => "FLOAT"
  | 5 => "DOUBLE"
  | 6 => "LONG_DOUBLE"
  | 7 => "UINT64"
  | 8 => "NONE"
  | 9 => "STRING"
  | 10 => "NONE"
  | 11 => "NONE"
  | 12 => "NONE"
  | 13 => "NONE"
  | 14 => "NONE"
  | 15 => "NONE"
  | 16 => "NONE"
  | 17 => "NONE"
  | _ => ""

/-! ## Declarations of `sos_priv.h` -/

/-- Modelled from the spec: the sizes and limits fixed by `sos_priv.h`, which is
not among the sources.  `sizeof_sos_obj_data_s` is the record header
(`sizeof(struct sos_obj_data_s)`), `sizeof_sos_schema_data_s` and
`sizeof_sos_attr_data_s` are the header and the per-attribute slot of a schema
record, `sizeof_sos_obj_ref_s` is the object-reference block, and
`SOS_SCHEMA_NAME_LEN` is the fixed length of a schema name. -/
structure sos_priv_h where
  sizeof_sos_obj_data_s : Nat
  sizeof_sos_schema_data_s : Nat
  sizeof_sos_attr_data_s : Nat
  sizeof_sos_obj_ref_s : Nat
  SOS_SCHEMA_NAME_LEN : Nat
  SOS_ODS_EXTEND_SZ : Nat
deriving DecidableEq, Repr

/-- Modelled from the spec: one choice of the `sos_priv.h` values, with the 8-byte
record header of the spec (`schema_id:u32, flags:u32`); used for concrete runs. -/
def sos_priv_default : sos_priv_h :=
  ⟨8, 296, 280, 16, 256, 1048576⟩

/-- A persistent reference `ods_ref_t`: a byte offset into an ODS, 0 is null. -/
abbrev ods_ref_t := Nat

/-- The persistent part of an attribute, `struct sos_attr_data_s`. -/
structure sos_attr_data_s where
  name : String
  id : Nat
  type : sos_type_t
  indexed : Nat
  offset : Nat
deriving DecidableEq, Repr

/-- One entry of an attribute's `idx_list`, `struct sos_idx_part_s`: the partition
it belongs to and the index opened for it (named by its path). -/
structure sos_idx_part_s where
  part_obj : String
  index : String
deriving DecidableEq, Repr

/-- An attribute handle, `struct sos_attr_s`.  `data` is `*attr->data`;
`data_loc` is `none` while `attr->data` points to the embedded `data_` and
`some (r, i)` once it points to slot `i` of the schema record at reference `r`.
`fn_type` is the type tag the four per-type functions were chosen for. -/
structure sos_attr_s where
  data : sos_attr_data_s
  data_loc : Option (ods_ref_t × Nat)
  fn_type : sos_type_t
  idx_type : Option String
  key_type : Option String
  idx_list : List sos_idx_part_s
deriving DecidableEq, Repr

/-- The persistent part of a schema, `struct sos_schema_data_s`, with its
trailing attribute dictionary `attr_dict[]`. -/
structure sos_schema_data_s where
  name : String
  ref_count : Nat
  id : Nat
  key_sz : Nat
  obj_sz : Nat
  schema_sz : Nat
  attr_cnt : Nat
  attr_dict : List sos_attr_data_s
deriving DecidableEq, Repr

/-- A schema handle, `struct sos_schema_s`.  `data` is `*schema->data`, `data_loc`
is `none` while `schema->data` points to the embedded `data_` and `some r` once it
points to the persistent record at `r`.  `schema_obj` is the handle of the
persistent schema object, named by its reference.  `dict` is the id table: an
attribute pointer is the position of the attribute in `attr_list`.  `has_sos`
tells whether the back-pointer `schema->sos` is set. -/
structure sos_schema_s where
  has_sos : Bool
  flags : Nat
  ref_count : Nat
  data : sos_schema_data_s
  data_loc : Option ods_ref_t
  schema_obj : Option ods_ref_t
  dict : Option (List (Option Nat))
  attr_list : List sos_attr_s
deriving DecidableEq, Repr

/-! ## Creating schemas and attributes -/

/-- Outcome of `sos_schema_new`. `crash` is the write through a null pointer at
`schema->ref_count = 1` when `calloc` failed. -/
inductive sos_schema_new_result where
  | null : sos_schema_new_result
  | crash : sos_schema_new_result
  | ok : sos_schema_s → sos_schema_new_result
deriving DecidableEq, Repr

/-- The function `sos_schema_new(name)`; `calloc_ok` is the outcome of `calloc`. -/
def sos_schema_new (P : sos_priv_h) (name : String) (calloc_ok : Bool) :
    sos_schema_new_result :=
  if name.length ≥ P.SOS_SCHEMA_NAME_LEN then .null
  else if calloc_ok then
    .ok { has_sos := false, flags := 0, ref_count := 1,
          data := { name := name, ref_count := 0, id := 0, key_sz := 0, obj_sz := 0,
                    schema_sz := 0, attr_cnt := 0, attr_dict := [] },
          data_loc := none, schema_obj := none, dict := none, attr_list := [] }
  else .crash

/-- Outcomes of the library calls made by `attr_new`: the `calloc` of the
attribute and the two `strdup`s. -/
structure attr_new_env where
  calloc_ok : Bool
  idx_type_ok : Bool
  key_type_ok : Bool
deriving DecidableEq, Repr

/-- The environment in which every allocation of `attr_new` succeeds. -/
def attr_new_env_ok : attr_new_env := ⟨true, true, true⟩

/-- The function `attr_new(schema, type)`: a zeroed attribute with its function
vector bound by type, index type "BXTREE" and the default key type. -/
def attr_new (type : sos_type_t) (env : attr_new_env) : Option sos_attr_s :=
  if env.calloc_ok then
    some { data := { name := "", id := 0, type := 0, indexed := 0, offset := 0 },
           data_loc := none,
           fn_type := type,
           idx_type := if env.idx_type_ok then some "BXTREE" else none,
           key_type := if env.key_type_ok then some (key_types type) else none,
           idx_list := [] }
  else none

/-- The function `_attr_by_name`: the first attribute of the list with that name. -/
def _attr_by_name (schema : sos_schema_s) (name : String) : Option sos_attr_s :=
  schema.attr_list.find? (fun attr => decide (name = attr.data.name))

/-- The function `sos_attr_size`. -/
def sos_attr_size (attr : sos_attr_s) : Nat := type_sizes attr.data.type

/-- The function `sos_schema_attr_add(schema, name, type)`; returns the error code
and the schema after the call.  The name is stored as given: the source copies
it with `strcpy` and does not test its length. -/
def sos_schema_attr_add (P : sos_priv_h) (schema : sos_schema_s) (name : String)
    (type : sos_type_t) (env : attr_new_env) : Nat × sos_schema_s :=
  if schema.schema_obj.isSome then (EBUSY, schema)
  else if (_attr_by_name schema name).isSome then (EEXIST, schema)
  else if type > SOS_TYPE_LAST then (EINVAL, schema)
  else
    let prev := schema.attr_list.getLast?
    match attr_new type env with
    | none => (ENOMEM, schema)
    | some attr0 =>
      let offset := match prev with
        | some p => p.data.offset + type_sizes p.data.type
        | none => P.sizeof_sos_obj_data_s
      let attr := { attr0 with
        data := { name := name, id := schema.data.attr_cnt, type := type,
                  indexed := attr0.data.indexed, offset := offset } }
      let a_size := sos_attr_size attr
      let key_sz := if a_size > schema.data.key_sz then a_size else schema.data.key_sz
      (0, { schema with
              data := { schema.data with
                          attr_cnt := schema.data.attr_cnt + 1,
                          key_sz := key_sz,
                          obj_sz := attr.data.offset + type_sizes attr.data.type },
              attr_list := schema.attr_list ++ [attr] })

/-- The attribute that `_attr_by_name` returns, updated in place by `f`: the store
through the returned pointer. -/
def attr_list_update (name : String) (f : sos_attr_s → sos_attr_s) :
    List sos_attr_s → List sos_attr_s
  | [] => []
  | attr :: rest =>
    if name = attr.data.name then f attr :: rest
    else attr :: attr_list_update name f rest

/-- The function `sos_schema_index_add(schema, name)`. -/
def sos_schema_index_add (schema : sos_schema_s) (name : String) : Nat × sos_schema_s :=
  if schema.schema_obj.isSome then (EBUSY, schema)
  else if (_attr_by_name schema name).isNone then (ENOENT, schema)
  else
    (0, { schema with
            attr_list := attr_list_update name
              (fun attr => { attr with data := { attr.data with indexed := 1 } })
              schema.attr_list })

/-- Outcomes of the two `strdup` calls of `sos_schema_index_modify`. -/
structure index_modify_env where
  idx_type_ok : Bool
  key_type_ok : Bool
deriving DecidableEq, Repr

/-- The function `sos_schema_index_modify(schema, name, idx_type, key_type)`.
`key_type` may be `NULL` (`none`); `strdup(NULL)` reads through the null pointer,
and the result is then `none`: the call does not return. -/
def sos_schema_index_modify (schema : sos_schema_s) (name : String) (idx_type : String)
    (key_type : Option String) (env : index_modify_env) : Option (Nat × sos_schema_s) :=
  if schema.schema_obj.isSome then some (EBUSY, schema)
  else if (_attr_by_name schema name).isNone then some (ENOENT, schema)
  else
    match key_type with
    | none => none
    | some kt =>
      some (0, { schema with
                   attr_list := attr_list_update name
                     (fun attr => { attr with
                        idx_type := if env.idx_type_ok then some idx_type else none,
                        key_type := if env.key_type_ok then some kt else none })
                     schema.attr_list })

/-- One attribute to add: the arguments of a `sos_schema_attr_add` call and the
outcome of its allocations. -/
structure attr_spec where
  name : String
  type : sos_type_t
  env : attr_new_env
deriving DecidableEq, Repr

/-- Successive `sos_schema_attr_add` calls on one schema, in list order, as a
caller building a schema makes them; the first error ends the sequence. -/
def sos_schema_attr_add_seq (P : sos_priv_h) (schema : sos_schema_s) :
    List attr_spec → Nat × sos_schema_s
  | [] => (0, schema)
  | a :: rest =>
    let r := sos_schema_attr_add P schema a.name a.type a.env
    if r.1 = 0 then sos_schema_attr_add_seq P r.2 rest else r

/-- Schemas a caller can build: `sos_schema_new` followed by any calls of
`sos_schema_attr_add`, `sos_schema_index_add` and `sos_schema_index_modify`. -/
inductive schema_reachable (P : sos_priv_h) : sos_schema_s → Prop where
  | new (name : String) (calloc_ok : Bool) (s : sos_schema_s) :
      sos_schema_new P name calloc_ok = .ok s → schema_reachable P s
  | attr_add (s : sos_schema_s) (name : String) (type : sos_type_t) (env : attr_new_env) :
      schema_reachable P s → schema_reachable P (sos_schema_attr_add P s name type env).2
  | index_add (s : sos_schema_s) (name : String) :
      schema_reachable P s → schema_reachable P (sos_schema_index_add s name).2
  | index_modify (s : sos_schema_s) (name idx_type : String) (key_type : Option String)
      (env : index_modify_env) (rc : Nat) (s' : sos_schema_s) :
      schema_reachable P s →
      sos_schema_index_modify s name idx_type key_type env = some (rc, s') →
      schema_reachable P s'

/-! ## Layout of the attributes inside the record -/

/-- Offsets of consecutive fields of the given sizes, starting at `base`. -/
def packed_offsets (base : Nat) : List Nat → List Nat
  | [] => []
  | t :: ts => base :: packed_offsets (base + t) ts

/-- The footprints of the attributes of a list, in order. -/
def attr_sizes (l : List sos_attr_s) : List Nat :=
  l.map (fun a => type_sizes a.data.type)

/-- The offsets of the attributes of a list, in order. -/
def attr_offsets (l : List sos_attr_s) : List Nat :=
  l.map (fun a => a.data.offset)

/-- What `sos_schema_attr_add` maintains on a mutable schema: the attributes are
packed one after the other from the record header on, their types are valid,
the record ends with the last attribute, and the count is the list length. -/
structure schema_inv (P : sos_priv_h) (s : sos_schema_s) : Prop where
  mutable_ : s.schema_obj = none
  packed : attr_offsets s.attr_list = packed_offsets P.sizeof_sos_obj_data_s (attr_sizes s.attr_list)
  types : ∀ a ∈ s.attr_list, a.data.type ≤ SOS_TYPE_LAST
  size : s.attr_list ≠ [] → s.data.obj_sz = P.sizeof_sos_obj_data_s + (attr_sizes s.attr_list).sum
  count : s.data.attr_cnt = s.attr_list.length

/-! ## Concrete schemas used to run the definitions -/

/-- The schema `sos_schema_new("E")` returns. -/
def ex_schema0 : sos_schema_s :=
  { has_sos := false, flags := 0, ref_count := 1,
    data := { name := "E", ref_count := 0, id := 0, key_sz := 0, obj_sz := 0,
              schema_sz := 0, attr_cnt := 0, attr_dict := [] },
    data_loc := none, schema_obj := none, dict := none, attr_list := [] }

/-- The schema "E" after `sos_schema_attr_add(schema, "First", SOS_TYPE_BYTE_ARRAY)`. -/
def ex_schema1 : sos_schema_s :=
  (sos_schema_attr_add sos_priv_default ex_schema0 "First" SOS_TYPE_BYTE_ARRAY
    attr_new_env_ok).2

/-- The three attributes of the layout scenario: INT32, INT64, BYTE_ARRAY. -/
def ex_specs : List attr_spec :=
  [⟨"a", SOS_TYPE_INT32, attr_new_env_ok⟩, ⟨"b", SOS_TYPE_INT64, attr_new_env_ok⟩,
   ⟨"c", SOS_TYPE_BYTE_ARRAY, attr_new_env_ok⟩]

/-! ## The object data store, as far as the schema layer uses it -/

/-- What a block of an ODS holds, for the blocks the schema layer writes: a block
not yet written, a schema record, an object-reference pair `struct sos_obj_ref_s`,
the bytes of a key, the data of a record (the 8-byte words written at byte
offsets of the block; a word never written reads as 0, the null reference), or
an array record (its `count` field and, for a byte array, the text stored in
its elements, `none` while the elements have not been written). -/
inductive ods_blob where
  | raw : ods_blob
  | schema : sos_schema_data_s → ods_blob
  | obj_ref : ods_ref_t → ods_ref_t → ods_blob
  | key : String → Nat → ods_blob
  | record : List (Nat × Nat) → ods_blob
  | array : Nat → Option String → ods_blob
deriving DecidableEq, Repr

/-- An allocated block: its reference, its size and its content. -/
structure ods_block where
  ref : ods_ref_t
  size : Nat
  blob : ods_blob
deriving DecidableEq, Repr

/-- Modelled from the spec: an object data store (the implementation, `ods.c`, is
not among the sources; `ods.h` declares it).  The store has a size in bytes,
grown by `ods_extend`, and a set of allocated blocks identified by their
references.  Which reference an allocation returns, and whether it fails, is not
fixed here: it is an argument of `ods_obj_alloc`. -/
structure ods_s where
  size : Nat
  blocks : List ods_block
deriving DecidableEq, Repr

/-- Modelled from the spec: `ods_obj_alloc(ods, sz)`, "returns a Ref to a block of at
least `sz` payload bytes, or fails"; `res` is the allocator's answer. -/
def ods_obj_alloc (ods : ods_s) (sz : Nat) (res : Option ods_ref_t) :
    Option ods_ref_t × ods_s :=
  match res with
  | none => (none, ods)
  | some r => (some r, { ods with blocks := ods.blocks ++ [⟨r, sz, .raw⟩] })

/-- Modelled from the spec: `ods_extend(ods, sz)`, "grows the file by at least `n`
bytes"; `rc` is its result, 0 on success. -/
def ods_extend (ods : ods_s) (sz : Nat) (rc : Nat) : Nat × ods_s :=
  if rc = 0 then (0, { ods with size := ods.size + sz }) else (rc, ods)

/-- Modelled from the spec: `ods_obj_delete(obj)`, "calls free on the underlying
Ref": the block is no longer allocated. -/
def ods_obj_delete (ods : ods_s) (ref : ods_ref_t) : ods_s :=
  { ods with blocks := ods.blocks.filter (fun b => b.ref ≠ ref) }

/-- A store into the block at `ref` through its handle. -/
def ods_obj_write (ods : ods_s) (ref : ods_ref_t) (blob : ods_blob) : ods_s :=
  { ods with blocks := ods.blocks.map (fun b => if b.ref = ref then { b with blob := blob } else b) }

/-- Modelled from the spec: `ods_ref_as_obj(ods, ref)`, "resolves an existing Ref
into a new handle; fails if the Ref is null or outside the mapping". -/
def ods_ref_as_obj (ods : ods_s) (ref : ods_ref_t) : Option ods_block :=
  if ref = 0 then none else ods.blocks.find? (fun b => b.ref = ref)

/-- Answers of the store to the calls of one `__sos_obj_new`. -/
structure obj_new_env where
  alloc1 : Option ods_ref_t
  extend_rc : Nat
  alloc2 : Option ods_ref_t
deriving DecidableEq, Repr

/-- The function `__sos_obj_new(ods, size, lock)`: allocate, and on failure extend
the store and allocate again. -/
def __sos_obj_new (P : sos_priv_h) (ods : ods_s) (size : Nat) (env : obj_new_env) :
    Option ods_ref_t × ods_s :=
  let extend_size :=
    if size < P.SOS_ODS_EXTEND_SZ then P.SOS_ODS_EXTEND_SZ else (size * 16) % 2 ^ 64
  match ods_obj_alloc ods size env.alloc1 with
  | (some r, ods1) => (some r, ods1)
  | (none, ods1) =>
    let e := ods_extend ods1 extend_size env.extend_rc
    if e.1 ≠ 0 then (none, e.2)
    else ods_obj_alloc e.2 size env.alloc2

/-! ## The container -/

/-- The part of `struct sos_container_s` the schema layer uses.  `schema_ods` is the
store of the schema records and `udata_dict` the id dictionary in its user data
(`dict_len` is the length of the list).  `schema_idx` is the name index: its own
store and its entries.  `schema_mem` holds the schema handles that are linked in
the two trees; a tree is the list of its nodes in insertion order, each node
named by the position of its schema in `schema_mem`, and compared through the
key pointer given to `rbn_init`.  `idx_files` are the paths of the attribute
indexes that exist. -/
structure sos_container_s where
  path : String
  primary_part : String
  schema_ods : ods_s
  udata_dict : List ods_ref_t
  schema_idx_ods : ods_s
  schema_idx : List (String × ods_ref_t)
  schema_mem : List sos_schema_s
  schema_name_rbt : List Nat
  schema_id_rbt : List Nat
  schema_count : Nat
  idx_files : List String
deriving DecidableEq, Repr

/-- The function `sos_schema_get` on a schema linked in the container. -/
def sos_schema_get (sos : sos_container_s) (p : Nat) : sos_container_s :=
  { sos with schema_mem := sos.schema_mem.modify (fun s => { s with ref_count := s.ref_count + 1 }) p }

/-- The call `rbt_find(&sos->schema_name_rbt, name)`. -/
def schema_name_rbt_find (sos : sos_container_s) (name : String) : Option Nat :=
  sos.schema_name_rbt.find? (fun p =>
    match sos.schema_mem[p]? with
    | some s => decide (s.data.name = name)
    | none => false)

/-- The call `rbt_find(&sos->schema_id_rbt, &id)`. -/
def schema_id_rbt_find (sos : sos_container_s) (id : Nat) : Option Nat :=
  sos.schema_id_rbt.find? (fun p =>
    match sos.schema_mem[p]? with
    | some s => decide (s.data.id = id)
    | none => false)

/-- The function `sos_schema_by_name(sos, name)`: the schema found, with a reference
taken on it, and the container after the call. -/
def sos_schema_by_name (sos : sos_container_s) (name : String) :
    Option Nat × sos_container_s :=
  match schema_name_rbt_find sos name with
  | none => (none, sos)
  | some p => (some p, sos_schema_get sos p)

/-- The function `sos_schema_by_id(sos, id)`. -/
def sos_schema_by_id (sos : sos_container_s) (id : Nat) : Option Nat × sos_container_s :=
  match schema_id_rbt_find sos id with
  | none => (none, sos)
  | some p => (some p, sos_schema_get sos p)

/-! ## Opening the attribute indexes -/

/-- Modelled from the spec: the index library (`ods_idx_open`, `ods_idx_create`) is
a collaborator outside the sources.  `ods_idx_open(path)` succeeds exactly when
an index exists at `path`; `ods_idx_create(path, ...)` returns `idx_create_rc path`
and, when that is 0, the index exists from then on.  `part_calloc name` is the
outcome of the `calloc` of the `sos_idx_part_s` for the attribute `name`. -/
structure schema_open_env where
  part_calloc : String → Bool
  idx_create_rc : String → Nat

/-- The loop of `__sos_schema_open` over the attribute list: the result code, the
attributes after the call and the index files that exist after it.  At the label
`retry` the index is opened; when it does not exist it is created and control
goes back to `retry`, where the open of the index just created succeeds. -/
def schema_open_attrs (sos_path part_name schema_name : String) (env : schema_open_env) :
    List sos_attr_s → List String → Nat × List sos_attr_s × List String
  | [], files => (0, [], files)
  | attr :: rest, files =>
    if attr.data.indexed = 0 then
      let r := schema_open_attrs sos_path part_name schema_name env rest files
      (r.1, attr :: r.2.1, r.2.2)
    else
      let tmp_path :=
        sos_path ++ "/" ++ part_name ++ "/" ++ schema_name ++ "_" ++ attr.data.name ++ "_idx"
      if env.part_calloc attr.data.name = false then (ENOMEM, attr :: rest, files)
      else
        let opened : sos_attr_s :=
          { attr with idx_list := attr.idx_list ++ [⟨part_name, tmp_path⟩] }
        if files.contains tmp_path then
          let r := schema_open_attrs sos_path part_name schema_name env rest files
          (r.1, opened :: r.2.1, r.2.2)
        else if env.idx_create_rc tmp_path ≠ 0 then
          (env.idx_create_rc tmp_path, attr :: rest, files)
        else
          let r := schema_open_attrs sos_path part_name schema_name env rest (tmp_path :: files)
          (r.1, opened :: r.2.1, r.2.2)

/-- The function `__sos_schema_open(sos, schema, part_obj)`, called with the primary
partition of the container. -/
def __sos_schema_open (sos : sos_container_s) (schema : sos_schema_s)
    (env : schema_open_env) : Nat × sos_container_s × sos_schema_s :=
  let r := schema_open_attrs sos.path sos.primary_part schema.data.name env
    schema.attr_list sos.idx_files
  (r.1, { sos with idx_files := r.2.2 }, { schema with attr_list := r.2.1 })

/-! ## Adding a schema to a container -/

/-- Answers of the environment to the calls of one `sos_schema_add`: whether
`ods_get_user_data` returns a handle, the result of `ods_stat` and the `errno` it
leaves, the three block allocations, the value found in the field `key_sz` of the
new record (which `sos_schema_add` does not write), the `calloc` of the id table,
the result of `ods_idx_insert`, and the environment of `__sos_schema_open`. -/
structure schema_add_env where
  udata_ok : Bool
  stat_rc : Nat
  stat_errno : Nat
  schema_obj : obj_new_env
  sos_obj_ref : obj_new_env
  schema_key : Option ods_ref_t
  fresh_key_sz : Nat
  dict_calloc : Bool
  idx_insert_rc : Nat
  open_env : schema_open_env

/-- The loop of `sos_schema_add` over the attribute list, from slot `idx` on: each
attribute is copied into its slot of the record at `ref` and repointed to it; an
indexed attribute without key type ends the loop with `EINVAL`.  Returns whether
the loop ran to its end, the attributes after it and the slots written. -/
def schema_add_attrs (ref : ods_ref_t) :
    Nat → List sos_attr_s → Bool × List sos_attr_s × List sos_attr_data_s
  | _, [] => (true, [], [])
  | idx, attr :: rest =>
    let attr1 : sos_attr_s := { attr with data_loc := some (ref, idx) }
    if attr.data.indexed ≠ 0 ∧ attr.key_type = none then
      (false, attr1 :: rest, [attr.data])
    else
      let r := schema_add_attrs ref (idx + 1) rest
      (r.1, attr1 :: r.2.1, attr.data :: r.2.2)

/-- The id table after the loop: `calloc` gave `attr_cnt` null entries, and entry
`i` points to the `i`-th attribute for each of the `n` attributes the loop went
through.  The table has `attr_cnt` entries; a store past its end (a list longer
than `attr_cnt`, which no call sequence produces) is not represented. -/
def schema_add_dict (attr_cnt n : Nat) : List (Option Nat) :=
  (List.range attr_cnt).map (fun i => if i < n then some i else none)

/-- The label `err_1` of `sos_schema_add`: delete the schema record. -/
def sos_schema_add_err_1 (sos : sos_container_s) (schema_obj : ods_ref_t) : sos_container_s :=
  { sos with schema_ods := ods_obj_delete sos.schema_ods schema_obj }

/-- The label `err_2` of `sos_schema_add`: delete the object-reference block, then
`err_1`. -/
def sos_schema_add_err_2 (sos : sos_container_s) (schema_obj sos_obj_ref : ods_ref_t) :
    sos_container_s :=
  sos_schema_add_err_1
    { sos with schema_idx_ods := ods_obj_delete sos.schema_idx_ods sos_obj_ref } schema_obj

/-- The label `err_3` of `sos_schema_add`: delete the key, then `err_2`. -/
def sos_schema_add_err_3 (sos : sos_container_s) (schema_obj sos_obj_ref schema_key : ods_ref_t) :
    sos_container_s :=
  sos_schema_add_err_2
    { sos with schema_idx_ods := ods_obj_delete sos.schema_idx_ods schema_key }
    schema_obj sos_obj_ref

/-- The function `sos_schema_add(sos, schema)`: the result code, the container after
the call and the caller's schema after the call.  The schema linked into the two
trees is the caller's object, so `schema_mem` receives its state at return.  `rc`
is the local variable of that name; it holds the result of `ods_stat` until a
later statement assigns it.  The id dictionary is appended to without a bound
check, as in the source.  Handles (`ods_obj_put`) are not tracked: a handle is
named by the reference of its block.  The object-reference block is requested
with `sizeof *sos_obj_ref`, the size of the handle structure the variable points
to; here the request is for the size of the pair the block holds, and nothing
below depends on the size of that block. -/
def sos_schema_add (P : sos_priv_h) (sos : sos_container_s) (schema : sos_schema_s)
    (env : schema_add_env) : Nat × sos_container_s × sos_schema_s :=
  if schema.schema_obj.isSome then (EBUSY, sos, schema)
  else
    let found := sos_schema_by_name sos schema.data.name
    if found.1.isSome then (EEXIST, found.2, schema)
    else
      let sos0 := found.2
      if env.udata_ok = false then (ENOMEM, sos0, schema)
      else if env.stat_rc ≠ 0 then (env.stat_errno, sos0, schema)
      else
        let rc := env.stat_rc
        let size := P.sizeof_sos_schema_data_s + schema.data.attr_cnt * P.sizeof_sos_attr_data_s
        let a1 := __sos_obj_new P sos0.schema_ods size env.schema_obj
        let sos1 := { sos0 with schema_ods := a1.2 }
        match a1.1 with
        | none => (ENOMEM, sos1, schema)
        | some schema_obj =>
          let a2 := __sos_obj_new P sos1.schema_idx_ods P.sizeof_sos_obj_ref_s env.sos_obj_ref
          let sos2 := { sos1 with schema_idx_ods := a2.2 }
          match a2.1 with
          | none => (rc, sos_schema_add_err_1 sos2 schema_obj, schema)
          | some sos_obj_ref =>
            let sos3 := { sos2 with
              schema_idx_ods := ods_obj_write sos2.schema_idx_ods sos_obj_ref (.obj_ref 0 schema_obj) }
            let key_len := schema.data.name.length + 1
            let a3 := ods_obj_alloc sos3.schema_idx_ods key_len env.schema_key
            let sos4 := { sos3 with schema_idx_ods := a3.2 }
            match a3.1 with
            | none => (ENOMEM, sos_schema_add_err_2 sos4 schema_obj sos_obj_ref, schema)
            | some schema_key =>
              let sos5 := { sos4 with
                schema_idx_ods :=
                  ods_obj_write sos4.schema_idx_ods schema_key (.key schema.data.name key_len) }
              let schema1 := { schema with schema_obj := some schema_obj, has_sos := true }
              let rec0 : sos_schema_data_s :=
                { name := schema.data.name, ref_count := 0, id := sos5.udata_dict.length,
                  key_sz := env.fresh_key_sz, obj_sz := schema.data.obj_sz, schema_sz := size,
                  attr_cnt := schema.data.attr_cnt, attr_dict := [] }
              if env.dict_calloc = false then
                (rc, sos_schema_add_err_3 sos5 schema_obj sos_obj_ref schema_key,
                  { schema1 with dict := none })
              else
                let l := schema_add_attrs schema_obj 0 schema.attr_list
                if l.1 = false then
                  (EINVAL, sos_schema_add_err_3 sos5 schema_obj sos_obj_ref schema_key,
                    { schema1 with
                        dict := some (schema_add_dict schema.data.attr_cnt (l.2.2.length - 1)),
                        attr_list := l.2.1 })
                else
                  let rec1 : sos_schema_data_s := { rec0 with attr_dict := l.2.2 }
                  let schema2 := { schema1 with
                    dict := some (schema_add_dict schema.data.attr_cnt l.2.2.length),
                    attr_list := l.2.1, data := rec1, data_loc := some schema_obj }
                  if env.idx_insert_rc ≠ 0 then
                    (env.idx_insert_rc,
                      sos_schema_add_err_3 sos5 schema_obj sos_obj_ref schema_key, schema2)
                  else
                    let sos6 := { sos5 with
                      schema_ods := ods_obj_write sos5.schema_ods schema_obj (.schema rec1),
                      schema_idx := sos5.schema_idx ++ [(schema.data.name, sos_obj_ref)],
                      udata_dict := sos5.udata_dict ++ [schema_obj] }
                    let o := __sos_schema_open sos6 schema2 env.open_env
                    (o.1,
                      { o.2.1 with
                          schema_mem := o.2.1.schema_mem ++ [o.2.2],
                          schema_name_rbt := o.2.1.schema_name_rbt ++ [o.2.1.schema_mem.length],
                          schema_id_rbt := o.2.1.schema_id_rbt ++ [o.2.1.schema_mem.length],
                          schema_count := o.2.1.schema_count + 1 },
                      o.2.2)

/-! ## Rebuilding a schema from its record -/

/-- Outcomes of the allocations of one `__sos_schema_init`: the `calloc` of the
schema, the `calloc` of the id table, and the allocations of `attr_new` for the
attribute of each slot. -/
structure schema_init_env where
  schema_calloc : Bool
  dict_calloc : Bool
  attr_env : Nat → attr_new_env

/-- The loop of `__sos_schema_init`: `n` more slots from slot `idx` on; `none` when
an `attr_new` fails.  A slot past the end of the record reads as zeroes. -/
def schema_init_attrs (ref : ods_ref_t) (d : sos_schema_data_s) (env : schema_init_env) :
    Nat → Nat → Option (List sos_attr_s)
  | 0, _ => some []
  | n + 1, idx =>
    let slot := d.attr_dict.getD idx ⟨"", 0, 0, 0, 0⟩
    match attr_new slot.type (env.attr_env idx) with
    | none => none
    | some attr =>
      match schema_init_attrs ref d env n (idx + 1) with
      | none => none
      | some rest => some ({ attr with data := slot, data_loc := some (ref, idx) } :: rest)

/-- The function `__sos_schema_init(sos, schema_obj)`; the handle `schema_obj` is
given by its reference and the schema record it points to.  Returns the new
schema, by its position in `schema_mem`, and the container after the call. -/
def __sos_schema_init (sos : sos_container_s) (schema_obj : Option (ods_ref_t × sos_schema_data_s))
    (env : schema_init_env) : Option Nat × sos_container_s :=
  match schema_obj with
  | none => (none, sos)
  | some (ref, d) =>
    if env.schema_calloc = false then (none, sos)
    else if env.dict_calloc = false then (none, sos)
    else
      match schema_init_attrs ref d env d.attr_cnt 0 with
      | none => (none, sos)
      | some attrs =>
        let schema : sos_schema_s :=
          { has_sos := true, flags := 0, ref_count := 1, data := d, data_loc := some ref,
            schema_obj := some ref,
            dict := some ((List.range d.attr_cnt).map some),
            attr_list := attrs }
        (some sos.schema_mem.length,
          { sos with
              schema_mem := sos.schema_mem ++ [schema],
              schema_name_rbt := sos.schema_name_rbt ++ [sos.schema_mem.length],
              schema_id_rbt := sos.schema_id_rbt ++ [sos.schema_mem.length],
              schema_count := sos.schema_count + 1 })

/-- The schema record a handle on the block at `ref` points to. -/
def ods_schema_obj (ods : ods_s) (ref : ods_ref_t) : Option (ods_ref_t × sos_schema_data_s) :=
  match ods_ref_as_obj ods ref with
  | some ⟨r, _, .schema d⟩ => some (r, d)
  | _ => none

/-- A container with no schema: empty trees, empty id dictionary, empty stores. -/
def ex_sos0 : sos_container_s :=
  { path := "/c", primary_part := "p", schema_ods := ⟨4096, []⟩, udata_dict := [],
    schema_idx_ods := ⟨4096, []⟩, schema_idx := [], schema_mem := [], schema_name_rbt := [],
    schema_id_rbt := [], schema_count := 0, idx_files := [] }

/-- An environment in which every call of `__sos_schema_open` succeeds. -/
def ex_open_env : schema_open_env := ⟨fun _ => true, fun _ => 0⟩

/-- An environment in which every call of `sos_schema_add` succeeds; the three
blocks are allocated at 64 (schema record), 128 (object reference), 192 (key). -/
def ex_add_env : schema_add_env :=
  { udata_ok := true, stat_rc := 0, stat_errno := 0, schema_obj := ⟨some 64, 0, none⟩,
    sos_obj_ref := ⟨some 128, 0, none⟩, schema_key := some 192, fresh_key_sz := 0,
    dict_calloc := true, idx_insert_rc := 0, open_env := ex_open_env }

/-- The schema "E" with the attributes First (BYTE_ARRAY, indexed) and Salary
(FLOAT), built as `sos_schema_from_template` builds it. -/
def ex_schema2 : sos_schema_s :=
  (sos_schema_attr_add sos_priv_default (sos_schema_index_add ex_schema1 "First").2 "Salary"
    SOS_TYPE_FLOAT attr_new_env_ok).2

/-- An environment in which every allocation of `__sos_schema_init` succeeds. -/
def ex_init_env : schema_init_env := ⟨true, true, fun _ => attr_new_env_ok⟩

/-! ## Containers reached by adding schemas -/

/-- Containers reached from one without schemas by calls of `sos_schema_add`,
whatever each call returns. -/
inductive container_reachable (P : sos_priv_h) : sos_container_s → Prop where
  | start (sos : sos_container_s) :
      sos.schema_mem = [] → sos.schema_name_rbt = [] → sos.schema_id_rbt = [] →
      container_reachable P sos
  | add (sos : sos_container_s) (schema : sos_schema_s) (env : schema_add_env) :
      container_reachable P sos → container_reachable P (sos_schema_add P sos schema env).2.1

/-- What `sos_schema_add` maintains on a container: both trees link every schema of
`schema_mem` once, two schemas differ in name and in id, and every id is below
the length of the id dictionary. -/
structure container_inv (sos : sos_container_s) : Prop where
  name_rbt : sos.schema_name_rbt = List.range sos.schema_mem.length
  id_rbt : sos.schema_id_rbt = List.range sos.schema_mem.length
  names : ∀ (p q : Nat) (S T : sos_schema_s), sos.schema_mem[p]? = some S → sos.schema_mem[q]? = some T →
    S.data.name = T.data.name → p = q
  ids : ∀ (p q : Nat) (S T : sos_schema_s), sos.schema_mem[p]? = some S → sos.schema_mem[q]? = some T →
    S.data.id = T.data.id → p = q
  ids_lt : ∀ (p : Nat) (S : sos_schema_s), sos.schema_mem[p]? = some S → S.data.id < sos.udata_dict.length

/-- The container after `sos_schema_add(sos, schema)` of the schema "E" (First,
Salary), every call succeeding. -/
def ex_sos1 : sos_container_s :=
  (sos_schema_add sos_priv_default ex_sos0 ex_schema2 ex_add_env).2.1

/-- As `ex_add_env`, but the object-reference block cannot be allocated: the first
allocation fails and `ods_extend` fails with `ENOMEM`. -/
def ex_add_env_no_ref : schema_add_env :=
  { ex_add_env with sos_obj_ref := ⟨none, ENOMEM, none⟩ }

/-- As `ex_add_env`, but the `calloc` of the id table returns `NULL`. -/
def ex_add_env_no_dict : schema_add_env :=
  { ex_add_env with dict_calloc := false }

/-- As `ex_add_env`, but `ods_idx_insert` fails with `ENOMEM`. -/
def ex_add_env_no_insert : schema_add_env :=
  { ex_add_env with idx_insert_rc := ENOMEM }

/-- As `ex_add_env`, but `__sos_schema_open` cannot allocate its index part. -/
def ex_add_env_no_open : schema_add_env :=
  { ex_add_env with open_env := ⟨fun _ => false, fun _ => 0⟩ }

/-! ## Releasing a schema and building one from a template -/

/-- What one call of `__sos_schema_free` releases: the reference dropped on the
persistent schema object (if one is attached), the indexes closed with
`ods_idx_close`, and the attributes freed, in list order; the schema itself is
freed last. -/
structure schema_free_log where
  obj_put : Option ods_ref_t
  idx_closed : List String
  attrs_freed : List sos_attr_s
deriving DecidableEq, Repr

/-- The function `__sos_schema_free(schema)`.  It reads `schema->schema_obj` first,
so a null `schema` is a read through the null pointer: the result is then `none`,
the call does not return. -/
def __sos_schema_free (schema : Option sos_schema_s) : Option schema_free_log :=
  match schema with
  | none => none
  | some s =>
    some { obj_put := s.schema_obj,
           idx_closed := (s.attr_list.map (fun a => a.idx_list.map (fun p => p.index))).flatten,
           attrs_freed := s.attr_list }

/-- Modelled from the spec: one entry of `struct sos_schema_template` (declared in
`sos/sos.h`, not among the sources), from its use in `sos_schema_from_template`
and the example of its doc comment: an attribute name (null in the terminating
entry), a type and an indexed flag. -/
structure sos_schema_template_attr where
  name : Option String
  type : sos_type_t
  indexed : Nat
deriving DecidableEq, Repr

/-- Modelled from the spec: `struct sos_schema_template`, a schema name and the
array `attrs[]` of its entries. -/
structure sos_schema_template where
  name : String
  attrs : List sos_schema_template_attr
deriving DecidableEq, Repr

/-- Outcome of `sos_schema_from_template`: `NULL` after `__sos_schema_free` released
what the log says; a schema; `crash`, a read or write through a null pointer; or
`overrun`, when the loop has read past the end of an array `attrs[]` that has no
terminating entry, after which the behaviour is not defined. -/
inductive sos_schema_from_template_result where
  | null : schema_free_log → sos_schema_from_template_result
  | ok : sos_schema_s → sos_schema_from_template_result
  | crash : sos_schema_from_template_result
  | overrun : sos_schema_from_template_result
deriving DecidableEq, Repr

/-- Outcomes of the allocations of one `sos_schema_from_template`: the `calloc` of
`sos_schema_new` and the allocations of `attr_new` for entry `i`. -/
structure from_template_env where
  calloc_ok : Bool
  attr_env : Nat → attr_new_env

/-- The label `err` of `sos_schema_from_template`: free the schema and return
`NULL`. -/
def sos_schema_from_template_err (schema : Option sos_schema_s) :
    sos_schema_from_template_result :=
  match __sos_schema_free schema with
  | none => .crash
  | some log => .null log

/-- The loop of `sos_schema_from_template` from entry `i` on. -/
def sos_schema_from_template_loop (P : sos_priv_h) (env : from_template_env) :
    Nat → sos_schema_s → List sos_schema_template_attr → sos_schema_from_template_result
  | _, _, [] => .overrun
  | i, schema, e :: rest =>
    match e.name with
    | none => .ok schema
    | some name =>
      let r := sos_schema_attr_add P schema name e.type (env.attr_env i)
      if r.1 ≠ 0 then sos_schema_from_template_err (some r.2)
      else if e.indexed ≠ 0 then
        let r2 := sos_schema_index_add r.2 name
        if r2.1 ≠ 0 then sos_schema_from_template_err (some r2.2)
        else sos_schema_from_template_loop P env (i + 1) r2.2 rest
      else sos_schema_from_template_loop P env (i + 1) r.2 rest

/-- The function `sos_schema_from_template(t)`. -/
def sos_schema_from_template (P : sos_priv_h) (t : sos_schema_template)
    (env : from_template_env) : sos_schema_from_template_result :=
  match sos_schema_new P t.name env.calloc_ok with
  | .crash => .crash
  | .null => sos_schema_from_template_err none
  | .ok schema => sos_schema_from_template_loop P env 0 schema t.attrs

/-- The entries of a template before its first null-name entry, as (name, type,
indexed flag). -/
def template_entries : List sos_schema_template_attr → List (String × sos_type_t × Nat)
  | [] => []
  | e :: rest =>
    match e.name with
    | none => []
    | some name => (name, e.type, e.indexed) :: template_entries rest

/-- The schema the specification describes for a template, from the schema
`sos_schema_new` returned: for each entry, in order, `sos_schema_attr_add` and,
when the indexed flag is set, `sos_schema_index_add`.  Entry `i` takes the
allocation outcomes `env i`. -/
def schema_from_template_spec (P : sos_priv_h) (env : Nat → attr_new_env) :
    Nat → sos_schema_s → List (String × sos_type_t × Nat) → sos_schema_s
  | _, schema, [] => schema
  | i, schema, (name, type, indexed) :: rest =>
    let s1 := (sos_schema_attr_add P schema name type (env i)).2
    let s2 := if indexed ≠ 0 then (sos_schema_index_add s1 name).2 else s1
    schema_from_template_spec P env (i + 1) s2 rest

/-- The template of the doc comment of `sos_schema_from_template`, for the schema
"E": First (BYTE_ARRAY, indexed), Salary (FLOAT), the terminator, and one entry
after it. -/
def ex_template : sos_schema_template :=
  { name := "E",
    attrs := [⟨some "First", SOS_TYPE_BYTE_ARRAY, 1⟩, ⟨some "Salary", SOS_TYPE_FLOAT, 0⟩,
              ⟨none, 0, 0⟩, ⟨some "Ignored", SOS_TYPE_INT32, 0⟩] }

/-- A template whose name has 256 characters, the value of `SOS_SCHEMA_NAME_LEN` in
`sos_priv_default`. -/
def ex_template_long : sos_schema_template :=
  { name := String.mk (List.replicate 256 'E'), attrs := [⟨none, 0, 0⟩] }

/-- An environment in which every allocation of `sos_schema_from_template`
succeeds. -/
def ex_template_env : from_template_env := ⟨true, fun _ => attr_new_env_ok⟩

/-- The key type table as the specification words it: INT32 gives "INT32",
TIMESTAMP gives "UINT64", BYTE_ARRAY gives "STRING", every other tag "NONE". -/
def default_key_type_spec (t : sos_type_t) : String :=
  if t = SOS_TYPE_INT32 then "INT32"
  else if t = SOS_TYPE_TIMESTAMP then "UINT64"
  else if t = SOS_TYPE_BYTE_ARRAY then "STRING"
  else "NONE"

/-- As `ex_add_env`, but the schema record cannot be allocated. -/
def ex_add_env_no_record : schema_add_env :=
  { ex_add_env with schema_obj := ⟨none, ENOMEM, none⟩ }

/-- As `ex_add_env`, but the key block cannot be allocated. -/
def ex_add_env_no_key : schema_add_env :=
  { ex_add_env with schema_key := none }

/-- The natural width of a primitive type as the specification gives it: 4 for
INT32, UINT32 and FLOAT, 8 for INT64, UINT64, DOUBLE and TIMESTAMP, 16 for
LONG_DOUBLE; `none` for the types that are not primitive (OBJ and the arrays). -/
def natural_width_spec (t : sos_type_t) : Option Nat :=
  if t = SOS_TYPE_INT32 ∨ t = SOS_TYPE_UINT32 ∨ t = SOS_TYPE_FLOAT then some 4
  else if t = SOS_TYPE_INT64 ∨ t = SOS_TYPE_UINT64 ∨ t = SOS_TYPE_DOUBLE ∨
      t = SOS_TYPE_TIMESTAMP then some 8
  else if t = SOS_TYPE_LONG_DOUBLE then some 16
  else none

/-- The schema "E" after the three attributes of `ex_specs`: INT32, INT64,
BYTE_ARRAY. -/
def ex_schema_packed : sos_schema_s :=
  (sos_schema_attr_add_seq sos_priv_default ex_schema0 ex_specs).2

/-- A template with the attribute name First twice. -/
def ex_template_dup : sos_schema_template :=
  { name := "E",
    attrs := [⟨some "First", SOS_TYPE_BYTE_ARRAY, 1⟩, ⟨some "First", SOS_TYPE_FLOAT, 0⟩,
              ⟨none, 0, 0⟩] }

/-! ## Element sizes, reference types and the internal schemas -/

/-- The table `element_sizes[]`; it has no entry for TIMESTAMP, which reads as 0,
and tags past its end read as 0. -/
def element_sizes : sos_type_t → Nat
  | 0 => 4
  | 1 => 8
  | 2 => 4
  | 3 => 8
  | 4 => 4
  | 5 => 8
  | 6 => 16
  | 8 => 16
  | 9 => 1
  | 10 => 4
  | 11 => 8
  | 12 => 4
  | 13 => 8
  | 14 => 4
  | 15 => 8
  | 16 => 16
  | 17 => 8
  | _ => 0

/-- The function `sos_attr_is_ref`. -/
def sos_attr_is_ref (attr : sos_attr_s) : Bool := decide (attr.data.type ≥ SOS_TYPE_OBJ)

/-- The function `sos_attr_is_array`. -/
def sos_attr_is_array (attr : sos_attr_s) : Bool := decide (attr.data.type ≥ SOS_TYPE_ARRAY)

/-- The function `sos_attr_type`. -/
def sos_attr_type (attr : sos_attr_s) : sos_type_t := attr.data.type

/-- Modelled from the spec: the flag bit `SOS_SCHEMA_F_INTERNAL` of `sos_priv.h`, which
marks the statically allocated schemas. -/
def SOS_SCHEMA_F_INTERNAL : Nat := 1

/-- Modelled from the spec: the enumeration constants `SOS_ISCHEMA_*` of `sos_priv.h`,
the "stable predetermined" ids of the internal schemas.  Their values are not in
the sources; they are parameters of the model. -/
structure sos_ischema_ids where
  SOS_ISCHEMA_OBJ : Nat
  SOS_ISCHEMA_BYTE_ARRAY : Nat
  SOS_ISCHEMA_INT32_ARRAY : Nat
  SOS_ISCHEMA_INT64_ARRAY : Nat
  SOS_ISCHEMA_UINT32_ARRAY : Nat
  SOS_ISCHEMA_UINT64_ARRAY : Nat
  SOS_ISCHEMA_FLOAT_ARRAY : Nat
  SOS_ISCHEMA_DOUBLE_ARRAY : Nat
  SOS_ISCHEMA_LONG_DOUBLE_ARRAY : Nat
  SOS_ISCHEMA_OBJ_ARRAY : Nat
deriving DecidableEq, Repr

/-- Modelled from the spec: one choice of pairwise distinct `SOS_ISCHEMA_*` values (the
type tags); used for concrete runs. -/
def sos_ischema_ids_default : sos_ischema_ids := ⟨8, 9, 10, 11, 12, 13, 14, 15, 16, 17⟩

/-- Modelled from the spec: `sizeof(long double)`, 16 ("LONG_DOUBLE is 16"). -/
def sizeof_long_double : Nat := 16

/-- The size `sizeof(ods_ref_t)`: `ods.h` declares `ods_ref_t` as `uint64_t`. -/
def sizeof_ods_ref_t : Nat := 8

/-- The ten statically defined internal schemas, by the names of the variables. -/
inductive sos_ischema where
  | sos_obj_ischema : sos_ischema
  | sos_byte_array_ischema : sos_ischema
  | sos_int32_array_ischema : sos_ischema
  | sos_int64_array_ischema : sos_ischema
  | sos_uint32_array_ischema : sos_ischema
  | sos_uint64_array_ischema : sos_ischema
  | sos_float_array_ischema : sos_ischema
  | sos_double_array_ischema : sos_ischema
  | sos_long_double_array_ischema : sos_ischema
  | sos_obj_array_ischema : sos_ischema
deriving DecidableEq, Repr

/-- An internal schema as its initializer leaves it: flags `SOS_SCHEMA_F_INTERNAL`,
reference count 1, `data` on the embedded `data_` with the given name, id and
`obj_sz` and reference count 1; every field the initializer does not name is
zero. -/
def ischema_static (name : String) (id obj_sz : Nat) : sos_schema_s :=
  { has_sos := false, flags := SOS_SCHEMA_F_INTERNAL, ref_count := 1,
    data := { name := name, ref_count := 1, id := id, key_sz := 0, obj_sz := obj_sz,
              schema_sz := 0, attr_cnt := 0, attr_dict := [] },
    data_loc := none, schema_obj := none, dict := none, attr_list := [] }

/-- The initializers of the ten internal schemas. -/
def sos_ischema_value (P : sos_priv_h) (I : sos_ischema_ids) : sos_ischema → sos_schema_s
  | .sos_obj_ischema => ischema_static "ISCHEMA_OBJ" I.SOS_ISCHEMA_OBJ sizeof_ods_ref_t
  | .sos_byte_array_ischema => ischema_static "BYTE_ARRAY" I.SOS_ISCHEMA_BYTE_ARRAY 1
  | .sos_int32_array_ischema => ischema_static "INT32_ARRAY" I.SOS_ISCHEMA_INT32_ARRAY 4
  | .sos_int64_array_ischema => ischema_static "INT64_ARRAY" I.SOS_ISCHEMA_INT64_ARRAY 8
  | .sos_uint32_array_ischema => ischema_static "UINT32_ARRAY" I.SOS_ISCHEMA_BYTE_ARRAY 4
  | .sos_uint64_array_ischema => ischema_static "UINT64_ARRAY" I.SOS_ISCHEMA_UINT64_ARRAY 8
  | .sos_float_array_ischema => ischema_static "ISCHEMA_FLOAT_ARRAY" I.SOS_ISCHEMA_FLOAT_ARRAY 4
  | .sos_double_array_ischema => ischema_static "DOUBLE_ARRAY" I.SOS_ISCHEMA_DOUBLE_ARRAY 8
  | .sos_long_double_array_ischema =>
    ischema_static "LONG_DOUBLE_ARRAY" I.SOS_ISCHEMA_LONG_DOUBLE_ARRAY sizeof_long_double
  | .sos_obj_array_ischema =>
    ischema_static "OBJ_ARRAY" I.SOS_ISCHEMA_OBJ_ARRAY P.sizeof_sos_obj_ref_s

/-- The function `get_ischema(type)`: the internal schema the `switch` returns.  The
result is `none` when the assertion `type >= SOS_TYPE_OBJ` fails and when no
`case` matches, where the function ends without a `return`. -/
def get_ischema (type : sos_type_t) : Option sos_ischema :=
  if type < SOS_TYPE_OBJ then none
  else match type with
    | 8 => some .sos_obj_ischema
    | 9 => some .sos_byte_array_ischema
    | 10 => some .sos_int32_array_ischema
    | 11 => some .sos_int64_array_ischema
    | 12 => some .sos_uint32_array_ischema
    | 13 => some .sos_uint64_array_ischema
    | 14 => some .sos_float_array_ischema
    | 15 => some .sos_double_array_ischema
    | 16 => some .sos_long_double_array_ischema
    | 17 => some .sos_obj_array_ischema
    | _ => none

/-! ## Reference counting of schemas -/

/-- Modelled from the spec: `ods_atomic_inc` of `sos/ods_atomic.h` (not among the
sources), the increment of a reference counter; the new value.  The width of the
counter is not in the sources; the counter is taken not to overflow. -/
def ods_atomic_inc (n : Nat) : Nat := n + 1

/-- Modelled from the spec: `ods_atomic_dec`, the decrement of a reference counter;
the new value.  A counter at 0 wraps, as an unsigned 32-bit one does. -/
def ods_atomic_dec (n : Nat) : Nat := if n = 0 then 2 ^ 32 - 1 else n - 1

/-- The function `sos_schema_get(schema)` on a schema given by value: the schema
after the call.  The pointer returned is the argument. -/
def sos_schema_get_val (schema : sos_schema_s) : sos_schema_s :=
  { schema with ref_count := ods_atomic_inc schema.ref_count }

/-- Outcome of `sos_schema_put`: `noop`, the call returned at once (null or
internal schema); `alive`, the count was decremented and is not zero; `freed`,
the count reached zero and `__sos_schema_free` released the schema; `crash`, which
`__sos_schema_free` gives on a null schema. -/
inductive sos_schema_put_result where
  | noop : Option sos_schema_s → sos_schema_put_result
  | alive : sos_schema_s → sos_schema_put_result
  | freed : schema_free_log → sos_schema_put_result
  | crash : sos_schema_put_result
deriving DecidableEq, Repr

/-- The function `sos_schema_put(schema)`. -/
def sos_schema_put (schema : Option sos_schema_s) : sos_schema_put_result :=
  match schema with
  | none => .noop none
  | some s =>
    if s.flags &&& SOS_SCHEMA_F_INTERNAL ≠ 0 then .noop (some s)
    else
      let s1 := { s with ref_count := ods_atomic_dec s.ref_count }
      if s1.ref_count = 0 then
        match __sos_schema_free (some s1) with
        | none => .crash
        | some log => .freed log
      else .alive s1

/-- A call on a schema handle: `sos_schema_get` or `sos_schema_put`. -/
inductive schema_ref_op where
  | get : schema_ref_op
  | put : schema_ref_op
deriving DecidableEq, Repr

/-- What a caller's schema pointer refers to in the course of a sequence of calls:
the null pointer, a live schema, memory that `__sos_schema_free` has released, or,
once a call has read through a null pointer or used released memory, nothing
defined. -/
inductive schema_life where
  | null : schema_life
  | live : sos_schema_s → schema_life
  | freed : schema_free_log → schema_life
  | undefined : schema_life
deriving DecidableEq, Repr

/-- One call on the schema a pointer refers to. -/
def schema_life_step : schema_life → schema_ref_op → schema_life
  | .null, .get => .undefined
  | .null, .put =>
    match sos_schema_put none with
    | .noop _ => .null
    | _ => .undefined
  | .live s, .get => .live (sos_schema_get_val s)
  | .live s, .put =>
    match sos_schema_put (some s) with
    | .noop _ => .live s
    | .alive s1 => .live s1
    | .freed log => .freed log
    | .crash => .undefined
  | .freed _, _ => .undefined
  | .undefined, _ => .undefined

/-- A sequence of calls on one schema pointer, in order. -/
def schema_life_run (st : schema_life) (ops : List schema_ref_op) : schema_life :=
  ops.foldl schema_life_step st

/-- The number of `sos_schema_get` calls in a sequence. -/
def schema_ref_gets (ops : List schema_ref_op) : Nat := ops.count .get

/-- The number of `sos_schema_put` calls in a sequence. -/
def schema_ref_puts (ops : List schema_ref_op) : Nat := ops.count .put

/-! ## Objects and value views -/

/-- An object handle `sos_obj_t`, as far as the value layer reads it: `obj`, the ODS
handle of the record, named by the record's reference in the store of the
object's partition (`obj->part->obj_ods`), and `schema`, the internal schema the
handle was initialised with (`none` in the handle of a record of a user schema,
and where `get_ischema` returned nothing defined). -/
structure sos_obj_s where
  schema : Option sos_ischema
  obj : ods_ref_t
deriving DecidableEq, Repr

/-- Where the data pointer of a view points: to the view's own buffer
(`&val->data_`), into a record at a byte offset (`&obj->obj->as.bytes[offset]`), or
to the payload of an array record (`&SOS_OBJ(array_obj)->data[0]`). -/
inductive sos_value_data_ptr where
  | data_ : sos_value_data_ptr
  | bytes : ods_ref_t → Nat → sos_value_data_ptr
  | array : ods_ref_t → sos_value_data_ptr
deriving DecidableEq, Repr

/-- A value view, `struct sos_value_s`: the attribute, the object handle and the
data pointer; `none` is the null pointer. -/
structure sos_value_s where
  attr : Option sos_attr_s
  obj : Option sos_obj_s
  data : Option sos_value_data_ptr
deriving DecidableEq, Repr

/-- What a function returning a `sos_value_t` gives: the view, the null pointer
together with the `errno` it set (if it set one), or nothing defined. -/
inductive sos_value_result where
  | val : sos_value_s → sos_value_result
  | null : Option Nat → sos_value_result
  | undefined : sos_value_result
deriving DecidableEq, Repr

/-- The word a record holds at a byte offset (`val->data->prim.ref_` for a data
pointer into the record); 0 where nothing was written and where the reference
names no record. -/
def obj_ref_load (ods : ods_s) (obj : ods_ref_t) (offset : Nat) : ods_ref_t :=
  match ods.blocks.find? (fun b => b.ref = obj) with
  | some ⟨_, _, .record ws⟩ => (ws.lookup offset).getD 0
  | _ => 0

/-- The store of a word into a record at a byte offset. -/
def obj_ref_store (ods : ods_s) (obj : ods_ref_t) (offset : Nat) (r : ods_ref_t) : ods_s :=
  { ods with
    blocks := ods.blocks.map (fun b =>
      if b.ref = obj then
        match b.blob with
        | .record ws => { b with blob := .record ((offset, r) :: ws.filter (fun w => w.1 ≠ offset)) }
        | _ => b
      else b) }

/-- Modelled from the spec: `__sos_init_obj(sos, schema, ods_obj, part)` of `sos.c` (not
among the sources), which wraps an ODS object into a new object handle; null
when the handle cannot be allocated (`calloc_ok` false). -/
def __sos_init_obj (schema : Option sos_ischema) (ods_obj : ods_ref_t) (calloc_ok : Bool) :
    Option sos_obj_s :=
  if calloc_ok then some ⟨schema, ods_obj⟩ else none

/-- Modelled from the spec: `sos_obj_delete(obj)` of `sos.c` (not among the sources):
the delete of the object's ODS handle, which "calls free on the underlying Ref
and zeroes the handle's Ref/pointer".  The handle holds the container, the
schema, the ODS object and the partition; it does not say which record refers
to the object. -/
def sos_obj_delete (ods : ods_s) (obj : sos_obj_s) : ods_s :=
  ods_obj_delete ods obj.obj

/-- The function `mem_value_init(val, attr)`. -/
def mem_value_init (val : sos_value_s) (attr : sos_attr_s) : sos_value_result :=
  let val1 := { val with attr := some attr }
  if sos_attr_is_ref attr then .null (some EINVAL)
  else .val { val1 with data := some .data_ }

/-- The function `sos_value_init(val, obj, attr)` on the store `ods` of the object's
partition; `calloc_ok` is the outcome of the allocation in `__sos_init_obj`. -/
def sos_value_init (ods : ods_s) (val : sos_value_s) (obj : Option sos_obj_s)
    (attr : sos_attr_s) (calloc_ok : Bool) : sos_value_result :=
  match obj with
  | none => mem_value_init val attr
  | some o =>
    let val1 : sos_value_s :=
      { attr := some attr, obj := some o, data := some (.bytes o.obj attr.data.offset) }
    if !sos_attr_is_array attr then .val val1
    else
      match ods_ref_as_obj ods (obj_ref_load ods o.obj attr.data.offset) with
      | none => .null none
      | some ref_obj =>
        .val { val1 with
               obj := __sos_init_obj (get_ischema attr.data.type) ref_obj.ref calloc_ok,
               data := some (.array ref_obj.ref) }

/-- The function `sos_array_count(val)`: the `count` field at the data pointer;
`none` where the pointer is not on an array record. -/
def sos_array_count (ods : ods_s) (val : sos_value_s) : Option Nat :=
  match val.data with
  | some (.array r) =>
    match ods.blocks.find? (fun b => b.ref = r) with
    | some ⟨_, _, .array count _⟩ => some count
    | _ => none
  | _ => none

/-- The size `sos_array_new` requests for `count` elements of an array whose
internal schema is `schema`, in `size_t` arithmetic. -/
def sos_array_size (P : sos_priv_h) (I : sos_ischema_ids) (schema : sos_ischema)
    (count : Nat) : Nat :=
  (P.sizeof_sos_obj_data_s + 4 + count * (sos_ischema_value P I schema).data.obj_sz) % 2 ^ 64

/-- Answers of the callees of one `sos_array_new`: those of the store to
`__sos_obj_new` and the allocation in `__sos_init_obj`. -/
structure array_new_env where
  obj_new : obj_new_env
  init_obj_ok : Bool
deriving DecidableEq, Repr

/-- The function `sos_array_new(val, attr, obj, count)` on the store of the parent's
partition.  The `count` field of an array record is 32 bits wide; the elements
of the new record are not written (`none`). -/
def sos_array_new (P : sos_priv_h) (I : sos_ischema_ids) (ods : ods_s) (val : sos_value_s)
    (attr : sos_attr_s) (obj : sos_obj_s) (count : Nat) (env : array_new_env) :
    sos_value_result × ods_s :=
  if !sos_attr_is_array attr then (.null (some EINVAL), ods)
  else
    match get_ischema attr.data.type with
    | none => (.undefined, ods)
    | some schema =>
      let size := sos_array_size P I schema count
      match __sos_obj_new P ods size env.obj_new with
      | (none, ods1) => (.null (some ENOMEM), ods1)
      | (some array_obj, ods1) =>
        let ods2 := ods_obj_write ods1 array_obj (.array (count % 2 ^ 32) none)
        let ods3 := obj_ref_store ods2 obj.obj attr.data.offset array_obj
        match __sos_init_obj (some schema) array_obj env.init_obj_ok with
        | none => (.null (some ENOMEM), ods3)
        | some o =>
          (.val { val with attr := some attr, obj := some o, data := some (.array array_obj) },
           ods3)

/-- The function `sos_value_put(value)`: true when the call is defined.  With an
object handle it drops the reference on it; without one it calls `free` on a
data pointer that is not the view's own buffer, which is defined only for the
null pointer. -/
def sos_value_put (value : Option sos_value_s) : Bool :=
  match value with
  | none => true
  | some v =>
    match v.obj with
    | some _ => true
    | none =>
      match v.data with
      | none => true
      | some .data_ => true
      | some _ => false

/-- Modelled from the spec: what the per-type conversion functions of the primitive
types compute ("each implementation is type-specific"; the functions are chosen
by `__sos_attr_from_str_fn_for_type` and `__sos_attr_to_str_fn_for_type`, not
among the sources): the word a text is read as, `none` where the text is not
accepted, and the text a word prints as. -/
structure value_fn_env where
  prim_from_str : sos_type_t → String → Option Nat
  prim_to_str : sos_type_t → Nat → String

/-- Modelled from the spec: the function `from_str_fn` chosen for an attribute of type
`type`, applied to a view with the given data pointer.  For BYTE_ARRAY it copies
the text into the elements of the array record and returns 0; for the other
types it stores the word the text is read as, or returns `EINVAL`.  The result is
`none` where the data pointer is not one the function can write through. -/
def from_str_fn (F : value_fn_env) (type : sos_type_t) (ods : ods_s)
    (data : Option sos_value_data_ptr) (str : String) : Option (Nat × ods_s) :=
  if type = SOS_TYPE_BYTE_ARRAY then
    match data with
    | some (.array r) =>
      match ods.blocks.find? (fun b => b.ref = r) with
      | some ⟨_, _, .array count _⟩ => some (0, ods_obj_write ods r (.array count (some str)))
      | _ => none
    | _ => none
  else
    match F.prim_from_str type str with
    | none => some (EINVAL, ods)
    | some w =>
      match data with
      | some (.bytes r offset) => some (0, obj_ref_store ods r offset w)
      | some .data_ => some (0, ods)
      | _ => none

/-- Modelled from the spec: the function `to_str_fn` chosen for an attribute of type
`type`: for BYTE_ARRAY the text held by the array record, where it fits in `len`
bytes with its terminator; for the other types the text of the word at the data
pointer. -/
def to_str_fn (F : value_fn_env) (type : sos_type_t) (ods : ods_s)
    (data : Option sos_value_data_ptr) (len : Nat) : Option String :=
  if type = SOS_TYPE_BYTE_ARRAY then
    match data with
    | some (.array r) =>
      match ods.blocks.find? (fun b => b.ref = r) with
      | some ⟨_, _, .array _ (some text)⟩ => if text.length < len then some text else none
      | _ => none
    | _ => none
  else
    match data with
    | some (.bytes r offset) => some (F.prim_to_str type (obj_ref_load ods r offset))
    | _ => none

/-- The function `sos_value_from_str(v, str, endptr)`: the call of `v->attr->from_str_fn`. -/
def sos_value_from_str (F : value_fn_env) (ods : ods_s) (v : sos_value_s) (str : String) :
    Option (Nat × ods_s) :=
  match v.attr with
  | none => none
  | some a => from_str_fn F a.fn_type ods v.data str

/-- The function `sos_obj_attr_to_str(obj, attr, str, len)`: the text, or `none` for a
null result and where the call is not defined. -/
def sos_obj_attr_to_str (F : value_fn_env) (ods : ods_s) (v_ : sos_value_s) (obj : sos_obj_s)
    (attr : sos_attr_s) (len : Nat) (calloc_ok : Bool) : Option String :=
  match sos_value_init ods v_ (some obj) attr calloc_ok with
  | .val v =>
    match v.attr with
    | none => none
    | some a =>
      let s := to_str_fn F a.fn_type ods v.data len
      if sos_value_put (some v) then s else none
  | _ => none

/-- Answers of the callees of one `sos_obj_attr_from_str`: the allocation in the
`__sos_init_obj` of `sos_value_init` and those of `sos_array_new`. -/
structure attr_from_str_env where
  init_obj_ok : Bool
  array_new : array_new_env
deriving DecidableEq, Repr

/-- The function `sos_obj_attr_from_str(obj, attr, str, endptr)` on the store of the
object's partition: the value returned and the store after the call, `none`
where the call is not defined.  The text is a sequence of one-byte characters,
so `strlen(str)` is its length.  `v_` is the content of the local view on entry
and `rc0` the content of the local `rc`, which has no initialiser: it is what
the call returns on a path that assigns nothing to `rc`. -/
def sos_obj_attr_from_str (P : sos_priv_h) (I : sos_ischema_ids) (F : value_fn_env)
    (ods : ods_s) (obj : sos_obj_s) (attr : sos_attr_s) (str : String)
    (env : attr_from_str_env) (v_ : sos_value_s) (rc0 : Nat) : Option (Nat × ods_s) :=
  if !sos_attr_is_array attr then
    match sos_value_init ods v_ (some obj) attr env.init_obj_ok with
    | .val v =>
      match sos_value_from_str F ods v str with
      | none => none
      | some (rc, ods1) => if sos_value_put (some v) then some (rc, ods1) else none
    | .null _ => some (EINVAL, ods)
    | .undefined => none
  else if sos_attr_type attr = SOS_TYPE_BYTE_ARRAY then
    let sz := str.length + 1
    let kept : Option (Option sos_value_s × ods_s) :=
      match sos_value_init ods v_ (some obj) attr env.init_obj_ok with
      | .undefined => none
      | .null _ => some (none, ods)
      | .val v =>
        match sos_array_count ods v with
        | none => none
        | some count =>
          if count < sz then
            match v.obj with
            | none => none
            | some o => some (none, sos_obj_delete ods o)
          else some (some v, ods)
    match kept with
    | none => none
    | some (some _, ods1) => some (rc0, ods1)
    | some (none, ods1) =>
      match sos_array_new P I ods1 v_ attr obj sz env.array_new with
      | (.undefined, _) => none
      | (.null _, ods2) => some (ENOMEM, ods2)
      | (.val v, ods2) =>
        match sos_value_from_str F ods2 v str with
        | none => none
        | some (rc, ods3) => if sos_value_put (some v) then some (rc, ods3) else none
  else some (EINVAL, ods)

/-! ## Concrete objects used to run the value layer -/

/-- The attribute First (BYTE_ARRAY, at offset 8) of the schema "E". -/
def ex_attr_first : sos_attr_s :=
  { data := { name := "First", id := 0, type := SOS_TYPE_BYTE_ARRAY, indexed := 1, offset := 8 },
    data_loc := none, fn_type := SOS_TYPE_BYTE_ARRAY, idx_type := some "BXTREE",
    key_type := some "STRING", idx_list := [] }

/-- An attribute of type OBJ_ARRAY at offset 8. -/
def ex_attr_refs : sos_attr_s :=
  { data := { name := "refs", id := 0, type := SOS_TYPE_OBJ_ARRAY, indexed := 0, offset := 8 },
    data_loc := none, fn_type := SOS_TYPE_OBJ_ARRAY, idx_type := some "BXTREE",
    key_type := some "NONE", idx_list := [] }

/-- The handle of the record at reference 64. -/
def ex_obj : sos_obj_s := ⟨none, 64⟩

/-- A partition store holding one record of 24 bytes at 64, no attribute set. -/
def ex_ods_unset : ods_s := ⟨4096, [⟨64, 24, .record []⟩]⟩

/-- A partition store in which the record at 64 has First bound to the array at
128, of `count` elements holding `text`. -/
def ex_ods_bound (count : Nat) (text : String) : ods_s :=
  ⟨4096, [⟨64, 24, .record [(8, 128)]⟩, ⟨128, 12 + count, .array count (some text)⟩]⟩

/-- Conversion functions of the primitive types that accept no text. -/
def ex_fn_env : value_fn_env := ⟨fun _ _ => none, fun _ _ => ""⟩

/-- A view with every field null. -/
def ex_value0 : sos_value_s := ⟨none, none, none⟩

/-- Callees of `sos_obj_attr_from_str` that all succeed, the new block at 192. -/
def ex_from_str_env : attr_from_str_env := ⟨true, ⟨⟨some 192, 0, none⟩, true⟩⟩

/-- Callees of `sos_obj_attr_from_str` in which the store can neither allocate nor
be extended. -/
def ex_from_str_env_nomem : attr_from_str_env := ⟨true, ⟨⟨none, ENOMEM, none⟩, true⟩⟩

/-! ## Attribute lookup by id, copying a schema, and the calls of `__sos_obj_new` -/

/-- The loop of `_attr_by_idx` over the attribute list: the position, counted from
`pos`, of the first attribute whose `data->id` is `attr_id`. -/
def attr_list_scan_id (attr_id : Int) : Nat → List sos_attr_s → Option Nat
  | _, [] => none
  | pos, attr :: rest =>
    if (attr.data.id : Int) = attr_id then some pos
    else attr_list_scan_id attr_id (pos + 1) rest

/-- The function `_attr_by_idx(schema, attr_id)`; `attr_id` is an `int`.  The
attribute returned is named by its position in the attribute list.  An entry
read past the end of the dictionary (a dictionary shorter than `attr_cnt`, which
no call sequence produces) reads as null. -/
def _attr_by_idx (schema : sos_schema_s) (attr_id : Int) : Option Nat :=
  if attr_id < 0 ∨ attr_id ≥ (schema.data.attr_cnt : Int) then none
  else
    match schema.dict with
    | some dict => dict.getD attr_id.toNat none
    | none => attr_list_scan_id attr_id 0 schema.attr_list

/-- The function `sos_schema_attr_by_name(schema, name)`. -/
def sos_schema_attr_by_name (schema : sos_schema_s) (name : String) : Option sos_attr_s :=
  _attr_by_name schema name

/-- The function `sos_schema_attr_by_id(schema, attr_id)`. -/
def sos_schema_attr_by_id (schema : sos_schema_s) (attr_id : Int) : Option Nat :=
  _attr_by_idx schema attr_id

/-- Outcomes of the allocations of one `sos_schema_dup`: the `calloc` of the copy,
the `calloc` of its id table, and the allocations of `attr_new` for the
attribute at each position. -/
structure schema_dup_env where
  schema_calloc : Bool
  dict_calloc : Bool
  attr_env : Nat → attr_new_env

/-- How the loop of `sos_schema_dup` ends: `done`, with the attributes of the copy
and the number of stores made through `schema->dict`; `alloc_failed`, an
`attr_new` failed after that many attributes were copied; `null_store`, a store
through a null `schema->dict`; `overrun`, a store past the end of `schema->dict`. -/
inductive sos_schema_dup_loop_result where
  | done : List sos_attr_s → Nat → sos_schema_dup_loop_result
  | alloc_failed : Nat → sos_schema_dup_loop_result
  | null_store : sos_schema_dup_loop_result
  | overrun : sos_schema_dup_loop_result
deriving DecidableEq, Repr

/-- The loop of `sos_schema_dup` over the attribute list of the source, from
position `idx` on.  `src_dict` is the length of the id table of the source,
`none` when the source has none: the statement `schema->dict[idx++] = attr`
stores into the table of the source, not into the one of the copy. -/
def sos_schema_dup_loop (src_dict : Option Nat) (env : schema_dup_env) :
    Nat → List sos_attr_s → sos_schema_dup_loop_result
  | idx, [] => .done [] idx
  | idx, src_attr :: rest =>
    match attr_new src_attr.data.type (env.attr_env idx) with
    | none => .alloc_failed idx
    | some attr =>
      match src_dict with
      | none => .null_store
      | some len =>
        if idx ≥ len then .overrun
        else
          match sos_schema_dup_loop src_dict env (idx + 1) rest with
          | .done l n => .done ({ attr with data := src_attr.data } :: l) n
          | r => r

/-- Outcome of `sos_schema_dup`.  `null f`: the null pointer, `f` telling whether
the id table of the source was freed on the way (at the label `err_1`).  `crash`:
the call does not return (a store through a null or past the end of the table of
the source, or the unwinding at `err_1` after an attribute was copied, which
takes the attributes to free from the list of the source).  `ok dup n`: the
copy, after `n` stores into the id table of the source, whose slots below `n`
now point to the attributes of the copy. -/
inductive sos_schema_dup_result where
  | null : Bool → sos_schema_dup_result
  | crash : sos_schema_dup_result
  | ok : sos_schema_s → Nat → sos_schema_dup_result
deriving DecidableEq, Repr

/-- The function `sos_schema_dup(schema)`.  The structure assignment
`*dup->data = *schema->data` copies the fixed part of the schema data; the id
table of the copy is as `calloc` left it, all entries null. -/
def sos_schema_dup (schema : Option sos_schema_s) (env : schema_dup_env) :
    sos_schema_dup_result :=
  match schema with
  | none => .null false
  | some s =>
    if env.schema_calloc = false then .null false
    else if env.dict_calloc = false then .null false
    else
      match sos_schema_dup_loop (s.dict.map List.length) env 0 s.attr_list with
      | .done attrs n =>
        .ok { has_sos := false, flags := 0, ref_count := 1,
              data := { s.data with attr_dict := [] }, data_loc := none,
              schema_obj := none,
              dict := some (List.replicate s.data.attr_cnt none),
              attr_list := attrs } n
      | .alloc_failed 0 => .null s.dict.isSome
      | .alloc_failed _ => .crash
      | .null_store => .crash
      | .overrun => .crash

/-- A call made by `__sos_obj_new`. -/
inductive obj_new_call where
  | pthread_mutex_lock : obj_new_call
  | ods_obj_alloc : Nat → obj_new_call
  | ods_extend : Nat → obj_new_call
  | pthread_mutex_unlock : obj_new_call
deriving DecidableEq, Repr

/-- The function `__sos_obj_new(ods, size, lock)` together with the calls it makes, in
order: the lock is taken, the allocation tried, on failure the store extended
and, when that succeeds, the allocation tried again; every path goes through
the label `err_0`, where the lock is released. -/
def __sos_obj_new_calls (P : sos_priv_h) (ods : ods_s) (size : Nat) (env : obj_new_env) :
    (Option ods_ref_t × ods_s) × List obj_new_call :=
  let extend_size :=
    if size < P.SOS_ODS_EXTEND_SZ then P.SOS_ODS_EXTEND_SZ else (size * 16) % 2 ^ 64
  match ods_obj_alloc ods size env.alloc1 with
  | (some r, ods1) =>
    ((some r, ods1), [.pthread_mutex_lock, .ods_obj_alloc size, .pthread_mutex_unlock])
  | (none, ods1) =>
    let e := ods_extend ods1 extend_size env.extend_rc
    if e.1 ≠ 0 then
      ((none, e.2),
        [.pthread_mutex_lock, .ods_obj_alloc size, .ods_extend extend_size,
         .pthread_mutex_unlock])
    else
      (ods_obj_alloc e.2 size env.alloc2,
        [.pthread_mutex_lock, .ods_obj_alloc size, .ods_extend extend_size,
         .ods_obj_alloc size, .pthread_mutex_unlock])

/-- The schema "E" (First, Salary) after a successful `sos_schema_add` to the empty
container. -/
def ex_schema2_added : sos_schema_s :=
  (sos_schema_add sos_priv_default ex_sos0 ex_schema2 ex_add_env).2.2

/-- An environment in which every allocation of `sos_schema_dup` succeeds. -/
def ex_dup_env : schema_dup_env := ⟨true, true, fun _ => attr_new_env_ok⟩

/-- The copy `sos_schema_dup` makes of the registered schema "E": the attributes
First and Salary with fresh handles, and an id table of two null entries. -/
def ex_schema2_dup : sos_schema_s :=
  { has_sos := false, flags := 0, ref_count := 1,
    data := { name := "E", ref_count := 0, id := 0, key_sz := 0, obj_sz := 20,
              schema_sz := 856, attr_cnt := 2, attr_dict := [] },
    data_loc := none, schema_obj := none, dict := some [none, none],
    attr_list :=
      [{ data := { name := "First", id := 0, type := 9, indexed := 1, offset := 8 },
         data_loc := none, fn_type := 9, idx_type := some "BXTREE",
         key_type := some "STRING", idx_list := [] },
       { data := { name := "Salary", id := 1, type := 4, indexed := 0, offset := 16 },
         data_loc := none, fn_type := 4, idx_type := some "BXTREE",
         key_type := some "FLOAT", idx_list := [] }] }

/-- What the calls a caller can make keep true of the names and ids of a mutable
schema: there is no id table yet, the names are pairwise distinct, the
attribute at position `i` has id `i`, and the count is the list length. -/
structure schema_ids_inv (s : sos_schema_s) : Prop where
  dict : s.dict = none
  names : (s.attr_list.map (fun a => a.data.name)).Nodup
  ids : s.attr_list.map (fun a => a.data.id) = List.range s.attr_list.length
  count : s.data.attr_cnt = s.attr_list.length

/-! # Theorems -/

theorem type_sizes_pos (t : sos_type_t) (h : t ≤ SOS_TYPE_LAST) : 0 < type_sizes t := by
  unfold SOS_TYPE_LAST at h
  interval_cases t <;> simp [type_sizes]

theorem packed_offsets_length (ts : List Nat) : ∀ b, (packed_offsets b ts).length = ts.length := by
  induction ts with
  | nil => intro b; rfl
  | cons t ts ih => intro b; simp [packed_offsets, ih]

theorem packed_offsets_concat (ts : List Nat) (t : Nat) :
    ∀ b, packed_offsets b (ts ++ [t]) = packed_offsets b ts ++ [b + ts.sum] := by
  induction ts with
  | nil => intro b; simp [packed_offsets]
  | cons u ts ih => intro b; simp [packed_offsets, ih, Nat.add_assoc]

theorem packed_offsets_get (ts : List Nat) :
    ∀ b k o, (packed_offsets b ts)[k]? = some o → o = b + (ts.take k).sum := by
  induction ts with
  | nil => intro b k o h; simp [packed_offsets] at h
  | cons t ts ih =>
    intro b k o h
    cases k with
    | zero => simp [packed_offsets] at h; simp [h]
    | succ k =>
      simp only [packed_offsets, List.getElem?_cons_succ] at h
      have := ih (b + t) k o h
      simp [this, Nat.add_assoc]

theorem packed_offsets_ge (ts : List Nat) : ∀ b, ∀ o ∈ packed_offsets b ts, b ≤ o := by
  induction ts with
  | nil => intro b o h; simp [packed_offsets] at h
  | cons t ts ih =>
    intro b o h
    simp only [packed_offsets, List.mem_cons] at h
    rcases h with h | h
    · omega
    · have := ih (b + t) o h; omega

theorem packed_offsets_sorted (ts : List Nat) (hpos : ∀ t ∈ ts, 0 < t) :
    ∀ b, (packed_offsets b ts).Pairwise (· < ·) := by
  induction ts with
  | nil => intro b; simp [packed_offsets]
  | cons t ts ih =>
    intro b
    simp only [packed_offsets, List.pairwise_cons]
    refine ⟨?_, ih (fun u hu => hpos u (List.mem_cons_of_mem _ hu)) _⟩
    intro o ho
    have h1 := packed_offsets_ge ts (b + t) o ho
    have h2 := hpos t (List.mem_cons_self _ _)
    omega

theorem packed_offsets_bound (ts : List Nat) :
    ∀ b, ∀ p ∈ (packed_offsets b ts).zip ts, p.1 + p.2 ≤ b + ts.sum := by
  induction ts with
  | nil => intro b p h; simp [packed_offsets] at h
  | cons t ts ih =>
    intro b p h
    simp only [packed_offsets, List.zip_cons_cons, List.mem_cons] at h
    rcases h with h | h
    · subst h; simp
    · have := ih (b + t) p h
      simp only [List.sum_cons]; omega

/-! ## `sos_schema_attr_add` -/

theorem attr_add_schema_obj (P : sos_priv_h) (s : sos_schema_s) (name : String)
    (type : sos_type_t) (env : attr_new_env) :
    (sos_schema_attr_add P s name type env).2.schema_obj = s.schema_obj := by
  unfold sos_schema_attr_add
  split_ifs <;> try rfl
  cases h : attr_new type env <;> rfl

/-- The result of a call that passes every check, written out. -/
theorem attr_add_success (P : sos_priv_h) (s : sos_schema_s) (name : String)
    (type : sos_type_t) (env : attr_new_env)
    (hmut : s.schema_obj = none) (hname : _attr_by_name s name = none)
    (htype : type ≤ SOS_TYPE_LAST) (halloc : env.calloc_ok = true) :
    ∃ attr : sos_attr_s,
      attr.data = ⟨name, s.data.attr_cnt, type, 0,
        match s.attr_list.getLast? with
        | some p => p.data.offset + type_sizes p.data.type
        | none => P.sizeof_sos_obj_data_s⟩ ∧
      sos_schema_attr_add P s name type env =
        (0, { s with
                data := { s.data with
                  attr_cnt := s.data.attr_cnt + 1,
                  key_sz := if type_sizes type > s.data.key_sz then type_sizes type
                            else s.data.key_sz,
                  obj_sz := attr.data.offset + type_sizes type },
                attr_list := s.attr_list ++ [attr] }) := by
  have hlt : ¬ type > SOS_TYPE_LAST := Nat.not_lt.mpr htype
  unfold sos_schema_attr_add
  simp only [hmut, hname, Option.isSome_none, Bool.false_eq_true, if_false, hlt, attr_new,
    halloc, if_true, sos_attr_size]
  exact ⟨{ data := ⟨name, s.data.attr_cnt, type, 0,
              match s.attr_list.getLast? with
              | some p => p.data.offset + type_sizes p.data.type
              | none => P.sizeof_sos_obj_data_s⟩,
            data_loc := none, fn_type := type,
            idx_type := if env.idx_type_ok then some "BXTREE" else none,
            key_type := if env.key_type_ok then some (key_types type) else none,
            idx_list := [] }, rfl, rfl⟩

/-- A call that fails leaves the schema as it was. -/
theorem attr_add_failure (P : sos_priv_h) (s : sos_schema_s) (name : String)
    (type : sos_type_t) (env : attr_new_env)
    (h : ¬ (s.schema_obj = none ∧ _attr_by_name s name = none ∧ type ≤ SOS_TYPE_LAST ∧
            env.calloc_ok = true)) :
    (sos_schema_attr_add P s name type env).2 = s ∧
    (sos_schema_attr_add P s name type env).1 ≠ 0 := by
  unfold sos_schema_attr_add
  by_cases h1 : s.schema_obj.isSome
  · simp [h1, EBUSY]
  · have h1' : s.schema_obj = none := by simpa using h1
    by_cases h2 : (_attr_by_name s name).isSome
    · simp [h1, h2, EEXIST]
    · have h2' : _attr_by_name s name = none := by simpa using h2
      by_cases h3 : type > SOS_TYPE_LAST
      · simp [h1, h2, h3, EINVAL]
      · have h4 : env.calloc_ok = false := by
          cases hc : env.calloc_ok
          · rfl
          · exact absurd ⟨h1', h2', Nat.not_lt.mp h3, hc⟩ h
        simp [h1, h2, h3, attr_new, h4, ENOMEM]

theorem getLast?_offset_of_packed (hdr : Nat) (l : List sos_attr_s)
    (hp : attr_offsets l = packed_offsets hdr (attr_sizes l)) :
    (match l.getLast? with
      | some p => p.data.offset + type_sizes p.data.type
      | none => hdr) = hdr + (attr_sizes l).sum := by
  rcases List.eq_nil_or_concat l with h | ⟨init, p, h⟩
  · subst h; simp [attr_sizes]
  · subst h
    simp only [List.concat_eq_append, attr_offsets, attr_sizes, List.map_append, List.map_cons,
      List.map_nil, packed_offsets_concat] at hp
    have hlen : (init.map fun a => a.data.offset).length =
        (packed_offsets hdr (init.map fun a => type_sizes a.data.type)).length := by
      simp [packed_offsets_length]
    have := (List.append_inj hp hlen).2
    simp only [List.cons.injEq, and_true] at this
    simp [attr_sizes, this, Nat.add_assoc]

theorem schema_inv_attr_add (P : sos_priv_h) (s : sos_schema_s) (name : String)
    (type : sos_type_t) (env : attr_new_env) (hinv : schema_inv P s) :
    schema_inv P (sos_schema_attr_add P s name type env).2 := by
  by_cases h : s.schema_obj = none ∧ _attr_by_name s name = none ∧ type ≤ SOS_TYPE_LAST ∧
      env.calloc_ok = true
  · obtain ⟨hmut, hname, htype, halloc⟩ := h
    obtain ⟨attr, hd, heq⟩ := attr_add_success P s name type env hmut hname htype halloc
    have hoff := getLast?_offset_of_packed _ _ hinv.packed
    have hao : attr.data.offset = P.sizeof_sos_obj_data_s + (attr_sizes s.attr_list).sum := by
      rw [hd]; exact hoff
    have hat : attr.data.type = type := by rw [hd]
    rw [heq]
    refine ⟨hmut, ?_, ?_, ?_, ?_⟩
    · simp only [attr_offsets, attr_sizes, List.map_append, List.map_cons, List.map_nil,
        packed_offsets_concat]
      have := hinv.packed
      simp only [attr_offsets, attr_sizes] at this
      rw [this, hao]; rfl
    · intro a ha
      simp only [List.mem_append, List.mem_singleton] at ha
      rcases ha with ha | ha
      · exact hinv.types a ha
      · rw [ha, hat]; exact htype
    · intro _
      simp only [attr_sizes, List.map_append, List.map_cons, List.map_nil, List.sum_append,
        List.sum_cons, List.sum_nil, hat]
      rw [hao]; simp [attr_sizes, Nat.add_assoc]
    · simp [hinv.count]
  · rw [(attr_add_failure P s name type env h).1]; exact hinv

theorem schema_inv_new (P : sos_priv_h) (name : String) (c : Bool) (s : sos_schema_s)
    (h : sos_schema_new P name c = .ok s) : schema_inv P s := by
  unfold sos_schema_new at h
  split_ifs at h
  cases h
  exact ⟨rfl, rfl, by simp, by simp, rfl⟩

/-! ## `sos_schema_index_add` and `sos_schema_index_modify` -/

theorem attr_list_update_map {β : Type} (g : sos_attr_s → β) (name : String)
    (f : sos_attr_s → sos_attr_s) (hf : ∀ a, g (f a) = g a) (l : List sos_attr_s) :
    (attr_list_update name f l).map g = l.map g := by
  induction l with
  | nil => rfl
  | cons a l ih =>
    unfold attr_list_update
    split_ifs
    · simp [hf]
    · simp [ih]

theorem attr_list_update_mem (P : sos_attr_s → Prop) (name : String)
    (f : sos_attr_s → sos_attr_s) (hf : ∀ a, P a → P (f a)) (l : List sos_attr_s)
    (hl : ∀ a ∈ l, P a) : ∀ a ∈ attr_list_update name f l, P a := by
  induction l with
  | nil => intro a ha; simp [attr_list_update] at ha
  | cons b l ih =>
    intro a ha
    unfold attr_list_update at ha
    split_ifs at ha
    · simp only [List.mem_cons] at ha
      rcases ha with ha | ha
      · rw [ha]; exact hf b (hl b (List.mem_cons_self _ _))
      · exact hl a (List.mem_cons_of_mem _ ha)
    · simp only [List.mem_cons] at ha
      rcases ha with ha | ha
      · rw [ha]; exact hl b (List.mem_cons_self _ _)
      · exact ih (fun x hx => hl x (List.mem_cons_of_mem _ hx)) a ha

theorem attr_list_update_length (name : String) (f : sos_attr_s → sos_attr_s)
    (l : List sos_attr_s) : (attr_list_update name f l).length = l.length := by
  have := congrArg List.length (attr_list_update_map (fun _ => ()) name f (fun _ => rfl) l)
  simpa using this

/-- The invariant is kept by any rewrite of the list that touches neither the
offsets nor the types. -/
theorem schema_inv_update (P : sos_priv_h) (s : sos_schema_s) (name : String)
    (f : sos_attr_s → sos_attr_s) (hoff : ∀ a, (f a).data.offset = a.data.offset)
    (htyp : ∀ a, (f a).data.type = a.data.type) (hinv : schema_inv P s) :
    schema_inv P { s with attr_list := attr_list_update name f s.attr_list } := by
  have ho : attr_offsets (attr_list_update name f s.attr_list) = attr_offsets s.attr_list :=
    attr_list_update_map (fun a => a.data.offset) name f hoff _
  have hs : attr_sizes (attr_list_update name f s.attr_list) = attr_sizes s.attr_list :=
    attr_list_update_map (fun a => type_sizes a.data.type) name f
      (fun a => by simp only [htyp]) _
  have hlen := attr_list_update_length name f s.attr_list
  refine ⟨hinv.mutable_, ?_, ?_, ?_, ?_⟩
  · simp only [ho, hs]; exact hinv.packed
  · exact attr_list_update_mem (fun a => a.data.type ≤ SOS_TYPE_LAST) name f
      (fun a ha => by simpa only [htyp] using ha) _ hinv.types
  · intro hne
    simp only [hs]
    apply hinv.size
    intro h
    apply hne
    apply List.eq_nil_of_length_eq_zero
    rw [hlen, h]; rfl
  · simp only [hlen]; exact hinv.count

theorem schema_inv_index_add (P : sos_priv_h) (s : sos_schema_s) (name : String)
    (hinv : schema_inv P s) : schema_inv P (sos_schema_index_add s name).2 := by
  unfold sos_schema_index_add
  split_ifs
  · exact hinv
  · exact hinv
  · exact schema_inv_update P s name _ (fun _ => rfl) (fun _ => rfl) hinv

theorem schema_inv_index_modify (P : sos_priv_h) (s : sos_schema_s) (name idx_type : String)
    (key_type : Option String) (env : index_modify_env) (rc : Nat) (s' : sos_schema_s)
    (h : sos_schema_index_modify s name idx_type key_type env = some (rc, s'))
    (hinv : schema_inv P s) : schema_inv P s' := by
  unfold sos_schema_index_modify at h
  by_cases h1 : s.schema_obj.isSome
  · rw [if_pos h1] at h; cases h; exact hinv
  · rw [if_neg h1] at h
    by_cases h2 : (_attr_by_name s name).isNone
    · rw [if_pos h2] at h; cases h; exact hinv
    · rw [if_neg h2] at h
      cases key_type with
      | none => cases h
      | some kt =>
        cases h
        exact schema_inv_update P s name _ (fun _ => rfl) (fun _ => rfl) hinv

theorem schema_inv_of_reachable (P : sos_priv_h) (s : sos_schema_s)
    (h : schema_reachable P s) : schema_inv P s := by
  induction h with
  | new name c s h => exact schema_inv_new P name c s h
  | attr_add s name type env _ ih => exact schema_inv_attr_add P s name type env ih
  | index_add s name _ ih => exact schema_inv_index_add P s name ih
  | index_modify s name it kt env rc s' _ h ih =>
    exact schema_inv_index_modify P s name it kt env rc s' h ih

/-- Within a packed list, every attribute ends inside the record and the offsets
grow strictly. -/
theorem schema_inv_layout (P : sos_priv_h) (s : sos_schema_s) (hinv : schema_inv P s) :
    (∀ a ∈ s.attr_list, a.data.offset + type_sizes a.data.type ≤ s.data.obj_sz) ∧
    (attr_offsets s.attr_list).Pairwise (· < ·) := by
  constructor
  · intro a ha
    have hne : s.attr_list ≠ [] := List.ne_nil_of_mem ha
    rw [hinv.size hne]
    have hb := packed_offsets_bound (attr_sizes s.attr_list) P.sizeof_sos_obj_data_s
      (a.data.offset, type_sizes a.data.type)
    apply hb
    rw [← hinv.packed]
    simp only [attr_offsets, attr_sizes, List.zip_map', List.mem_map]
    exact ⟨a, ha, rfl⟩
  · rw [hinv.packed]
    apply packed_offsets_sorted
    intro t ht
    simp only [attr_sizes, List.mem_map] at ht
    obtain ⟨a, ha, rfl⟩ := ht
    exact type_sizes_pos _ (hinv.types a ha)

/-! ## Sequences of `sos_schema_attr_add` -/

theorem _attr_by_name_none (s : sos_schema_s) (name : String)
    (h : name ∉ s.attr_list.map (fun a => a.data.name)) : _attr_by_name s name = none := by
  unfold _attr_by_name
  rw [List.find?_eq_none]
  intro x hx hp
  apply h
  simp only [decide_eq_true_eq] at hp
  exact List.mem_map.mpr ⟨x, hx, hp.symm⟩

theorem schema_inv_attr_add_seq (P : sos_priv_h) (specs : List attr_spec) :
    ∀ s, schema_inv P s → schema_inv P (sos_schema_attr_add_seq P s specs).2 := by
  induction specs with
  | nil => intro s h; exact h
  | cons a rest ih =>
    intro s h
    unfold sos_schema_attr_add_seq
    have h1 := schema_inv_attr_add P s a.name a.type a.env h
    by_cases hrc : (sos_schema_attr_add P s a.name a.type a.env).1 = 0
    · simp only [hrc, if_true]; exact ih _ h1
    · simp only [hrc, if_false]; exact h1

theorem attr_add_seq_ok (P : sos_priv_h) (specs : List attr_spec) :
    ∀ s : sos_schema_s, s.schema_obj = none →
      (s.attr_list.map (fun a => a.data.name) ++ specs.map (fun a => a.name)).Nodup →
      (∀ a ∈ specs, a.type ≤ SOS_TYPE_LAST) → (∀ a ∈ specs, a.env.calloc_ok = true) →
      (sos_schema_attr_add_seq P s specs).1 = 0 ∧
      (sos_schema_attr_add_seq P s specs).2.attr_list.map (fun a => (a.data.name, a.data.type)) =
        s.attr_list.map (fun a => (a.data.name, a.data.type)) ++
          specs.map (fun a => (a.name, a.type)) := by
  induction specs with
  | nil => intro s _ _ _ _; simp [sos_schema_attr_add_seq]
  | cons a rest ih =>
    intro s hmut hnd htyp hal
    have hnotin : a.name ∉ s.attr_list.map (fun a => a.data.name) := by
      intro hin
      have := (List.nodup_append.mp hnd).2.2
      exact this hin (by simp)
    obtain ⟨attr, hd, heq⟩ := attr_add_success P s a.name a.type a.env hmut
      (_attr_by_name_none s a.name hnotin) (htyp a (List.mem_cons_self _ _))
      (hal a (List.mem_cons_self _ _))
    have hr1 : (sos_schema_attr_add P s a.name a.type a.env).1 = 0 := by rw [heq]
    have hrl : (sos_schema_attr_add P s a.name a.type a.env).2.attr_list =
        s.attr_list ++ [attr] := by rw [heq]
    have hrm : (sos_schema_attr_add P s a.name a.type a.env).2.schema_obj = none := by
      rw [attr_add_schema_obj]; exact hmut
    have hnd' : ((sos_schema_attr_add P s a.name a.type a.env).2.attr_list.map
        (fun a => a.data.name) ++ rest.map (fun a => a.name)).Nodup := by
      rw [hrl]; simpa [hd] using hnd
    have := ih (sos_schema_attr_add P s a.name a.type a.env).2 hrm hnd'
      (fun b hb => htyp b (List.mem_cons_of_mem _ hb))
      (fun b hb => hal b (List.mem_cons_of_mem _ hb))
    unfold sos_schema_attr_add_seq
    simp only [hr1, if_true]
    refine ⟨this.1, ?_⟩
    rw [this.2, hrl]
    simp [hd]

/-! ## Claims on `sos_schema_attr_add` -/

/-- C1. On a mutable schema, with a name not yet present, a type up to
`SOS_TYPE_LAST` and the allocation succeeding, `sos_schema_attr_add` returns 0 and
appends one attribute at the end of the list; its id is the previous attribute
count, and its offset is the end of the previously last attribute, or the record
header size when the schema had no attribute. -/
theorem sos_schema_attr_add_appends (P : sos_priv_h) (s : sos_schema_s) (name : String)
    (type : sos_type_t) (env : attr_new_env)
    (hmut : s.schema_obj = none) (hname : _attr_by_name s name = none)
    (htype : type ≤ SOS_TYPE_LAST) (halloc : env.calloc_ok = true) :
    (sos_schema_attr_add P s name type env).1 = 0 ∧
    ∃ attr : sos_attr_s,
      (sos_schema_attr_add P s name type env).2.attr_list = s.attr_list ++ [attr] ∧
      attr.data.name = name ∧ attr.data.type = type ∧
      attr.data.id = s.data.attr_cnt ∧
      (s.attr_list = [] → attr.data.offset = P.sizeof_sos_obj_data_s) ∧
      (∀ prev, s.attr_list.getLast? = some prev →
        attr.data.offset = prev.data.offset + type_sizes prev.data.type) := by
  obtain ⟨attr, hd, heq⟩ := attr_add_success P s name type env hmut hname htype halloc
  rw [heq]
  refine ⟨rfl, attr, rfl, ?_, ?_, ?_, ?_, ?_⟩
  · rw [hd]
  · rw [hd]
  · rw [hd]
  · intro hnil; rw [hd, hnil]; rfl
  · intro prev hprev; rw [hd, hprev]

theorem sos_schema_attr_add_appends_witness :
    (ex_schema1.schema_obj = none ∧ _attr_by_name ex_schema1 "Salary" = none ∧
      SOS_TYPE_FLOAT ≤ SOS_TYPE_LAST ∧ attr_new_env_ok.calloc_ok = true) ∧
    ((sos_schema_attr_add sos_priv_default ex_schema1 "Salary" SOS_TYPE_FLOAT
        attr_new_env_ok).1 = 0 ∧
      ∃ attr : sos_attr_s,
        (sos_schema_attr_add sos_priv_default ex_schema1 "Salary" SOS_TYPE_FLOAT
          attr_new_env_ok).2.attr_list = ex_schema1.attr_list ++ [attr] ∧
        attr.data.name = "Salary" ∧ attr.data.type = SOS_TYPE_FLOAT ∧
        attr.data.id = ex_schema1.data.attr_cnt ∧
        (ex_schema1.attr_list = [] → attr.data.offset = sos_priv_default.sizeof_sos_obj_data_s) ∧
        (∀ prev, ex_schema1.attr_list.getLast? = some prev →
          attr.data.offset = prev.data.offset + type_sizes prev.data.type)) :=
  ⟨⟨by decide, by decide, by decide, by decide⟩,
   sos_schema_attr_add_appends sos_priv_default ex_schema1 "Salary" SOS_TYPE_FLOAT
     attr_new_env_ok (by decide) (by decide) (by decide) (by decide)⟩

/-- C2. Adding attributes of valid types `t_0 .. t_(n-1)`, `n ≥ 1`, with distinct
names to a schema fresh from `sos_schema_new` succeeds; the `k`-th attribute then
lies at the header size plus the footprints of the attributes before it, and the
record size `obj_sz` is the header size plus all footprints. -/
theorem sos_schema_attr_add_seq_layout (P : sos_priv_h) (name : String) (c : Bool)
    (s0 : sos_schema_s) (specs : List attr_spec)
    (hnew : sos_schema_new P name c = .ok s0) (hne : specs ≠ [])
    (hnames : (specs.map (fun a => a.name)).Nodup)
    (htypes : ∀ a ∈ specs, a.type ≤ SOS_TYPE_LAST)
    (halloc : ∀ a ∈ specs, a.env.calloc_ok = true) :
    (sos_schema_attr_add_seq P s0 specs).1 = 0 ∧
    (sos_schema_attr_add_seq P s0 specs).2.attr_list.map (fun a => (a.data.name, a.data.type)) =
      specs.map (fun a => (a.name, a.type)) ∧
    (∀ k a, (sos_schema_attr_add_seq P s0 specs).2.attr_list[k]? = some a →
      a.data.offset = P.sizeof_sos_obj_data_s +
        ((specs.take k).map (fun a => type_sizes a.type)).sum) ∧
    (sos_schema_attr_add_seq P s0 specs).2.data.obj_sz =
      P.sizeof_sos_obj_data_s + (specs.map (fun a => type_sizes a.type)).sum := by
  have hinv0 := schema_inv_new P name c s0 hnew
  have hl0 : s0.attr_list = [] := by
    unfold sos_schema_new at hnew
    split_ifs at hnew
    cases hnew; rfl
  have hok := attr_add_seq_ok P specs s0 hinv0.mutable_ (by simpa [hl0] using hnames)
    htypes halloc
  have hinv := schema_inv_attr_add_seq P specs s0 hinv0
  obtain ⟨hrc, hmap⟩ := hok
  rw [hl0] at hmap
  simp only [List.map_nil, List.nil_append] at hmap
  have hsizes : attr_sizes (sos_schema_attr_add_seq P s0 specs).2.attr_list =
      specs.map (fun a => type_sizes a.type) := by
    have := congrArg (List.map (fun p : String × sos_type_t => type_sizes p.2)) hmap
    simpa [attr_sizes, List.map_map, Function.comp] using this
  refine ⟨hrc, hmap, ?_, ?_⟩
  · intro k a hk
    have h1 : (attr_offsets (sos_schema_attr_add_seq P s0 specs).2.attr_list)[k]? =
        some a.data.offset := by
      simp [attr_offsets, List.getElem?_map, hk]
    rw [hinv.packed, hsizes] at h1
    have := packed_offsets_get _ _ _ _ h1
    rw [this, List.map_take]
  · have hne' : (sos_schema_attr_add_seq P s0 specs).2.attr_list ≠ [] := by
      intro h
      rw [h] at hmap
      simp only [List.map_nil] at hmap
      exact hne (List.map_eq_nil_iff.mp hmap.symm)
    rw [hinv.size hne', hsizes]

theorem sos_schema_attr_add_seq_layout_witness :
    (sos_schema_new sos_priv_default "E" true = .ok ex_schema0 ∧ ex_specs ≠ [] ∧
      (ex_specs.map (fun a => a.name)).Nodup ∧
      (∀ a ∈ ex_specs, a.type ≤ SOS_TYPE_LAST) ∧
      (∀ a ∈ ex_specs, a.env.calloc_ok = true)) ∧
    (sos_schema_attr_add_seq sos_priv_default ex_schema0 ex_specs).2.attr_list.map
        (fun a => a.data.offset) = [8, 8 + 4, 8 + 12] ∧
    (sos_schema_attr_add_seq sos_priv_default ex_schema0 ex_specs).2.data.obj_sz = 8 + 20 ∧
    ((sos_schema_attr_add_seq sos_priv_default ex_schema0 ex_specs).1 = 0 ∧
    (sos_schema_attr_add_seq sos_priv_default ex_schema0 ex_specs).2.attr_list.map
        (fun a => (a.data.name, a.data.type)) = ex_specs.map (fun a => (a.name, a.type)) ∧
    (∀ k a, (sos_schema_attr_add_seq sos_priv_default ex_schema0 ex_specs).2.attr_list[k]? =
        some a →
      a.data.offset = sos_priv_default.sizeof_sos_obj_data_s +
        ((ex_specs.take k).map (fun a => type_sizes a.type)).sum) ∧
    (sos_schema_attr_add_seq sos_priv_default ex_schema0 ex_specs).2.data.obj_sz =
      sos_priv_default.sizeof_sos_obj_data_s +
        (ex_specs.map (fun a => type_sizes a.type)).sum) :=
  ⟨⟨by decide, by decide, by decide, by decide, by decide⟩, by decide, by decide,
   sos_schema_attr_add_seq_layout sos_priv_default "E" true ex_schema0 ex_specs
     (by decide) (by decide) (by decide) (by decide) (by decide)⟩

/-- C3. In every schema built from `sos_schema_new` by calls of
`sos_schema_attr_add`, `sos_schema_index_add` and `sos_schema_index_modify`, each
attribute ends inside the record (`offset + type_sizes[type] ≤ obj_sz`) and the
offsets grow strictly along the attribute list. -/
theorem schema_reachable_layout (P : sos_priv_h) (s : sos_schema_s)
    (h : schema_reachable P s) :
    (∀ a ∈ s.attr_list, a.data.offset + type_sizes a.data.type ≤ s.data.obj_sz) ∧
    (s.attr_list.map (fun a => a.data.offset)).Pairwise (· < ·) :=
  schema_inv_layout P s (schema_inv_of_reachable P s h)

theorem schema_reachable_layout_witness :
    schema_reachable sos_priv_default ex_schema1 ∧
    ((∀ a ∈ ex_schema1.attr_list, a.data.offset + type_sizes a.data.type ≤
        ex_schema1.data.obj_sz) ∧
      (ex_schema1.attr_list.map (fun a => a.data.offset)).Pairwise (· < ·)) :=
  ⟨schema_reachable.attr_add ex_schema0 "First" SOS_TYPE_BYTE_ARRAY attr_new_env_ok
      (schema_reachable.new "E" true ex_schema0 (by decide)),
   schema_reachable_layout sos_priv_default ex_schema1
     (schema_reachable.attr_add ex_schema0 "First" SOS_TYPE_BYTE_ARRAY attr_new_env_ok
       (schema_reachable.new "E" true ex_schema0 (by decide)))⟩

/-- C4. The error of `sos_schema_attr_add` is decided in this order: `EBUSY` when
the schema is persisted (`schema_obj` set); else `EEXIST` when an attribute of
that name exists; else `EINVAL` when the type is past `SOS_TYPE_LAST`; else
`ENOMEM` when the allocation of the attribute fails; and it is 0 exactly when
none of these holds. -/
theorem sos_schema_attr_add_error_order (P : sos_priv_h) (s : sos_schema_s) (name : String)
    (type : sos_type_t) (env : attr_new_env) :
    (s.schema_obj ≠ none → (sos_schema_attr_add P s name type env).1 = EBUSY) ∧
    (s.schema_obj = none → _attr_by_name s name ≠ none →
      (sos_schema_attr_add P s name type env).1 = EEXIST) ∧
    (s.schema_obj = none → _attr_by_name s name = none → type > SOS_TYPE_LAST →
      (sos_schema_attr_add P s name type env).1 = EINVAL) ∧
    (s.schema_obj = none → _attr_by_name s name = none → type ≤ SOS_TYPE_LAST →
      env.calloc_ok = false → (sos_schema_attr_add P s name type env).1 = ENOMEM) ∧
    ((sos_schema_attr_add P s name type env).1 = 0 ↔
      (s.schema_obj = none ∧ _attr_by_name s name = none ∧ type ≤ SOS_TYPE_LAST ∧
        env.calloc_ok = true)) := by
  refine ⟨?_, ?_, ?_, ?_, ?_⟩
  · intro h
    have : s.schema_obj.isSome = true := Option.isSome_iff_ne_none.mpr h
    simp [sos_schema_attr_add, this]
  · intro h1 h2
    have : (_attr_by_name s name).isSome = true := Option.isSome_iff_ne_none.mpr h2
    simp [sos_schema_attr_add, h1, this]
  · intro h1 h2 h3
    simp [sos_schema_attr_add, h1, h2, h3]
  · intro h1 h2 h3 h4
    have : ¬ type > SOS_TYPE_LAST := Nat.not_lt.mpr h3
    simp [sos_schema_attr_add, h1, h2, this, attr_new, h4]
  · constructor
    · intro h
      by_contra hc
      exact (attr_add_failure P s name type env hc).2 h
    · rintro ⟨h1, h2, h3, h4⟩
      obtain ⟨attr, _, heq⟩ := attr_add_success P s name type env h1 h2 h3 h4
      rw [heq]

/-! ## Outcomes of `sos_schema_add` -/

theorem schema_open_attrs_data (sp pn sn : String) (env : schema_open_env) (l : List sos_attr_s) :
    ∀ files, (schema_open_attrs sp pn sn env l files).2.1.map (fun a => a.data) =
      l.map (fun a => a.data) := by
  induction l with
  | nil => intro files; rfl
  | cons a l ih =>
    intro files
    unfold schema_open_attrs
    simp only []
    split_ifs <;> simp [ih]

theorem ods_obj_delete_find (ods : ods_s) (ref : ods_ref_t) :
    (ods_obj_delete ods ref).blocks.find? (fun b => b.ref = ref) = none := by
  simp [ods_obj_delete, List.find?_eq_none, List.mem_filter]

theorem __sos_schema_open_frame (sos : sos_container_s) (schema : sos_schema_s)
    (env : schema_open_env) :
    (__sos_schema_open sos schema env).2.1 =
      { sos with idx_files := (__sos_schema_open sos schema env).2.1.idx_files } ∧
    (__sos_schema_open sos schema env).2.2 =
      { schema with attr_list := (__sos_schema_open sos schema env).2.2.attr_list } ∧
    (__sos_schema_open sos schema env).2.2.attr_list.map (fun a => a.data) =
      schema.attr_list.map (fun a => a.data) := by
  refine ⟨rfl, rfl, ?_⟩
  exact schema_open_attrs_data _ _ _ _ _ _

/-- The registry of a container: what `sos_schema_add` must leave alone when it
does not add the schema. -/
theorem sos_schema_add_outcome (P : sos_priv_h) (sos : sos_container_s) (schema : sos_schema_s)
    (env : schema_add_env) :
    ((sos_schema_add P sos schema env).2.1.schema_name_rbt = sos.schema_name_rbt ∧
      (sos_schema_add P sos schema env).2.1.schema_id_rbt = sos.schema_id_rbt ∧
      (sos_schema_add P sos schema env).2.1.udata_dict = sos.udata_dict ∧
      (sos_schema_add P sos schema env).2.1.schema_count = sos.schema_count ∧
      ((sos_schema_add P sos schema env).2.1.schema_mem = sos.schema_mem ∨
        ∃ p, schema_name_rbt_find sos schema.data.name = some p ∧
          (sos_schema_add P sos schema env).2.1.schema_mem = (sos_schema_get sos p).schema_mem) ∧
      ((sos_schema_add P sos schema env).1 ≠ 0 ∨
        (sos_schema_add P sos schema env).2.2.schema_obj = none ∨
        ∃ ref, (sos_schema_add P sos schema env).2.2.schema_obj = some ref ∧
          (sos_schema_add P sos schema env).2.1.schema_ods.blocks.find? (fun b => b.ref = ref) = none))
    ∨
    (schema.schema_obj = none ∧ schema_name_rbt_find sos schema.data.name = none ∧
      ∃ ref ods,
        (sos_schema_add P sos schema env).2.1.schema_mem =
          sos.schema_mem ++ [(sos_schema_add P sos schema env).2.2] ∧
        (sos_schema_add P sos schema env).2.1.schema_name_rbt =
          sos.schema_name_rbt ++ [sos.schema_mem.length] ∧
        (sos_schema_add P sos schema env).2.1.schema_id_rbt =
          sos.schema_id_rbt ++ [sos.schema_mem.length] ∧
        (sos_schema_add P sos schema env).2.1.udata_dict = sos.udata_dict ++ [ref] ∧
        (sos_schema_add P sos schema env).2.1.schema_count = sos.schema_count + 1 ∧
        (sos_schema_add P sos schema env).2.2.schema_obj = some ref ∧
        (sos_schema_add P sos schema env).2.2.data_loc = some ref ∧
        (sos_schema_add P sos schema env).2.2.data =
          { name := schema.data.name, ref_count := 0, id := sos.udata_dict.length,
            key_sz := env.fresh_key_sz, obj_sz := schema.data.obj_sz,
            schema_sz := P.sizeof_sos_schema_data_s +
              schema.data.attr_cnt * P.sizeof_sos_attr_data_s,
            attr_cnt := schema.data.attr_cnt,
            attr_dict := (schema_add_attrs ref 0 schema.attr_list).2.2 } ∧
        (schema_add_attrs ref 0 schema.attr_list).1 = true ∧
        (sos_schema_add P sos schema env).2.2.attr_list.map (fun a => a.data) =
          (schema_add_attrs ref 0 schema.attr_list).2.1.map (fun a => a.data) ∧
        (sos_schema_add P sos schema env).2.1.schema_ods =
          ods_obj_write ods ref (.schema (sos_schema_add P sos schema env).2.2.data)) := by
  unfold sos_schema_add
  by_cases h1 : schema.schema_obj.isSome = true
  · left; simp [h1, EBUSY]
  · have h1' : schema.schema_obj = none := by simpa using h1
    simp only [h1, if_false]
    unfold sos_schema_by_name
    cases hf : schema_name_rbt_find sos schema.data.name with
    | some p =>
      left
      simp [EEXIST, sos_schema_get]
    | none =>
      simp only [Option.isSome_none, Bool.false_eq_true, if_false]
      by_cases hu : env.udata_ok = false
      · left; simp [hu, ENOMEM]
      · simp only [hu, if_false]
        by_cases hs : env.stat_rc ≠ 0
        · left; simp [hs, h1']
        · simp only [hs, if_false]
          cases ha1 : (__sos_obj_new P sos.schema_ods
              (P.sizeof_sos_schema_data_s + schema.data.attr_cnt * P.sizeof_sos_attr_data_s)
              env.schema_obj).1 with
          | none => left; simp [ENOMEM]
          | some schema_obj =>
            simp only []
            cases ha2 : (__sos_obj_new P sos.schema_idx_ods P.sizeof_sos_obj_ref_s
                env.sos_obj_ref).1 with
            | none => left; simp [sos_schema_add_err_1, h1']
            | some sos_obj_ref =>
              simp only []
              cases ha3 : env.schema_key with
              | none =>
                left
                simp [ods_obj_alloc, ENOMEM, sos_schema_add_err_2, sos_schema_add_err_1]
              | some schema_key =>
                simp only [ods_obj_alloc]
                by_cases hd : env.dict_calloc = false
                · left
                  simp only [hd, if_true]
                  refine ⟨rfl, rfl, rfl, rfl, Or.inl rfl, Or.inr (Or.inr ⟨schema_obj, rfl, ?_⟩)⟩
                  exact ods_obj_delete_find _ _
                · simp only [hd, if_false]
                  by_cases hl : (schema_add_attrs schema_obj 0 schema.attr_list).1 = false
                  · left
                    simp [hl, EINVAL, sos_schema_add_err_3, sos_schema_add_err_2,
                      sos_schema_add_err_1]
                  · simp only [hl, if_false]
                    by_cases hi : env.idx_insert_rc ≠ 0
                    · left
                      simp [hi, sos_schema_add_err_3, sos_schema_add_err_2,
                        sos_schema_add_err_1]
                    · right
                      simp only [hi, if_false]
                      refine ⟨h1', trivial, schema_obj, _, rfl, rfl, rfl, rfl, rfl, rfl, rfl, rfl, ?_,
                        ?_, rfl⟩
                      · simpa using hl
                      · exact schema_open_attrs_data _ _ _ _ _ _

/-! ## Lookup by name and by id -/

theorem sos_schema_get_mem (sos : sos_container_s) (p q : Nat) :
    (sos_schema_get sos p).schema_mem[q]? =
      (sos.schema_mem[q]?).map (fun s =>
        if p = q then { s with ref_count := s.ref_count + 1 } else s) := by
  simp [sos_schema_get, List.getElem?_modify]

theorem sos_schema_get_data (sos : sos_container_s) (p q : Nat) (S : sos_schema_s)
    (h : (sos_schema_get sos p).schema_mem[q]? = some S) :
    ∃ T, sos.schema_mem[q]? = some T ∧ T.data = S.data := by
  rw [sos_schema_get_mem] at h
  cases hq : sos.schema_mem[q]? with
  | none => simp [hq] at h
  | some T =>
    simp only [hq, Option.map_some', Option.some.injEq] at h
    refine ⟨T, rfl, ?_⟩
    split_ifs at h <;> rw [← h]

theorem container_inv_get (sos : sos_container_s) (p : Nat) (h : container_inv sos) :
    container_inv (sos_schema_get sos p) := by
  have hlen : (sos_schema_get sos p).schema_mem.length = sos.schema_mem.length := by
    simp [sos_schema_get]
  refine ⟨?_, ?_, ?_, ?_, ?_⟩
  · rw [hlen]; exact h.name_rbt
  · rw [hlen]; exact h.id_rbt
  · intro a b S T hS hT hn
    obtain ⟨S', hS', hSd⟩ := sos_schema_get_data sos p a S hS
    obtain ⟨T', hT', hTd⟩ := sos_schema_get_data sos p b T hT
    exact h.names a b S' T' hS' hT' (by rw [hSd, hTd, hn])
  · intro a b S T hS hT hn
    obtain ⟨S', hS', hSd⟩ := sos_schema_get_data sos p a S hS
    obtain ⟨T', hT', hTd⟩ := sos_schema_get_data sos p b T hT
    exact h.ids a b S' T' hS' hT' (by rw [hSd, hTd, hn])
  · intro a S hS
    obtain ⟨S', hS', hSd⟩ := sos_schema_get_data sos p a S hS
    have := h.ids_lt a S' hS'
    rw [hSd] at this
    exact this

theorem schema_name_rbt_find_some (sos : sos_container_s) (h : container_inv sos) (p : Nat)
    (S : sos_schema_s) (hS : sos.schema_mem[p]? = some S) :
    schema_name_rbt_find sos S.data.name = some p := by
  unfold schema_name_rbt_find
  rw [h.name_rbt, List.find?_range_eq_some]
  have hp : p < sos.schema_mem.length := (List.getElem?_eq_some.mp hS).1
  refine ⟨by simp [hS], List.mem_range.mpr hp, ?_⟩
  intro j hj
  have hjl : j < sos.schema_mem.length := Nat.lt_trans hj hp
  cases hT : sos.schema_mem[j]? with
  | none => rfl
  | some T =>
    simp only [Bool.not_eq_true', decide_eq_false_iff_not]
    intro hn
    have := h.names j p T S hT hS hn
    omega

theorem schema_name_rbt_find_none (sos : sos_container_s) (h : container_inv sos) (name : String)
    (hn : ∀ S ∈ sos.schema_mem, S.data.name ≠ name) :
    schema_name_rbt_find sos name = none := by
  unfold schema_name_rbt_find
  rw [h.name_rbt, List.find?_range_eq_none]
  intro i _
  cases hT : sos.schema_mem[i]? with
  | none => rfl
  | some T =>
    simp only [Bool.not_eq_true', decide_eq_false_iff_not]
    exact hn T (List.getElem?_mem hT)

theorem schema_name_rbt_find_none_iff (sos : sos_container_s) (h : container_inv sos)
    (name : String) (hf : schema_name_rbt_find sos name = none) :
    ∀ (p : Nat) (S : sos_schema_s), sos.schema_mem[p]? = some S → S.data.name ≠ name := by
  intro p S hS hn
  have := schema_name_rbt_find_some sos h p S hS
  rw [hn, hf] at this
  cases this

theorem schema_id_rbt_find_some (sos : sos_container_s) (h : container_inv sos) (p : Nat)
    (S : sos_schema_s) (hS : sos.schema_mem[p]? = some S) :
    schema_id_rbt_find sos S.data.id = some p := by
  unfold schema_id_rbt_find
  rw [h.id_rbt, List.find?_range_eq_some]
  have hp : p < sos.schema_mem.length := (List.getElem?_eq_some.mp hS).1
  refine ⟨by simp [hS], List.mem_range.mpr hp, ?_⟩
  intro j hj
  cases hT : sos.schema_mem[j]? with
  | none => rfl
  | some T =>
    simp only [Bool.not_eq_true', decide_eq_false_iff_not]
    intro hn
    have := h.ids j p T S hT hS hn
    omega

theorem schema_id_rbt_find_none (sos : sos_container_s) (h : container_inv sos) (id : Nat)
    (hn : ∀ S ∈ sos.schema_mem, S.data.id ≠ id) :
    schema_id_rbt_find sos id = none := by
  unfold schema_id_rbt_find
  rw [h.id_rbt, List.find?_range_eq_none]
  intro i _
  cases hT : sos.schema_mem[i]? with
  | none => rfl
  | some T =>
    simp only [Bool.not_eq_true', decide_eq_false_iff_not]
    exact hn T (List.getElem?_mem hT)

theorem container_inv_congr (a b : sos_container_s)
    (h1 : a.schema_name_rbt = b.schema_name_rbt) (h2 : a.schema_id_rbt = b.schema_id_rbt)
    (h3 : a.schema_mem = b.schema_mem) (h4 : a.udata_dict = b.udata_dict)
    (h : container_inv b) : container_inv a := by
  refine ⟨?_, ?_, ?_, ?_, ?_⟩
  · rw [h1, h3]; exact h.name_rbt
  · rw [h2, h3]; exact h.id_rbt
  · rw [h3]; exact h.names
  · rw [h3]; exact h.ids
  · rw [h3, h4]; exact h.ids_lt

theorem getElem?_concat_cases {α : Type} (l : List α) (x : α) (p : Nat) (S : α)
    (h : (l ++ [x])[p]? = some S) :
    (p < l.length ∧ l[p]? = some S) ∨ (p = l.length ∧ S = x) := by
  by_cases hp : p < l.length
  · left
    rw [List.getElem?_append_left hp] at h
    exact ⟨hp, h⟩
  · right
    have hp' : l.length ≤ p := Nat.le_of_not_lt hp
    rw [List.getElem?_append_right hp'] at h
    cases hq : p - l.length with
    | zero =>
      rw [hq] at h
      simp only [List.getElem?_cons_zero, Option.some.injEq] at h
      exact ⟨by omega, h.symm⟩
    | succ n =>
      rw [hq] at h
      simp at h

theorem container_inv_concat (sos sos' : sos_container_s) (S' : sos_schema_s) (ref : ods_ref_t)
    (h : container_inv sos)
    (hmem : sos'.schema_mem = sos.schema_mem ++ [S'])
    (hn : sos'.schema_name_rbt = sos.schema_name_rbt ++ [sos.schema_mem.length])
    (hi : sos'.schema_id_rbt = sos.schema_id_rbt ++ [sos.schema_mem.length])
    (hd : sos'.udata_dict = sos.udata_dict ++ [ref])
    (hid : S'.data.id = sos.udata_dict.length)
    (hname : schema_name_rbt_find sos S'.data.name = none) :
    container_inv sos' := by
  have hfresh := schema_name_rbt_find_none_iff sos h S'.data.name hname
  refine ⟨?_, ?_, ?_, ?_, ?_⟩
  · rw [hn, hmem, h.name_rbt]; simp [List.range_succ]
  · rw [hi, hmem, h.id_rbt]; simp [List.range_succ]
  · intro p q S T hS hT hST
    rw [hmem] at hS hT
    rcases getElem?_concat_cases _ _ _ _ hS with ⟨_, hS1⟩ | ⟨hp, hS1⟩ <;>
      rcases getElem?_concat_cases _ _ _ _ hT with ⟨_, hT1⟩ | ⟨hq, hT1⟩
    · exact h.names p q S T hS1 hT1 hST
    · rw [hT1] at hST; exact absurd hST (hfresh p S hS1)
    · rw [hS1] at hST; exact absurd hST.symm (hfresh q T hT1)
    · omega
  · intro p q S T hS hT hST
    rw [hmem] at hS hT
    rcases getElem?_concat_cases _ _ _ _ hS with ⟨_, hS1⟩ | ⟨hp, hS1⟩ <;>
      rcases getElem?_concat_cases _ _ _ _ hT with ⟨_, hT1⟩ | ⟨hq, hT1⟩
    · exact h.ids p q S T hS1 hT1 hST
    · rw [hT1, hid] at hST
      have := h.ids_lt p S hS1
      omega
    · rw [hS1, hid] at hST
      have := h.ids_lt q T hT1
      omega
    · omega
  · intro p S hS
    rw [hmem] at hS
    rw [hd, List.length_append, List.length_singleton]
    rcases getElem?_concat_cases _ _ _ _ hS with ⟨_, hS1⟩ | ⟨_, hS1⟩
    · have := h.ids_lt p S hS1
      omega
    · rw [hS1, hid]; omega

theorem container_inv_add (P : sos_priv_h) (sos : sos_container_s) (schema : sos_schema_s)
    (env : schema_add_env) (h : container_inv sos) :
    container_inv (sos_schema_add P sos schema env).2.1 := by
  rcases sos_schema_add_outcome P sos schema env with
    ⟨h1, h2, h3, _, h5, _⟩ | ⟨_, hf, ref, ods, h1, h2, h3, h4, _, _, _, h8, _⟩
  · rcases h5 with h5 | ⟨p, _, h5⟩
    · exact container_inv_congr _ _ h1 h2 h5 h3 h
    · exact container_inv_congr _ (sos_schema_get sos p) h1 h2 h5 h3 (container_inv_get sos p h)
  · refine container_inv_concat sos _ _ ref h h1 h2 h3 h4 ?_ ?_
    · rw [h8]
    · rw [h8]; exact hf

theorem container_inv_of_reachable (P : sos_priv_h) (sos : sos_container_s)
    (h : container_reachable P sos) : container_inv sos := by
  induction h with
  | start sos h1 h2 h3 =>
    refine ⟨?_, ?_, ?_, ?_, ?_⟩
    · rw [h2, h1]; rfl
    · rw [h3, h1]; rfl
    · intro p q S T hS; rw [h1] at hS; simp at hS
    · intro p q S T hS; rw [h1] at hS; simp at hS
    · intro p S hS; rw [h1] at hS; simp at hS
  | add sos schema env _ ih => exact container_inv_add P sos schema env ih

/-- C8. In every container reached by `sos_schema_add` calls, each schema `S` of the
container is the one `sos_schema_by_name` finds under its name and the one
`sos_schema_by_id` finds under its id, so the schema found by name has the id of
`S` and the schema found by id has the name of `S`; a name or an id that no schema
of the container has gives `NULL`. -/
theorem sos_schema_by_name_by_id (P : sos_priv_h) (sos : sos_container_s)
    (h : container_reachable P sos) :
    (∀ (p : Nat) (S : sos_schema_s), sos.schema_mem[p]? = some S →
      (sos_schema_by_name sos S.data.name).1 = some p ∧
      (∃ T, (sos_schema_by_name sos S.data.name).2.schema_mem[p]? = some T ∧
        T.data.id = S.data.id ∧ T.data.name = S.data.name) ∧
      (sos_schema_by_id sos S.data.id).1 = some p ∧
      (∃ T, (sos_schema_by_id sos S.data.id).2.schema_mem[p]? = some T ∧
        T.data.name = S.data.name ∧ T.data.id = S.data.id)) ∧
    (∀ name : String, (∀ S ∈ sos.schema_mem, S.data.name ≠ name) →
      (sos_schema_by_name sos name).1 = none) ∧
    (∀ id : Nat, (∀ S ∈ sos.schema_mem, S.data.id ≠ id) →
      (sos_schema_by_id sos id).1 = none) := by
  have hinv := container_inv_of_reachable P sos h
  refine ⟨?_, ?_, ?_⟩
  · intro p S hS
    have hn := schema_name_rbt_find_some sos hinv p S hS
    have hi := schema_id_rbt_find_some sos hinv p S hS
    have hget : (sos_schema_get sos p).schema_mem[p]? =
        some { S with ref_count := S.ref_count + 1 } := by
      rw [sos_schema_get_mem, hS]; simp
    unfold sos_schema_by_name sos_schema_by_id
    rw [hn, hi]
    exact ⟨rfl, ⟨_, hget, rfl, rfl⟩, rfl, ⟨_, hget, rfl, rfl⟩⟩
  · intro name hname
    unfold sos_schema_by_name
    rw [schema_name_rbt_find_none sos hinv name hname]
  · intro id hid
    unfold sos_schema_by_id
    rw [schema_id_rbt_find_none sos hinv id hid]

theorem sos_schema_by_name_by_id_witness :
    container_reachable sos_priv_default ex_sos1 ∧
    ((∀ (p : Nat) (S : sos_schema_s), ex_sos1.schema_mem[p]? = some S →
      (sos_schema_by_name ex_sos1 S.data.name).1 = some p ∧
      (∃ T, (sos_schema_by_name ex_sos1 S.data.name).2.schema_mem[p]? = some T ∧
        T.data.id = S.data.id ∧ T.data.name = S.data.name) ∧
      (sos_schema_by_id ex_sos1 S.data.id).1 = some p ∧
      (∃ T, (sos_schema_by_id ex_sos1 S.data.id).2.schema_mem[p]? = some T ∧
        T.data.name = S.data.name ∧ T.data.id = S.data.id)) ∧
    (∀ name : String, (∀ S ∈ ex_sos1.schema_mem, S.data.name ≠ name) →
      (sos_schema_by_name ex_sos1 name).1 = none) ∧
    (∀ id : Nat, (∀ S ∈ ex_sos1.schema_mem, S.data.id ≠ id) →
      (sos_schema_by_id ex_sos1 id).1 = none)) :=
  ⟨container_reachable.add ex_sos0 ex_schema2 ex_add_env
      (container_reachable.start ex_sos0 rfl rfl rfl),
   sos_schema_by_name_by_id sos_priv_default ex_sos1
     (container_reachable.add ex_sos0 ex_schema2 ex_add_env
       (container_reachable.start ex_sos0 rfl rfl rfl))⟩

/-! ## Reloading a schema from its record -/

theorem schema_add_attrs_slots (ref : ods_ref_t) (l : List sos_attr_s) :
    ∀ idx, (schema_add_attrs ref idx l).1 = true →
      (schema_add_attrs ref idx l).2.2 = l.map (fun a => a.data) := by
  induction l with
  | nil => intro idx _; rfl
  | cons a l ih =>
    intro idx h
    unfold schema_add_attrs at h ⊢
    simp only [] at h ⊢
    split_ifs at h ⊢ with hc
    show a.data :: (schema_add_attrs ref (idx + 1) l).2.2 = _
    rw [ih _ h]; rfl

theorem schema_init_attrs_ok (ref : ods_ref_t) (d : sos_schema_data_s) (env : schema_init_env)
    (hac : ∀ i, (env.attr_env i).calloc_ok = true) :
    ∀ n idx, idx + n = d.attr_dict.length →
      ∃ l, schema_init_attrs ref d env n idx = some l ∧
        l.map (fun a => a.data) = d.attr_dict.drop idx := by
  intro n
  induction n with
  | zero =>
    intro idx h
    refine ⟨[], rfl, ?_⟩
    rw [List.drop_of_length_le (by omega)]; rfl
  | succ n ih =>
    intro idx h
    obtain ⟨rest, hrest, hmap⟩ := ih (idx + 1) (by omega)
    have hlt : idx < d.attr_dict.length := by omega
    unfold schema_init_attrs
    simp only [attr_new, hac idx, if_true, hrest]
    refine ⟨_, rfl, ?_⟩
    simp only [List.map_cons, hmap]
    rw [List.getD_eq_getElem?_getD, List.getElem?_eq_getElem hlt, Option.getD_some]
    exact (List.drop_eq_getElem_cons hlt).symm

theorem ods_schema_obj_write (ods : ods_s) (ref r : ods_ref_t) (x d : sos_schema_data_s)
    (h : ods_schema_obj (ods_obj_write ods ref (.schema x)) ref = some (r, d)) : d = x := by
  unfold ods_schema_obj ods_ref_as_obj ods_obj_write at h
  by_cases h0 : ref = 0
  · simp [h0] at h
  · simp only [h0, if_false, List.find?_map] at h
    cases hf : List.find? ((fun b : ods_block => decide (b.ref = ref)) ∘
        fun b => if b.ref = ref then { b with blob := ods_blob.schema x } else b) ods.blocks with
    | none => simp [hf] at h
    | some b =>
      have hp := List.find?_some hf
      simp only [Function.comp] at hp
      simp only [hf, Option.map_some'] at h
      by_cases hb : b.ref = ref
      · simp only [hb, if_true] at h
        simp at h
        exact h.2.symm
      · simp [hb] at hp

theorem ods_schema_obj_none (ods : ods_s) (ref : ods_ref_t)
    (h : ods.blocks.find? (fun b => b.ref = ref) = none) : ods_schema_obj ods ref = none := by
  unfold ods_schema_obj ods_ref_as_obj
  split_ifs <;> simp [h]

theorem schema_name_rbt_find_concat (sos : sos_container_s) (T : sos_schema_s)
    (id_rbt : List Nat) (n : Nat)
    (hf : schema_name_rbt_find sos T.data.name = none) :
    schema_name_rbt_find
      { sos with schema_mem := sos.schema_mem ++ [T],
                 schema_name_rbt := sos.schema_name_rbt ++ [sos.schema_mem.length],
                 schema_id_rbt := id_rbt, schema_count := n } T.data.name =
      some sos.schema_mem.length := by
  unfold schema_name_rbt_find at hf ⊢
  simp only [List.find?_append]
  rw [List.find?_eq_none] at hf
  have hold : ∀ p ∈ sos.schema_name_rbt, p ≠ sos.schema_mem.length →
      (match (sos.schema_mem ++ [T])[p]? with
        | some s => decide (s.data.name = T.data.name)
        | none => false) = false := by
    intro p hp hne
    have h1 := hf p hp
    by_cases hlt : p < sos.schema_mem.length
    · rw [List.getElem?_append_left hlt]
      simpa using h1
    · have : (sos.schema_mem ++ [T])[p]? = none := by
        apply List.getElem?_eq_none
        simp only [List.length_append, List.length_singleton]
        omega
      rw [this]
  cases hfind : List.find? (fun p =>
      match (sos.schema_mem ++ [T])[p]? with
      | some s => decide (s.data.name = T.data.name)
      | none => false) sos.schema_name_rbt with
  | none => simp [List.getElem?_concat_length]
  | some p =>
    have hmem := List.mem_of_find?_eq_some hfind
    have hp := List.find?_some hfind
    by_cases hne : p = sos.schema_mem.length
    · simp [hne]
    · rw [hold p hmem hne] at hp
      cases hp

/-- C9. Persist and reload: when `sos_schema_add` has returned 0 for a schema `S`
whose attribute count is the length of its attribute list, and `d` is the schema
record found in the schema store at the reference the schema holds after the
call, then `__sos_schema_init` on that record (its allocations succeeding, in a
container whose name tree has no schema of that name yet) returns a schema that
`sos_schema_by_name` finds under the name of `S`, with the record size and the
attribute count of `S` and, attribute by attribute in the same order, the name,
type, offset and indexed flag `S` had before the call. -/
theorem sos_schema_add_init_roundtrip (P : sos_priv_h) (sos : sos_container_s)
    (S : sos_schema_s) (env : schema_add_env) (ref : ods_ref_t) (d : sos_schema_data_s)
    (sos2 : sos_container_s) (ienv : schema_init_env)
    (hcnt : S.data.attr_cnt = S.attr_list.length)
    (hrc : (sos_schema_add P sos S env).1 = 0)
    (hobj : (sos_schema_add P sos S env).2.2.schema_obj = some ref)
    (hrec : ods_schema_obj (sos_schema_add P sos S env).2.1.schema_ods ref = some (ref, d))
    (hsc : ienv.schema_calloc = true) (hdc : ienv.dict_calloc = true)
    (hac : ∀ i, (ienv.attr_env i).calloc_ok = true)
    (hfresh : schema_name_rbt_find sos2 S.data.name = none) :
    ∃ T : sos_schema_s,
      (__sos_schema_init sos2 (some (ref, d)) ienv).1 = some sos2.schema_mem.length ∧
      (__sos_schema_init sos2 (some (ref, d)) ienv).2.schema_mem[sos2.schema_mem.length]? =
        some T ∧
      (sos_schema_by_name (__sos_schema_init sos2 (some (ref, d)) ienv).2 S.data.name).1 =
        some sos2.schema_mem.length ∧
      T.data.name = S.data.name ∧ T.data.obj_sz = S.data.obj_sz ∧
      T.data.attr_cnt = S.data.attr_cnt ∧
      T.attr_list.map (fun a => (a.data.name, a.data.type, a.data.offset, a.data.indexed)) =
        S.attr_list.map (fun a => (a.data.name, a.data.type, a.data.offset, a.data.indexed)) := by
  rcases sos_schema_add_outcome P sos S env with
    ⟨_, _, _, _, _, h6⟩ | ⟨_, _, ref1, ods, _, _, _, _, _, hobj1, _, hdata, hok, _, hods⟩
  · rcases h6 with h6 | h6 | ⟨ref', h6, h7⟩
    · exact absurd hrc h6
    · rw [h6] at hobj; cases hobj
    · rw [h6] at hobj
      cases hobj
      rw [ods_schema_obj_none _ _ h7] at hrec
      cases hrec
  · rw [hobj1] at hobj
    cases hobj
    rw [hods] at hrec
    have hd := ods_schema_obj_write _ _ _ _ _ hrec
    rw [hdata, schema_add_attrs_slots _ _ _ hok] at hd
    have hdn : d.name = S.data.name := by rw [hd]
    have hdo : d.obj_sz = S.data.obj_sz := by rw [hd]
    have hdc' : d.attr_cnt = S.data.attr_cnt := by rw [hd]
    have hdd : d.attr_dict = S.attr_list.map (fun a => a.data) := by rw [hd]
    have hlen : 0 + d.attr_cnt = d.attr_dict.length := by
      rw [hdc', hcnt, hdd, List.length_map, Nat.zero_add]
    obtain ⟨l, hl, hlmap⟩ := schema_init_attrs_ok ref d ienv hac d.attr_cnt 0 hlen
    rw [List.drop_zero, hdd] at hlmap
    have hinit : __sos_schema_init sos2 (some (ref, d)) ienv =
        (some sos2.schema_mem.length,
          { sos2 with
              schema_mem := sos2.schema_mem ++
                [{ has_sos := true, flags := 0, ref_count := 1, data := d, data_loc := some ref,
                   schema_obj := some ref,
                   dict := some ((List.range d.attr_cnt).map some), attr_list := l }],
              schema_name_rbt := sos2.schema_name_rbt ++ [sos2.schema_mem.length],
              schema_id_rbt := sos2.schema_id_rbt ++ [sos2.schema_mem.length],
              schema_count := sos2.schema_count + 1 }) := by
      unfold __sos_schema_init
      simp only [hsc, hdc, Bool.true_eq_false, if_false, hl]
    rw [hinit]
    refine ⟨_, rfl, List.getElem?_concat_length _ _, ?_, hdn, hdo, hdc', ?_⟩
    · unfold sos_schema_by_name
      have := schema_name_rbt_find_concat sos2
        { has_sos := true, flags := 0, ref_count := 1, data := d, data_loc := some ref,
          schema_obj := some ref,
          dict := some ((List.range d.attr_cnt).map some), attr_list := l }
        (sos2.schema_id_rbt ++ [sos2.schema_mem.length]) (sos2.schema_count + 1)
        (by rw [hdn]; exact hfresh)
      simp only [hdn] at this
      rw [this]
    · have := congrArg (List.map (fun x : sos_attr_data_s =>
        (x.name, x.type, x.offset, x.indexed))) hlmap
      simpa [List.map_map, Function.comp] using this

theorem sos_schema_add_init_roundtrip_witness :
    (ex_schema2.data.attr_cnt = ex_schema2.attr_list.length ∧
      (sos_schema_add sos_priv_default ex_sos0 ex_schema2 ex_add_env).1 = 0 ∧
      (sos_schema_add sos_priv_default ex_sos0 ex_schema2 ex_add_env).2.2.schema_obj = some 64 ∧
      ods_schema_obj (sos_schema_add sos_priv_default ex_sos0 ex_schema2 ex_add_env).2.1.schema_ods
          64 =
        some (64, ⟨"E", 0, 0, 0, 20, 856, 2, [⟨"First", 0, 9, 1, 8⟩, ⟨"Salary", 1, 4, 0, 16⟩]⟩) ∧
      ex_init_env.schema_calloc = true ∧ ex_init_env.dict_calloc = true ∧
      (∀ i, (ex_init_env.attr_env i).calloc_ok = true) ∧
      schema_name_rbt_find ex_sos0 ex_schema2.data.name = none) ∧
    ∃ T : sos_schema_s,
      (__sos_schema_init ex_sos0
        (some (64, ⟨"E", 0, 0, 0, 20, 856, 2, [⟨"First", 0, 9, 1, 8⟩, ⟨"Salary", 1, 4, 0, 16⟩]⟩))
        ex_init_env).1 = some ex_sos0.schema_mem.length ∧
      (__sos_schema_init ex_sos0
        (some (64, ⟨"E", 0, 0, 0, 20, 856, 2, [⟨"First", 0, 9, 1, 8⟩, ⟨"Salary", 1, 4, 0, 16⟩]⟩))
        ex_init_env).2.schema_mem[ex_sos0.schema_mem.length]? = some T ∧
      (sos_schema_by_name (__sos_schema_init ex_sos0
        (some (64, ⟨"E", 0, 0, 0, 20, 856, 2, [⟨"First", 0, 9, 1, 8⟩, ⟨"Salary", 1, 4, 0, 16⟩]⟩))
        ex_init_env).2 ex_schema2.data.name).1 = some ex_sos0.schema_mem.length ∧
      T.data.name = ex_schema2.data.name ∧ T.data.obj_sz = ex_schema2.data.obj_sz ∧
      T.data.attr_cnt = ex_schema2.data.attr_cnt ∧
      T.attr_list.map (fun a => (a.data.name, a.data.type, a.data.offset, a.data.indexed)) =
        ex_schema2.attr_list.map
          (fun a => (a.data.name, a.data.type, a.data.offset, a.data.indexed)) :=
  ⟨⟨by decide, by decide, by decide, by decide, rfl, rfl, fun _ => rfl, by decide⟩,
   sos_schema_add_init_roundtrip sos_priv_default ex_sos0 ex_schema2 ex_add_env 64 _ ex_sos0
     ex_init_env (by decide) (by decide) (by decide) (by decide) rfl rfl (fun _ => rfl)
     (by decide)⟩

/-! ## A persisted schema is immutable -/

/-- Once `schema_obj` is set, every mutating call is rejected with `EBUSY` and
leaves the schema as it was. -/
theorem persisted_schema_rejects (P : sos_priv_h) (sos : sos_container_s) (S : sos_schema_s)
    (h : S.schema_obj ≠ none) :
    (∀ name type env, sos_schema_attr_add P S name type env = (EBUSY, S)) ∧
    (∀ name, sos_schema_index_add S name = (EBUSY, S)) ∧
    (∀ name idx_type key_type env,
      sos_schema_index_modify S name idx_type key_type env = some (EBUSY, S)) ∧
    (∀ env, sos_schema_add P sos S env = (EBUSY, sos, S)) := by
  have hs : S.schema_obj.isSome = true := Option.isSome_iff_ne_none.mpr h
  refine ⟨?_, ?_, ?_, ?_⟩
  · intro name type env; simp [sos_schema_attr_add, hs]
  · intro name; simp [sos_schema_index_add, hs]
  · intro name idx_type key_type env; simp [sos_schema_index_modify, hs]
  · intro env; simp [sos_schema_add, hs]

/-- A call of `sos_schema_add` that changes the schema count has appended the
reference of the new record to the id dictionary, given the schema the previous
dictionary length as id, and linked it into both trees. -/
theorem sos_schema_add_registered (P : sos_priv_h) (sos : sos_container_s) (S : sos_schema_s)
    (env : schema_add_env)
    (h : (sos_schema_add P sos S env).2.1.schema_count ≠ sos.schema_count) :
    ∃ ref,
      (sos_schema_add P sos S env).2.2.schema_obj = some ref ∧
      (sos_schema_add P sos S env).2.2.data.id = sos.udata_dict.length ∧
      (sos_schema_add P sos S env).2.1.udata_dict = sos.udata_dict ++ [ref] ∧
      (sos_schema_add P sos S env).2.1.schema_count = sos.schema_count + 1 ∧
      (sos_schema_add P sos S env).2.1.schema_mem =
        sos.schema_mem ++ [(sos_schema_add P sos S env).2.2] ∧
      (sos_schema_add P sos S env).2.1.schema_name_rbt =
        sos.schema_name_rbt ++ [sos.schema_mem.length] ∧
      (sos_schema_add P sos S env).2.1.schema_id_rbt =
        sos.schema_id_rbt ++ [sos.schema_mem.length] := by
  rcases sos_schema_add_outcome P sos S env with
    ⟨_, _, _, h4, _, _⟩ | ⟨_, _, ref, ods, h1, h2, h3, h4, h5, h6, _, h8, _⟩
  · exact absurd h4 h
  · exact ⟨ref, h6, by rw [h8], h4, h5, h1, h2, h3⟩

/-! ## Where `sos_schema_add` departs from its contract -/

/-- C5 (code at the failing input). The object-reference block cannot be allocated:
`sos_schema_add` returns 0, the schema has no persistent object attached, and a
later `sos_schema_attr_add` on it returns 0 and appends an attribute. -/
theorem sos_schema_add_zero_leaves_schema_mutable :
    (sos_schema_add sos_priv_default ex_sos0 ex_schema2 ex_add_env_no_ref).1 = 0 ∧
    (sos_schema_add sos_priv_default ex_sos0 ex_schema2 ex_add_env_no_ref).2.2.schema_obj = none ∧
    (sos_schema_attr_add sos_priv_default
      (sos_schema_add sos_priv_default ex_sos0 ex_schema2 ex_add_env_no_ref).2.2
      "x" SOS_TYPE_INT32 attr_new_env_ok).1 = 0 ∧
    (sos_schema_attr_add sos_priv_default
      (sos_schema_add sos_priv_default ex_sos0 ex_schema2 ex_add_env_no_ref).2.2
      "x" SOS_TYPE_INT32 attr_new_env_ok).2.attr_list.length = 3 ∧
    ex_schema2.attr_list.length = 2 := by
  decide

/-- C6 (code at the failing input). The container holds the schema "E" with
reference count 1; adding a second schema named "E" returns `EEXIST` and leaves
trees, dictionary and count as they were, but the first schema now has reference
count 2: the reference `sos_schema_by_name` took is not dropped. -/
theorem sos_schema_add_eexist_takes_reference :
    ex_sos1.schema_mem.map (fun s => (s.data.name, s.ref_count)) = [("E", 1)] ∧
    ex_schema0.data.name = "E" ∧
    (sos_schema_add sos_priv_default ex_sos1 ex_schema0 ex_add_env).1 = EEXIST ∧
    (sos_schema_add sos_priv_default ex_sos1 ex_schema0 ex_add_env).2.1.schema_mem.map
      (fun s => (s.data.name, s.ref_count)) = [("E", 2)] ∧
    (sos_schema_add sos_priv_default ex_sos1 ex_schema0 ex_add_env).2.1.schema_name_rbt =
      ex_sos1.schema_name_rbt ∧
    (sos_schema_add sos_priv_default ex_sos1 ex_schema0 ex_add_env).2.1.schema_id_rbt =
      ex_sos1.schema_id_rbt ∧
    (sos_schema_add sos_priv_default ex_sos1 ex_schema0 ex_add_env).2.1.udata_dict =
      ex_sos1.udata_dict ∧
    (sos_schema_add sos_priv_default ex_sos1 ex_schema0 ex_add_env).2.1.schema_count =
      ex_sos1.schema_count := by
  decide

/-- C7 (code at the failing input). When the object-reference block, or the id
table, cannot be allocated, `sos_schema_add` returns 0 although the id
dictionary, the schema count and the trees are as before the call. -/
theorem sos_schema_add_zero_without_registration :
    ((sos_schema_add sos_priv_default ex_sos0 ex_schema2 ex_add_env_no_ref).1 = 0 ∧
      (sos_schema_add sos_priv_default ex_sos0 ex_schema2 ex_add_env_no_ref).2.1.udata_dict = [] ∧
      (sos_schema_add sos_priv_default ex_sos0 ex_schema2 ex_add_env_no_ref).2.1.schema_count = 0 ∧
      (sos_schema_add sos_priv_default ex_sos0 ex_schema2 ex_add_env_no_ref).2.1.schema_name_rbt
        = []) ∧
    ((sos_schema_add sos_priv_default ex_sos0 ex_schema2 ex_add_env_no_dict).1 = 0 ∧
      (sos_schema_add sos_priv_default ex_sos0 ex_schema2 ex_add_env_no_dict).2.1.udata_dict = [] ∧
      (sos_schema_add sos_priv_default ex_sos0 ex_schema2 ex_add_env_no_dict).2.1.schema_count = 0 ∧
      (sos_schema_add sos_priv_default ex_sos0 ex_schema2 ex_add_env_no_dict).2.1.schema_name_rbt
        = []) := by
  decide

/-- C10 (code at the failing inputs). (a) `ods_idx_insert` fails: `sos_schema_add`
returns `ENOMEM` and deletes its blocks, but the schema keeps `schema_obj` and its
attributes stay repointed into the deleted record, so a later
`sos_schema_attr_add` returns `EBUSY`.  (b) `__sos_schema_open` fails: the error is
returned although the schema is in both trees, the dictionary and the count.
(c) The object-reference block cannot be allocated: 0 is returned and the schema
is in neither tree. -/
theorem sos_schema_add_failure_not_atomic :
    ((sos_schema_add sos_priv_default ex_sos0 ex_schema2 ex_add_env_no_insert).1 = ENOMEM ∧
      (sos_schema_add sos_priv_default ex_sos0 ex_schema2 ex_add_env_no_insert).2.1.schema_ods.blocks
        = [] ∧
      (sos_schema_add sos_priv_default ex_sos0 ex_schema2 ex_add_env_no_insert).2.1.schema_idx_ods.blocks
        = [] ∧
      (sos_schema_add sos_priv_default ex_sos0 ex_schema2 ex_add_env_no_insert).2.2.schema_obj
        = some 64 ∧
      (sos_schema_add sos_priv_default ex_sos0 ex_schema2
        ex_add_env_no_insert).2.2.attr_list.map (fun a => a.data_loc) =
          [some (64, 0), some (64, 1)] ∧
      (sos_schema_attr_add sos_priv_default
        (sos_schema_add sos_priv_default ex_sos0 ex_schema2 ex_add_env_no_insert).2.2
        "x" SOS_TYPE_INT32 attr_new_env_ok).1 = EBUSY) ∧
    ((sos_schema_add sos_priv_default ex_sos0 ex_schema2 ex_add_env_no_open).1 = ENOMEM ∧
      (sos_schema_add sos_priv_default ex_sos0 ex_schema2 ex_add_env_no_open).2.1.schema_name_rbt
        = [0] ∧
      (sos_schema_add sos_priv_default ex_sos0 ex_schema2 ex_add_env_no_open).2.1.schema_id_rbt
        = [0] ∧
      (sos_schema_add sos_priv_default ex_sos0 ex_schema2 ex_add_env_no_open).2.1.udata_dict
        = [64] ∧
      (sos_schema_add sos_priv_default ex_sos0 ex_schema2 ex_add_env_no_open).2.1.schema_count
        = 1) ∧
    ((sos_schema_add sos_priv_default ex_sos0 ex_schema2 ex_add_env_no_ref).1 = 0 ∧
      (sos_schema_add sos_priv_default ex_sos0 ex_schema2 ex_add_env_no_ref).2.1.schema_name_rbt
        = [] ∧
      (sos_schema_add sos_priv_default ex_sos0 ex_schema2 ex_add_env_no_ref).2.1.schema_id_rbt
        = []) := by
  decide

/-! ## `sos_schema_new` -/

/-- C14. With the allocation succeeding, `sos_schema_new` returns `NULL` exactly when
`strlen(name) >= SOS_SCHEMA_NAME_LEN`; otherwise it returns a schema with that
name, attribute count 0, an empty attribute list, reference count 1 and no
persistent object attached; so the empty name succeeds whenever the limit is
positive. -/
theorem sos_schema_new_result_ok (P : sos_priv_h) (name : String) :
    (sos_schema_new P name true = .null ↔ name.length ≥ P.SOS_SCHEMA_NAME_LEN) ∧
    (name.length < P.SOS_SCHEMA_NAME_LEN →
      ∃ s, sos_schema_new P name true = .ok s ∧ s.data.name = name ∧ s.data.attr_cnt = 0 ∧
        s.attr_list = [] ∧ s.ref_count = 1 ∧ s.schema_obj = none ∧ s.data_loc = none ∧
        s.dict = none ∧ s.flags = 0) ∧
    (0 < P.SOS_SCHEMA_NAME_LEN → ∃ s, sos_schema_new P "" true = .ok s ∧ s.data.name = "") := by
  refine ⟨?_, ?_, ?_⟩
  · unfold sos_schema_new
    constructor
    · intro h
      by_contra hc
      simp [hc] at h
    · intro h
      simp [h]
  · intro h
    have h' : ¬ name.length ≥ P.SOS_SCHEMA_NAME_LEN := Nat.not_le.mpr h
    unfold sos_schema_new
    simp only [h', if_false, if_true]
    exact ⟨_, rfl, rfl, rfl, rfl, rfl, rfl, rfl, rfl, rfl⟩
  · intro h
    have h' : ¬ ("" : String).length ≥ P.SOS_SCHEMA_NAME_LEN := by
      simp only [String.length, List.length_nil]; omega
    unfold sos_schema_new
    simp only [h', if_false, if_true]
    exact ⟨_, rfl, rfl⟩

/-! ## The size table -/

/-- C18. The table `type_sizes` has an entry for each of the type tags up to
`SOS_TYPE_LAST`: 8 for BYTE_ARRAY and the eight typed arrays, 16 for OBJ and for
LONG_DOUBLE, 4 for INT32, UINT32 and FLOAT, 8 for INT64, UINT64, DOUBLE and
TIMESTAMP; `sos_attr_size` returns the entry of the attribute's type, which is
positive for every valid type. -/
theorem type_sizes_table :
    (type_sizes SOS_TYPE_BYTE_ARRAY = 8 ∧ type_sizes SOS_TYPE_INT32_ARRAY = 8 ∧
      type_sizes SOS_TYPE_INT64_ARRAY = 8 ∧ type_sizes SOS_TYPE_UINT32_ARRAY = 8 ∧
      type_sizes SOS_TYPE_UINT64_ARRAY = 8 ∧ type_sizes SOS_TYPE_FLOAT_ARRAY = 8 ∧
      type_sizes SOS_TYPE_DOUBLE_ARRAY = 8 ∧ type_sizes SOS_TYPE_LONG_DOUBLE_ARRAY = 8 ∧
      type_sizes SOS_TYPE_OBJ_ARRAY = 8) ∧
    (type_sizes SOS_TYPE_OBJ = 16 ∧ type_sizes SOS_TYPE_LONG_DOUBLE = 16) ∧
    (type_sizes SOS_TYPE_INT32 = 4 ∧ type_sizes SOS_TYPE_UINT32 = 4 ∧
      type_sizes SOS_TYPE_FLOAT = 4) ∧
    (type_sizes SOS_TYPE_INT64 = 8 ∧ type_sizes SOS_TYPE_UINT64 = 8 ∧
      type_sizes SOS_TYPE_DOUBLE = 8 ∧ type_sizes SOS_TYPE_TIMESTAMP = 8) ∧
    (∀ t : sos_type_t, t ≤ SOS_TYPE_LAST →
      type_sizes t = 4 ∨ type_sizes t = 8 ∨ type_sizes t = 16) ∧
    (∀ a : sos_attr_s, sos_attr_size a = type_sizes a.data.type) ∧
    (∀ a : sos_attr_s, a.data.type ≤ SOS_TYPE_LAST → 0 < sos_attr_size a) := by
  refine ⟨by decide, by decide, by decide, by decide, ?_, fun _ => rfl, ?_⟩
  · intro t ht
    unfold SOS_TYPE_LAST at ht
    interval_cases t <;> simp [type_sizes]
  · intro a ha
    exact type_sizes_pos _ ha

/-! ## Marking and configuring an index -/

/-- The store through the pointer `_attr_by_name` returns rewrites one list
position: the first attribute of that name. -/
theorem attr_list_update_eq_set (name : String) (f : sos_attr_s → sos_attr_s)
    (l : List sos_attr_s) (a : sos_attr_s)
    (h : l.find? (fun attr => decide (name = attr.data.name)) = some a) :
    ∃ i, l[i]? = some a ∧ a.data.name = name ∧
      (∀ j b, j < i → l[j]? = some b → b.data.name ≠ name) ∧
      attr_list_update name f l = l.set i (f a) := by
  induction l with
  | nil => simp at h
  | cons b l ih =>
    by_cases hb : name = b.data.name
    · have hab : a = b := by
        simp only [List.find?_cons, hb, decide_True] at h
        exact (Option.some.inj h).symm
      subst hab
      refine ⟨0, by simp, hb.symm, ?_, ?_⟩
      · intro j b hj; omega
      · simp [attr_list_update, hb]
    · have h' : l.find? (fun attr => decide (name = attr.data.name)) = some a := by
        simpa [List.find?_cons, hb] using h
      obtain ⟨i, hi, hn, hfirst, hset⟩ := ih h'
      refine ⟨i + 1, by simpa using hi, hn, ?_, ?_⟩
      · intro j c hj hc
        cases j with
        | zero =>
          simp only [List.getElem?_cons_zero, Option.some.injEq] at hc
          rw [← hc]; exact fun h => hb h.symm
        | succ j =>
          simp only [List.getElem?_cons_succ] at hc
          exact hfirst j c (by omega) hc
      · simp [attr_list_update, hb, hset]

theorem attr_list_update_idem (name : String) (f : sos_attr_s → sos_attr_s)
    (hname : ∀ a, (f a).data.name = a.data.name) (hidem : ∀ a, f (f a) = f a)
    (l : List sos_attr_s) :
    attr_list_update name f (attr_list_update name f l) = attr_list_update name f l := by
  induction l with
  | nil => rfl
  | cons b l ih =>
    by_cases hb : name = b.data.name
    · have hb' : name = (f b).data.name := by rw [hname]; exact hb
      rw [attr_list_update, if_pos hb, attr_list_update, if_pos hb', hidem]
    · rw [attr_list_update, if_neg hb, attr_list_update, if_neg hb, ih]

theorem _attr_by_name_update (s : sos_schema_s) (name : String) (f : sos_attr_s → sos_attr_s)
    (hname : ∀ a, (f a).data.name = a.data.name) :
    (_attr_by_name { s with attr_list := attr_list_update name f s.attr_list } name).isSome =
      (_attr_by_name s name).isSome := by
  unfold _attr_by_name
  simp only []
  induction s.attr_list with
  | nil => rfl
  | cons b l ih =>
    by_cases hb : name = b.data.name
    · have hb' : name = (f b).data.name := by rw [hname]; exact hb
      rw [attr_list_update, if_pos hb, List.find?_cons, List.find?_cons]
      simp only [decide_eq_true hb, decide_eq_true hb', Option.isSome_some]
    · rw [attr_list_update, if_neg hb, List.find?_cons, List.find?_cons]
      simp only [decide_eq_false hb]
      exact ih

theorem index_add_success (s : sos_schema_s) (name : String)
    (hmut : s.schema_obj = none) (h : (_attr_by_name s name).isSome = true) :
    sos_schema_index_add s name =
      (0, { s with
              attr_list := attr_list_update name
                (fun attr => { attr with data := { attr.data with indexed := 1 } })
                s.attr_list }) := by
  have hn : (_attr_by_name s name).isNone = false := by
    cases hx : _attr_by_name s name with
    | none => rw [hx] at h; cases h
    | some _ => rfl
  unfold sos_schema_index_add
  simp [hmut, hn]

/-- C15. On a mutable schema that has an attribute of the given name,
`sos_schema_index_add` returns 0 and sets the indexed flag of that attribute (the
first of that name, the one `_attr_by_name` returns) to 1; every other attribute,
the other fields of the named attribute, and the schema data (attribute count,
record size and the rest) are unchanged; a second call changes nothing more. -/
theorem sos_schema_index_add_sets_flag (s : sos_schema_s) (name : String) (a : sos_attr_s)
    (hmut : s.schema_obj = none) (hattr : _attr_by_name s name = some a) :
    (sos_schema_index_add s name).1 = 0 ∧
    (∃ i, s.attr_list[i]? = some a ∧ a.data.name = name ∧
      (∀ j b, j < i → s.attr_list[j]? = some b → b.data.name ≠ name) ∧
      (sos_schema_index_add s name).2 =
        { s with
            attr_list := s.attr_list.set i
              { a with data := { a.data with indexed := 1 } } }) ∧
    (sos_schema_index_add s name).2.data = s.data ∧
    sos_schema_index_add (sos_schema_index_add s name).2 name = sos_schema_index_add s name := by
  have hres := index_add_success s name hmut (by rw [hattr]; rfl)
  obtain ⟨i, hi, hn, hfirst, hset⟩ := attr_list_update_eq_set name
    (fun attr => { attr with data := { attr.data with indexed := 1 } }) s.attr_list a hattr
  refine ⟨by rw [hres], ⟨i, hi, hn, hfirst, ?_⟩, by rw [hres], ?_⟩
  · rw [hres, hset]
  · have h2 := index_add_success (sos_schema_index_add s name).2 name
      (by rw [hres]; exact hmut)
      (by
        rw [hres]
        have := _attr_by_name_update s name
          (fun attr => { attr with data := { attr.data with indexed := 1 } }) (fun _ => rfl)
        rw [this, hattr]; rfl)
    have hidem := attr_list_update_idem name
      (fun attr : sos_attr_s => { attr with data := { attr.data with indexed := 1 } })
      (fun _ => rfl) (fun _ => rfl) s.attr_list
    rw [h2, hres]
    simp only [Prod.mk.injEq, true_and]
    exact congrArg (fun l => ({ s with attr_list := l } : sos_schema_s)) hidem

theorem sos_schema_index_add_sets_flag_witness :
    (ex_schema1.schema_obj = none ∧
      _attr_by_name ex_schema1 "First" =
        some ⟨⟨"First", 0, 9, 0, 8⟩, none, 9, some "BXTREE", some "STRING", []⟩) ∧
    ((sos_schema_index_add ex_schema1 "First").1 = 0 ∧
    (∃ i, ex_schema1.attr_list[i]? =
        some ⟨⟨"First", 0, 9, 0, 8⟩, none, 9, some "BXTREE", some "STRING", []⟩ ∧
      (⟨⟨"First", 0, 9, 0, 8⟩, none, 9, some "BXTREE", some "STRING", []⟩ :
        sos_attr_s).data.name = "First" ∧
      (∀ j b, j < i → ex_schema1.attr_list[j]? = some b → b.data.name ≠ "First") ∧
      (sos_schema_index_add ex_schema1 "First").2 =
        { ex_schema1 with
            attr_list := ex_schema1.attr_list.set i
              { (⟨⟨"First", 0, 9, 0, 8⟩, none, 9, some "BXTREE", some "STRING", []⟩ :
                    sos_attr_s) with
                  data := { name := "First", id := 0, type := 9, indexed := 1, offset := 8 } } }) ∧
    (sos_schema_index_add ex_schema1 "First").2.data = ex_schema1.data ∧
    sos_schema_index_add (sos_schema_index_add ex_schema1 "First").2 "First" =
      sos_schema_index_add ex_schema1 "First") :=
  ⟨⟨by decide, by decide⟩,
   sos_schema_index_add_sets_flag ex_schema1 "First" _ (by decide) (by decide)⟩

/-- C16. `sos_schema_index_add` and `sos_schema_index_modify` return `EBUSY` on a
persisted schema, else `ENOENT` when no attribute has the name, and leave the
schema as it was in both cases; a `sos_schema_index_modify` that succeeds (both
strings given, both `strdup` calls succeeding) rewrites the index type and the key
type of the named attribute to the two given strings and nothing else. -/
theorem sos_schema_index_errors (s : sos_schema_s) (name idx_type : String)
    (key_type : Option String) (env : index_modify_env) :
    (s.schema_obj ≠ none →
      sos_schema_index_add s name = (EBUSY, s) ∧
      sos_schema_index_modify s name idx_type key_type env = some (EBUSY, s)) ∧
    (s.schema_obj = none → _attr_by_name s name = none →
      sos_schema_index_add s name = (ENOENT, s) ∧
      sos_schema_index_modify s name idx_type key_type env = some (ENOENT, s)) ∧
    (∀ (a : sos_attr_s) (kt : String), s.schema_obj = none → _attr_by_name s name = some a →
      key_type = some kt → env.idx_type_ok = true → env.key_type_ok = true →
      ∃ i, s.attr_list[i]? = some a ∧ a.data.name = name ∧
        (∀ j b, j < i → s.attr_list[j]? = some b → b.data.name ≠ name) ∧
        sos_schema_index_modify s name idx_type key_type env =
          some (0, { s with
                       attr_list := s.attr_list.set i
                         { a with idx_type := some idx_type, key_type := some kt } })) := by
  refine ⟨?_, ?_, ?_⟩
  · intro h
    have hs : s.schema_obj.isSome = true := Option.isSome_iff_ne_none.mpr h
    simp [sos_schema_index_add, sos_schema_index_modify, hs]
  · intro h1 h2
    simp [sos_schema_index_add, sos_schema_index_modify, h1, h2]
  · intro a kt h1 h2 h3 h4 h5
    obtain ⟨i, hi, hn, hfirst, hset⟩ := attr_list_update_eq_set name
      (fun attr => { attr with idx_type := some idx_type, key_type := some kt }) s.attr_list a h2
    refine ⟨i, hi, hn, hfirst, ?_⟩
    rw [← hset]
    unfold sos_schema_index_modify
    simp [h1, h2, h3, h4, h5]

/-- C17 (code at the failing input). On the mutable schema "E" with the attribute
First, `sos_schema_index_modify(schema, "First", "BXTREE", NULL)` does not return:
`strdup(key_type)` reads through the null pointer.  The same holds for every
mutable schema and every name of one of its attributes. -/
theorem sos_schema_index_modify_null_key_type :
    sos_schema_index_modify ex_schema1 "First" "BXTREE" none ⟨true, true⟩ = none ∧
    (_attr_by_name ex_schema1 "First").isSome = true ∧ ex_schema1.schema_obj = none ∧
    (∀ (s : sos_schema_s) (name idx_type : String) (env : index_modify_env),
      s.schema_obj = none → (_attr_by_name s name).isSome = true →
      sos_schema_index_modify s name idx_type none env = none) := by
  refine ⟨by decide, by decide, by decide, ?_⟩
  intro s name idx_type env h1 h2
  have h3 : (_attr_by_name s name).isNone = false := by
    cases hx : _attr_by_name s name with
    | none => rw [hx] at h2; cases h2
    | some _ => rfl
  simp [sos_schema_index_modify, h1, h3]

/-! ## Defaults of a new attribute -/

/-- The result of a `sos_schema_attr_add` that passes every check, with the new
attribute written out. -/
theorem attr_add_success_attr (P : sos_priv_h) (s : sos_schema_s) (name : String)
    (type : sos_type_t) (env : attr_new_env)
    (hmut : s.schema_obj = none) (hname : _attr_by_name s name = none)
    (htype : type ≤ SOS_TYPE_LAST) (halloc : env.calloc_ok = true) :
    (sos_schema_attr_add P s name type env).2.attr_list = s.attr_list ++
      [{ data := ⟨name, s.data.attr_cnt, type, 0,
            match s.attr_list.getLast? with
            | some p => p.data.offset + type_sizes p.data.type
            | none => P.sizeof_sos_obj_data_s⟩,
         data_loc := none, fn_type := type,
         idx_type := if env.idx_type_ok then some "BXTREE" else none,
         key_type := if env.key_type_ok then some (key_types type) else none,
         idx_list := [] }] := by
  have hlt : ¬ type > SOS_TYPE_LAST := Nat.not_lt.mpr htype
  unfold sos_schema_attr_add
  simp only [hmut, hname, Option.isSome_none, Bool.false_eq_true, if_false, hlt, attr_new,
    halloc, if_true, sos_attr_size]

/-- C19 (counterexample). An attribute of type INT64 added to the fresh schema "E"
has key type "INT64", where the table of the claim gives "NONE". -/
theorem sos_schema_attr_add_key_type_int64 :
    (sos_schema_attr_add sos_priv_default ex_schema0 "b" SOS_TYPE_INT64 attr_new_env_ok).1 = 0 ∧
    (sos_schema_attr_add sos_priv_default ex_schema0 "b" SOS_TYPE_INT64
      attr_new_env_ok).2.attr_list.map (fun a => (a.data.name, a.key_type)) =
        [("b", some "INT64")] ∧
    default_key_type_spec SOS_TYPE_INT64 = "NONE" ∧
    ¬ (∀ (name : String) (type : sos_type_t), type ≤ SOS_TYPE_LAST →
        (sos_schema_attr_add sos_priv_default ex_schema0 name type
          attr_new_env_ok).2.attr_list.map (fun a => a.key_type) =
            [some (default_key_type_spec type)]) := by
  refine ⟨by decide, by decide, by decide, ?_⟩
  intro h
  have := h "b" SOS_TYPE_INT64 (by decide)
  revert this
  decide

/-- C19 (amended). Every attribute created by `sos_schema_attr_add`, its allocations
succeeding, has index type "BXTREE", an empty index list, indexed flag 0 and the
key type `key_types[type]`; the table `key_types` gives each of INT32, INT64,
UINT32, UINT64, FLOAT, DOUBLE and LONG_DOUBLE its own name, TIMESTAMP "UINT64",
BYTE_ARRAY "STRING", and OBJ and the eight typed arrays "NONE". -/
theorem sos_schema_attr_add_defaults (P : sos_priv_h) (s : sos_schema_s) (name : String)
    (type : sos_type_t) (env : attr_new_env)
    (hmut : s.schema_obj = none) (hname : _attr_by_name s name = none)
    (htype : type ≤ SOS_TYPE_LAST) (halloc : env.calloc_ok = true)
    (hidx : env.idx_type_ok = true) (hkey : env.key_type_ok = true) :
    (∃ attr : sos_attr_s,
      (sos_schema_attr_add P s name type env).2.attr_list = s.attr_list ++ [attr] ∧
      attr.data.name = name ∧ attr.data.type = type ∧
      attr.idx_type = some "BXTREE" ∧ attr.idx_list = [] ∧ attr.data.indexed = 0 ∧
      attr.key_type = some (key_types type)) ∧
    (key_types SOS_TYPE_INT32 = "INT32" ∧ key_types SOS_TYPE_INT64 = "INT64" ∧
      key_types SOS_TYPE_UINT32 = "UINT32" ∧ key_types SOS_TYPE_UINT64 = "UINT64" ∧
      key_types SOS_TYPE_FLOAT = "FLOAT" ∧ key_types SOS_TYPE_DOUBLE = "DOUBLE" ∧
      key_types SOS_TYPE_LONG_DOUBLE = "LONG_DOUBLE" ∧
      key_types SOS_TYPE_TIMESTAMP = "UINT64" ∧ key_types SOS_TYPE_BYTE_ARRAY = "STRING") ∧
    (∀ t : sos_type_t, t ≤ SOS_TYPE_LAST → (t = SOS_TYPE_OBJ ∨ SOS_TYPE_INT32_ARRAY ≤ t) →
      key_types t = "NONE") := by
  refine ⟨⟨_, attr_add_success_attr P s name type env hmut hname htype halloc, rfl, rfl, ?_,
    rfl, rfl, ?_⟩, by decide, ?_⟩
  · simp [hidx]
  · simp [hkey]
  · intro t ht h
    unfold SOS_TYPE_LAST at ht
    unfold SOS_TYPE_OBJ SOS_TYPE_INT32_ARRAY at h
    interval_cases t <;> simp [key_types] at h ⊢

theorem sos_schema_attr_add_defaults_witness :
    (ex_schema0.schema_obj = none ∧ _attr_by_name ex_schema0 "b" = none ∧
      SOS_TYPE_INT64 ≤ SOS_TYPE_LAST ∧ attr_new_env_ok.calloc_ok = true ∧
      attr_new_env_ok.idx_type_ok = true ∧ attr_new_env_ok.key_type_ok = true) ∧
    ((∃ attr : sos_attr_s,
      (sos_schema_attr_add sos_priv_default ex_schema0 "b" SOS_TYPE_INT64
        attr_new_env_ok).2.attr_list = ex_schema0.attr_list ++ [attr] ∧
      attr.data.name = "b" ∧ attr.data.type = SOS_TYPE_INT64 ∧
      attr.idx_type = some "BXTREE" ∧ attr.idx_list = [] ∧ attr.data.indexed = 0 ∧
      attr.key_type = some (key_types SOS_TYPE_INT64)) ∧
    (key_types SOS_TYPE_INT32 = "INT32" ∧ key_types SOS_TYPE_INT64 = "INT64" ∧
      key_types SOS_TYPE_UINT32 = "UINT32" ∧ key_types SOS_TYPE_UINT64 = "UINT64" ∧
      key_types SOS_TYPE_FLOAT = "FLOAT" ∧ key_types SOS_TYPE_DOUBLE = "DOUBLE" ∧
      key_types SOS_TYPE_LONG_DOUBLE = "LONG_DOUBLE" ∧
      key_types SOS_TYPE_TIMESTAMP = "UINT64" ∧ key_types SOS_TYPE_BYTE_ARRAY = "STRING") ∧
    (∀ t : sos_type_t, t ≤ SOS_TYPE_LAST → (t = SOS_TYPE_OBJ ∨ SOS_TYPE_INT32_ARRAY ≤ t) →
      key_types t = "NONE")) :=
  ⟨⟨by decide, by decide, by decide, by decide, by decide, by decide⟩,
   sos_schema_attr_add_defaults sos_priv_default ex_schema0 "b" SOS_TYPE_INT64 attr_new_env_ok
     (by decide) (by decide) (by decide) (by decide) (by decide) (by decide)⟩

/-! ## Alignment of the attributes -/

theorem packed_offsets_dvd (d : Nat) (ts : List Nat) (hts : ∀ t ∈ ts, d ∣ t) :
    ∀ b, d ∣ b → ∀ o ∈ packed_offsets b ts, d ∣ o := by
  induction ts with
  | nil => intro b _ o ho; simp [packed_offsets] at ho
  | cons t ts ih =>
    intro b hb o ho
    simp only [packed_offsets, List.mem_cons] at ho
    rcases ho with ho | ho
    · rw [ho]; exact hb
    · exact ih (fun u hu => hts u (List.mem_cons_of_mem _ hu)) (b + t)
        (Nat.dvd_add hb (hts t (List.mem_cons_self _ _))) o ho

theorem type_sizes_dvd_four (t : Nat) : 4 ∣ type_sizes t := by
  by_cases h : t ≤ 17
  · interval_cases t <;> simp [type_sizes] <;> decide
  · have h18 : 18 ≤ t := Nat.lt_of_not_le h
    obtain ⟨k, rfl⟩ := Nat.exists_eq_add_of_le h18
    have : type_sizes (18 + k) = 0 := by
      rw [Nat.add_comm]; rfl
    rw [this]; exact Nat.dvd_zero 4

theorem schema_reachable_attr_add_seq (P : sos_priv_h) (specs : List attr_spec) :
    ∀ s, schema_reachable P s → schema_reachable P (sos_schema_attr_add_seq P s specs).2 := by
  induction specs with
  | nil => intro s h; exact h
  | cons a rest ih =>
    intro s h
    unfold sos_schema_attr_add_seq
    have h1 := schema_reachable.attr_add s a.name a.type a.env h
    by_cases hrc : (sos_schema_attr_add P s a.name a.type a.env).1 = 0
    · simp only [hrc, if_true]; exact ih _ h1
    · simp only [hrc, if_false]; exact h1

/-- C20 (counterexample). With the 8-byte record header, the schema built by adding
INT32, INT64, BYTE_ARRAY has its INT64 attribute at offset 12, which is not a
multiple of the natural width 8. -/
theorem sos_schema_attr_add_int64_unaligned :
    schema_reachable sos_priv_default ex_schema_packed ∧
    ex_schema_packed.attr_list.map (fun a => (a.data.type, a.data.offset)) =
      [(SOS_TYPE_INT32, 8), (SOS_TYPE_INT64, 12), (SOS_TYPE_BYTE_ARRAY, 20)] ∧
    natural_width_spec SOS_TYPE_INT64 = some 8 ∧
    ¬ (∀ a ∈ ex_schema_packed.attr_list, ∀ w, natural_width_spec a.data.type = some w →
        w ∣ a.data.offset) := by
  refine ⟨?_, by decide, by decide, ?_⟩
  · exact schema_reachable_attr_add_seq sos_priv_default ex_specs ex_schema0
      (schema_reachable.new "E" true ex_schema0 (by decide))
  · decide

/-- C20 (amended). In every schema built from `sos_schema_new` by
`sos_schema_attr_add` (and the index calls), with a record header whose size is a
multiple of 4, the offset of every attribute is a multiple of 4, so the
attributes of the 4-byte types INT32, UINT32 and FLOAT are naturally aligned.
The attributes are packed without padding: the offset of the attribute at
position `k` is the header size plus the footprints of the `k` attributes before
it, so an attribute of any primitive type, in particular of an 8- or 16-byte
type, is naturally aligned exactly when the header size plus the footprints
before it is a multiple of the natural width of its type. -/
theorem schema_reachable_offsets_dvd_four (P : sos_priv_h) (s : sos_schema_s)
    (h : schema_reachable P s) (hhdr : 4 ∣ P.sizeof_sos_obj_data_s) :
    (∀ a ∈ s.attr_list, 4 ∣ a.data.offset) ∧
    (∀ a ∈ s.attr_list, natural_width_spec a.data.type = some 4 → 4 ∣ a.data.offset) ∧
    (∀ (k : Nat) (a : sos_attr_s), s.attr_list[k]? = some a →
      a.data.offset = P.sizeof_sos_obj_data_s + ((attr_sizes s.attr_list).take k).sum ∧
      ∀ w, natural_width_spec a.data.type = some w →
        (w ∣ a.data.offset ↔
          w ∣ P.sizeof_sos_obj_data_s + ((attr_sizes s.attr_list).take k).sum)) := by
  have hinv := schema_inv_of_reachable P s h
  have hall : ∀ a ∈ s.attr_list, 4 ∣ a.data.offset := by
    intro a ha
    have hmem : a.data.offset ∈ attr_offsets s.attr_list :=
      List.mem_map.mpr ⟨a, ha, rfl⟩
    rw [hinv.packed] at hmem
    refine packed_offsets_dvd 4 _ ?_ _ hhdr _ hmem
    intro t ht
    simp only [attr_sizes, List.mem_map] at ht
    obtain ⟨b, _, rfl⟩ := ht
    exact type_sizes_dvd_four _
  refine ⟨hall, fun a ha _ => hall a ha, ?_⟩
  intro k a hk
  have hoff : (attr_offsets s.attr_list)[k]? = some a.data.offset := by
    unfold attr_offsets
    rw [List.getElem?_map, hk]
    rfl
  rw [hinv.packed] at hoff
  have heq := packed_offsets_get (attr_sizes s.attr_list) P.sizeof_sos_obj_data_s k
    a.data.offset hoff
  refine ⟨heq, fun w _ => ?_⟩
  rw [heq]

/-- Witness for C20: the schema with INT32, INT64, BYTE_ARRAY and the 8-byte header;
the INT64 attribute, after one footprint of 4, is at 8 + 4 = 12. -/
theorem schema_reachable_offsets_dvd_four_witness :
    (schema_reachable sos_priv_default ex_schema_packed ∧
      4 ∣ sos_priv_default.sizeof_sos_obj_data_s) ∧
    ((∀ a ∈ ex_schema_packed.attr_list, 4 ∣ a.data.offset) ∧
      (∀ a ∈ ex_schema_packed.attr_list, natural_width_spec a.data.type = some 4 →
        4 ∣ a.data.offset) ∧
      (∀ (k : Nat) (a : sos_attr_s), ex_schema_packed.attr_list[k]? = some a →
        a.data.offset = sos_priv_default.sizeof_sos_obj_data_s +
          ((attr_sizes ex_schema_packed.attr_list).take k).sum ∧
        ∀ w, natural_width_spec a.data.type = some w →
          (w ∣ a.data.offset ↔
            w ∣ sos_priv_default.sizeof_sos_obj_data_s +
              ((attr_sizes ex_schema_packed.attr_list).take k).sum))) ∧
    ex_schema_packed.attr_list.map (fun a => a.data.offset) = [8, 12, 20] ∧
    attr_sizes ex_schema_packed.attr_list = [4, 8, 8] :=
  ⟨⟨schema_reachable_attr_add_seq sos_priv_default ex_specs ex_schema0
      (schema_reachable.new "E" true ex_schema0 (by decide)), by decide⟩,
   schema_reachable_offsets_dvd_four sos_priv_default ex_schema_packed
     (schema_reachable_attr_add_seq sos_priv_default ex_specs ex_schema0
       (schema_reachable.new "E" true ex_schema0 (by decide))) (by decide),
   by decide, by decide⟩

/-! ## `sos_schema_from_template` -/

theorem _attr_by_name_isSome (s : sos_schema_s) (name : String)
    (h : name ∈ s.attr_list.map (fun a => a.data.name)) :
    (_attr_by_name s name).isSome = true := by
  unfold _attr_by_name
  rw [List.find?_isSome]
  obtain ⟨a, ha, hn⟩ := List.mem_map.mp h
  exact ⟨a, ha, by simp [hn]⟩

theorem index_add_names (s : sos_schema_s) (name : String) :
    (sos_schema_index_add s name).2.attr_list.map (fun a => a.data.name) =
      s.attr_list.map (fun a => a.data.name) ∧
    (sos_schema_index_add s name).2.schema_obj = s.schema_obj := by
  unfold sos_schema_index_add
  split_ifs
  · exact ⟨rfl, rfl⟩
  · exact ⟨rfl, rfl⟩
  · exact ⟨attr_list_update_map (fun a => a.data.name) name
      (fun attr => { attr with data := { attr.data with indexed := 1 } }) (fun _ => rfl)
      s.attr_list, rfl⟩

theorem from_template_loop_ok (P : sos_priv_h) (env : from_template_env)
    (halloc : ∀ i, (env.attr_env i).calloc_ok = true)
    (attrs : List sos_schema_template_attr) :
    ∀ (i : Nat) (s : sos_schema_s), s.schema_obj = none →
      (∃ e ∈ attrs, e.name = none) →
      (s.attr_list.map (fun a => a.data.name) ++
        (template_entries attrs).map (fun e => e.1)).Nodup →
      (∀ e ∈ template_entries attrs, e.2.1 ≤ SOS_TYPE_LAST) →
      sos_schema_from_template_loop P env i s attrs =
        .ok (schema_from_template_spec P env.attr_env i s (template_entries attrs)) := by
  induction attrs with
  | nil => intro i s _ hterm; obtain ⟨e, he, _⟩ := hterm; cases he
  | cons e rest ih =>
    intro i s hmut hterm hnd htyp
    cases hname : e.name with
    | none =>
      simp only [sos_schema_from_template_loop, template_entries, hname,
        schema_from_template_spec]
    | some n =>
      have hent : template_entries (e :: rest) = (n, e.type, e.indexed) :: template_entries rest := by
        simp only [template_entries, hname]
      rw [hent] at hnd htyp ⊢
      have hterm' : ∃ e' ∈ rest, e'.name = none := by
        obtain ⟨e', he', hn'⟩ := hterm
        rcases List.mem_cons.mp he' with h | h
        · rw [h, hname] at hn'; cases hn'
        · exact ⟨e', h, hn'⟩
      have hnotin : n ∉ s.attr_list.map (fun a => a.data.name) := by
        intro hin
        exact (List.nodup_append.mp hnd).2.2 hin (by simp)
      have hty : e.type ≤ SOS_TYPE_LAST := htyp _ (List.mem_cons_self _ _)
      obtain ⟨attr, hd, heq⟩ := attr_add_success P s n e.type (env.attr_env i) hmut
        (_attr_by_name_none s n hnotin) hty (halloc i)
      have hr1 : (sos_schema_attr_add P s n e.type (env.attr_env i)).1 = 0 := by rw [heq]
      have hrl : (sos_schema_attr_add P s n e.type (env.attr_env i)).2.attr_list =
          s.attr_list ++ [attr] := by rw [heq]
      have hrm : (sos_schema_attr_add P s n e.type (env.attr_env i)).2.schema_obj = none := by
        rw [attr_add_schema_obj]; exact hmut
      have hnames1 : (sos_schema_attr_add P s n e.type (env.attr_env i)).2.attr_list.map
          (fun a => a.data.name) = s.attr_list.map (fun a => a.data.name) ++ [n] := by
        rw [hrl]; simp [hd]
      have hnd1 : ((sos_schema_attr_add P s n e.type (env.attr_env i)).2.attr_list.map
          (fun a => a.data.name) ++ (template_entries rest).map (fun e => e.1)).Nodup := by
        rw [hnames1]; simpa using hnd
      have htyp' : ∀ e' ∈ template_entries rest, e'.2.1 ≤ SOS_TYPE_LAST :=
        fun e' he' => htyp e' (List.mem_cons_of_mem _ he')
      unfold sos_schema_from_template_loop schema_from_template_spec
      simp only [hname, hr1, ne_eq, not_true_eq_false, if_false]
      by_cases hidx : e.indexed = 0
      · simp only [hidx, not_true_eq_false, if_false]
        exact ih (i + 1) _ hrm hterm' hnd1 htyp'
      · simp only [hidx, not_false_eq_true, if_true]
        have hpres : (_attr_by_name (sos_schema_attr_add P s n e.type (env.attr_env i)).2
            n).isSome = true :=
          _attr_by_name_isSome _ _ (by rw [hnames1]; simp)
        have hres := index_add_success _ n hrm hpres
        have hi1 : (sos_schema_index_add
            (sos_schema_attr_add P s n e.type (env.attr_env i)).2 n).1 = 0 := by rw [hres]
        have hin := index_add_names (sos_schema_attr_add P s n e.type (env.attr_env i)).2 n
        simp only [hi1, not_true_eq_false, if_false]
        exact ih (i + 1) _ (by rw [hin.2]; exact hrm) hterm' (by rw [hin.1]; exact hnd1) htyp'

/-- C12. For a template whose name is shorter than the limit, whose array has a
null-name entry, and whose entries before the first null-name entry have distinct
names and valid types, `sos_schema_from_template` (its allocations succeeding)
returns the schema obtained from `sos_schema_new(name)` by calling, for each of
these entries in order, `sos_schema_attr_add` and, when the indexed flag is set,
`sos_schema_index_add`; so two templates that agree up to the first null-name
entry give the same schema. -/
theorem sos_schema_from_template_refines (P : sos_priv_h) (t : sos_schema_template)
    (env : from_template_env)
    (hlen : t.name.length < P.SOS_SCHEMA_NAME_LEN)
    (hterm : ∃ e ∈ t.attrs, e.name = none)
    (hnames : ((template_entries t.attrs).map (fun e => e.1)).Nodup)
    (htypes : ∀ e ∈ template_entries t.attrs, e.2.1 ≤ SOS_TYPE_LAST)
    (hcalloc : env.calloc_ok = true) (halloc : ∀ i, (env.attr_env i).calloc_ok = true) :
    (∃ s0, sos_schema_new P t.name env.calloc_ok = .ok s0 ∧
      sos_schema_from_template P t env =
        .ok (schema_from_template_spec P env.attr_env 0 s0 (template_entries t.attrs))) ∧
    (∀ t' : sos_schema_template, t'.name = t.name → (∃ e ∈ t'.attrs, e.name = none) →
      template_entries t'.attrs = template_entries t.attrs →
      sos_schema_from_template P t' env = sos_schema_from_template P t env) := by
  have hlen' : ¬ t.name.length ≥ P.SOS_SCHEMA_NAME_LEN := Nat.not_le.mpr hlen
  have hnew : sos_schema_new P t.name env.calloc_ok = .ok
      { has_sos := false, flags := 0, ref_count := 1,
        data := { name := t.name, ref_count := 0, id := 0, key_sz := 0, obj_sz := 0,
                  schema_sz := 0, attr_cnt := 0, attr_dict := [] },
        data_loc := none, schema_obj := none, dict := none, attr_list := [] } := by
    unfold sos_schema_new
    simp only [hlen', if_false, hcalloc, if_true]
  have hmain : ∀ t' : sos_schema_template, t'.name = t.name → (∃ e ∈ t'.attrs, e.name = none) →
      template_entries t'.attrs = template_entries t.attrs →
      sos_schema_from_template P t' env =
        .ok (schema_from_template_spec P env.attr_env 0
          { has_sos := false, flags := 0, ref_count := 1,
            data := { name := t.name, ref_count := 0, id := 0, key_sz := 0, obj_sz := 0,
                      schema_sz := 0, attr_cnt := 0, attr_dict := [] },
            data_loc := none, schema_obj := none, dict := none, attr_list := [] }
          (template_entries t.attrs)) := by
    intro t' hn' hterm' hent
    unfold sos_schema_from_template
    rw [hn', hnew]
    simp only []
    rw [← hent]
    exact from_template_loop_ok P env halloc t'.attrs 0 _ rfl hterm'
      (by rw [hent]; simpa using hnames) (by rw [hent]; exact htypes)
  refine ⟨⟨_, hnew, hmain t rfl hterm rfl⟩, ?_⟩
  intro t' hn' hterm' hent
  rw [hmain t' hn' hterm' hent, hmain t rfl hterm rfl]

theorem sos_schema_from_template_refines_witness :
    (ex_template.name.length < sos_priv_default.SOS_SCHEMA_NAME_LEN ∧
      (∃ e ∈ ex_template.attrs, e.name = none) ∧
      ((template_entries ex_template.attrs).map (fun e => e.1)).Nodup ∧
      (∀ e ∈ template_entries ex_template.attrs, e.2.1 ≤ SOS_TYPE_LAST) ∧
      ex_template_env.calloc_ok = true ∧
      (∀ i, (ex_template_env.attr_env i).calloc_ok = true)) ∧
    sos_schema_from_template sos_priv_default ex_template ex_template_env = .ok ex_schema2 ∧
    ((∃ s0, sos_schema_new sos_priv_default ex_template.name ex_template_env.calloc_ok = .ok s0 ∧
      sos_schema_from_template sos_priv_default ex_template ex_template_env =
        .ok (schema_from_template_spec sos_priv_default ex_template_env.attr_env 0 s0
          (template_entries ex_template.attrs))) ∧
    (∀ t' : sos_schema_template, t'.name = ex_template.name →
      (∃ e ∈ t'.attrs, e.name = none) →
      template_entries t'.attrs = template_entries ex_template.attrs →
      sos_schema_from_template sos_priv_default t' ex_template_env =
        sos_schema_from_template sos_priv_default ex_template ex_template_env)) :=
  ⟨⟨by decide, by decide, by decide, by decide, rfl, fun _ => rfl⟩, by decide,
   sos_schema_from_template_refines sos_priv_default ex_template ex_template_env
     (by decide) (by decide) (by decide) (by decide) rfl (fun _ => rfl)⟩

/-- A template name at or over the limit: `sos_schema_new` returns `NULL`, control
goes to `err`, and `__sos_schema_free(NULL)` reads through the null pointer. -/
theorem from_template_name_too_long (P : sos_priv_h) (t : sos_schema_template)
    (env : from_template_env) (h : t.name.length ≥ P.SOS_SCHEMA_NAME_LEN) :
    sos_schema_from_template P t env = .crash := by
  unfold sos_schema_from_template sos_schema_new
  simp only [h, if_true, sos_schema_from_template_err, __sos_schema_free]

/-- When a `sos_schema_attr_add` of the loop fails, `sos_schema_from_template` returns
`NULL` after `__sos_schema_free` has freed every attribute of the schema built so
far. -/
theorem from_template_err_releases (s : sos_schema_s) :
    sos_schema_from_template_err (some s) =
      .null { obj_put := s.schema_obj,
              idx_closed := (s.attr_list.map (fun a => a.idx_list.map (fun p => p.index))).flatten,
              attrs_freed := s.attr_list } := rfl

/-- C13 (code at the failing input). For a template whose name has 256 characters,
with the limit 256, `sos_schema_new` returns `NULL` and `sos_schema_from_template`
does not return `NULL`: it passes the null schema to `__sos_schema_free`, which
reads `schema->schema_obj`.  A failing `sos_schema_attr_add` (here a duplicate
name) does give `NULL`, with the attribute added before it freed. -/
theorem sos_schema_from_template_long_name :
    ex_template_long.name.length = sos_priv_default.SOS_SCHEMA_NAME_LEN ∧
    sos_schema_new sos_priv_default ex_template_long.name true = .null ∧
    __sos_schema_free none = none ∧
    sos_schema_from_template sos_priv_default ex_template_long ex_template_env = .crash ∧
    sos_schema_from_template sos_priv_default ex_template_dup ex_template_env =
      .null { obj_put := none, idx_closed := [],
              attrs_freed := [⟨⟨"First", 0, 9, 1, 8⟩, none, 9, some "BXTREE", some "STRING", []⟩] } := by
  have hlen : ex_template_long.name.length = sos_priv_default.SOS_SCHEMA_NAME_LEN := by
    show (List.replicate 256 'E').length = 256
    simp only [List.length_replicate]
  refine ⟨hlen, ?_, rfl, ?_, by decide⟩
  · unfold sos_schema_new
    simp [hlen]
  · exact from_template_name_too_long _ _ _ (Nat.le_of_eq hlen.symm)

/-- C11 (code at the failing inputs). `sos_schema_add` returns `ENOMEM` when the schema
record or the key block cannot be allocated, but 0 when the object-reference
block cannot be allocated and 0 when the `calloc` of the id table fails. -/
theorem sos_schema_add_alloc_failure_codes :
    (sos_schema_add sos_priv_default ex_sos0 ex_schema2 ex_add_env_no_record).1 = ENOMEM ∧
    (sos_schema_add sos_priv_default ex_sos0 ex_schema2 ex_add_env_no_key).1 = ENOMEM ∧
    (sos_schema_add sos_priv_default ex_sos0 ex_schema2 ex_add_env_no_ref).1 = 0 ∧
    (sos_schema_add sos_priv_default ex_sos0 ex_schema2 ex_add_env_no_dict).1 = 0 ∧
    ex_schema2.schema_obj = none ∧ schema_name_rbt_find ex_sos0 ex_schema2.data.name = none ∧
    ENOMEM ≠ 0 := by
  decide

/-! ## Reference types and internal schemas -/

/-- C21: for every attribute, `sos_attr_is_ref` is true iff the type is at least
OBJ and `sos_attr_is_array` is true iff the type is at least BYTE_ARRAY; hence
every array attribute is a reference attribute, and OBJ is the only reference
type that is not an array. -/
theorem sos_attr_is_ref_is_array (a : sos_attr_s) :
    (sos_attr_is_ref a = true ↔ a.data.type ≥ SOS_TYPE_OBJ) ∧
    (sos_attr_is_array a = true ↔ a.data.type ≥ SOS_TYPE_BYTE_ARRAY) ∧
    (sos_attr_is_array a = true → sos_attr_is_ref a = true) ∧
    (sos_attr_is_ref a = true ∧ sos_attr_is_array a = false ↔
      a.data.type = SOS_TYPE_OBJ) := by
  have aux : ∀ t : Nat, (8 ≤ t ↔ 8 ≤ t) ∧ (9 ≤ t ↔ 9 ≤ t) ∧ (9 ≤ t → 8 ≤ t) ∧
      (8 ≤ t ∧ ¬ 9 ≤ t ↔ t = 8) := by
    intro t
    refine ⟨Iff.rfl, Iff.rfl, ?_, ?_⟩
    · intro h
      omega
    · constructor
      · intro h
        omega
      · intro h
        omega
  simpa only [sos_attr_is_ref, sos_attr_is_array, SOS_TYPE_OBJ, SOS_TYPE_ARRAY,
    SOS_TYPE_BYTE_ARRAY, decide_eq_true_eq, decide_eq_false_iff_not, ge_iff_le]
    using aux a.data.type

/-- The internal schema of every non-primitive type exists, carries the flag
`SOS_SCHEMA_F_INTERNAL` and no other, and `get_ischema` gives different types
different internal schemas. -/
theorem get_ischema_static (P : sos_priv_h) (I : sos_ischema_ids) :
    (∀ t : Nat, SOS_TYPE_OBJ ≤ t → t ≤ SOS_TYPE_OBJ_ARRAY →
      ∃ i, get_ischema t = some i ∧
        (sos_ischema_value P I i).flags = SOS_SCHEMA_F_INTERNAL) ∧
    (∀ (t1 t2 : Nat) (i : sos_ischema), get_ischema t1 = some i → get_ischema t2 = some i →
      t1 = t2) := by
  constructor
  · intro t h1 h2
    simp only [SOS_TYPE_OBJ, SOS_TYPE_OBJ_ARRAY] at h1 h2
    interval_cases t <;> exact ⟨_, rfl, rfl⟩
  · intro t1 t2 i h1 h2
    have key : ∀ t : Nat, ∀ j, get_ischema t = some j → 8 ≤ t ∧ t ≤ 17 := by
      intro t j h
      by_cases hlt : t < 8
      · simp [get_ischema, SOS_TYPE_OBJ, hlt] at h
      · by_cases hgt : 17 < t
        · exfalso
          obtain ⟨k, rfl⟩ : ∃ k, t = k + 18 := ⟨t - 18, by omega⟩
          simp [get_ischema, SOS_TYPE_OBJ] at h
        · omega
    obtain ⟨a1, b1⟩ := key t1 i h1
    obtain ⟨a2, b2⟩ := key t2 i h2
    interval_cases t1 <;> interval_cases t2 <;>
      first
      | rfl
      | (exfalso; rw [← h2] at h1; revert h1; decide)

/-- C22: the internal schema of each of the eight array types BYTE_ARRAY to
LONG_DOUBLE_ARRAY has a record size equal to the element size of the type, but
the one `get_ischema` returns for OBJ has record size 8 (`sizeof(ods_ref_t)`)
where `element_sizes[SOS_TYPE_OBJ]` is 16, and the one for OBJ_ARRAY has record
size `sizeof(struct sos_obj_ref_s)` where `element_sizes[SOS_TYPE_OBJ_ARRAY]` is 8. -/
theorem get_ischema_obj_sz (P : sos_priv_h) (I : sos_ischema_ids) :
    (∀ t : Nat, SOS_TYPE_BYTE_ARRAY ≤ t → t ≤ SOS_TYPE_LONG_DOUBLE_ARRAY →
      ∃ i, get_ischema t = some i ∧
        (sos_ischema_value P I i).data.obj_sz = element_sizes t) ∧
    (get_ischema SOS_TYPE_OBJ = some .sos_obj_ischema ∧
      (sos_ischema_value P I .sos_obj_ischema).data.obj_sz = 8 ∧
      element_sizes SOS_TYPE_OBJ = 16) ∧
    (get_ischema SOS_TYPE_OBJ_ARRAY = some .sos_obj_array_ischema ∧
      (sos_ischema_value P I .sos_obj_array_ischema).data.obj_sz = P.sizeof_sos_obj_ref_s ∧
      element_sizes SOS_TYPE_OBJ_ARRAY = 8) := by
  refine ⟨?_, ⟨rfl, rfl, rfl⟩, ⟨rfl, rfl, rfl⟩⟩
  intro t h1 h2
  simp only [SOS_TYPE_BYTE_ARRAY, SOS_TYPE_LONG_DOUBLE_ARRAY] at h1 h2
  interval_cases t <;> exact ⟨_, rfl, rfl⟩

/-- C23: two internal schemas share an id: the one of UINT32_ARRAY is initialised
with `SOS_ISCHEMA_BYTE_ARRAY`, so `get_ischema(SOS_TYPE_UINT32_ARRAY)` and
`get_ischema(SOS_TYPE_BYTE_ARRAY)` have the same id, whatever the values of the
`SOS_ISCHEMA_*` constants. -/
theorem get_ischema_duplicate_id (P : sos_priv_h) (I : sos_ischema_ids) :
    SOS_TYPE_UINT32_ARRAY ≠ SOS_TYPE_BYTE_ARRAY ∧
    get_ischema SOS_TYPE_UINT32_ARRAY = some .sos_uint32_array_ischema ∧
    get_ischema SOS_TYPE_BYTE_ARRAY = some .sos_byte_array_ischema ∧
    (sos_ischema_value P I .sos_uint32_array_ischema).data.id =
      (sos_ischema_value P I .sos_byte_array_ischema).data.id := by
  refine ⟨by decide, rfl, rfl, rfl⟩

/-! ## Reference counting -/

/-- For a user schema (flag `SOS_SCHEMA_F_INTERNAL` clear), `sos_schema_put` frees
the schema when the count is 1 and otherwise only decrements the count. -/
theorem sos_schema_put_user (s : sos_schema_s) (hf : s.flags &&& SOS_SCHEMA_F_INTERNAL = 0) :
    (s.ref_count = 1 → ∃ log, sos_schema_put (some s) = .freed log) ∧
    (s.ref_count ≠ 1 →
      sos_schema_put (some s) = .alive { s with ref_count := ods_atomic_dec s.ref_count }) := by
  constructor
  · intro h1
    simp [sos_schema_put, hf, h1, ods_atomic_dec, __sos_schema_free]
  · intro h1
    have hne : ods_atomic_dec s.ref_count ≠ 0 := by
      unfold ods_atomic_dec
      split_ifs with h0
      · decide
      · omega
    simp [sos_schema_put, hf, hne]

/-- Counting the calls of a sequence, one call at a time. -/
theorem schema_ref_count_cons (l : List schema_ref_op) :
    schema_ref_puts (.get :: l) = schema_ref_puts l ∧
    schema_ref_puts (.put :: l) = schema_ref_puts l + 1 ∧
    schema_ref_gets (.get :: l) = schema_ref_gets l + 1 ∧
    schema_ref_gets (.put :: l) = schema_ref_gets l ∧
    schema_ref_puts ([] : List schema_ref_op) = 0 ∧
    schema_ref_gets ([] : List schema_ref_op) = 0 := by
  simp [schema_ref_puts, schema_ref_gets, List.count_cons]

/-- A run of gets and puts on a live user schema in which, at every point, the
puts made so far are fewer than the count at the start plus the gets made so
far, leaves the schema live, with the count moved by the difference. -/
theorem schema_life_run_live (ops : List schema_ref_op) :
    ∀ s : sos_schema_s, s.flags &&& SOS_SCHEMA_F_INTERNAL = 0 →
    (∀ k, schema_ref_puts (ops.take k) < s.ref_count + schema_ref_gets (ops.take k)) →
    schema_life_run (.live s) ops =
      .live { s with ref_count := s.ref_count + schema_ref_gets ops - schema_ref_puts ops } := by
  induction ops with
  | nil =>
    intro s _ _
    simp [schema_life_run, schema_ref_gets, schema_ref_puts]
  | cons op ops ih =>
    intro s hf h
    cases op with
    | get =>
      have h2 : ∀ k, schema_ref_puts (ops.take k) <
          (sos_schema_get_val s).ref_count + schema_ref_gets (ops.take k) := by
        intro k
        have := h (k + 1)
        simp only [List.take_succ_cons, (schema_ref_count_cons _).1,
          (schema_ref_count_cons _).2.2.1] at this
        simp only [sos_schema_get_val, ods_atomic_inc]
        omega
      have := ih (sos_schema_get_val s) hf h2
      simp only [schema_life_run, List.foldl_cons, schema_life_step] at this ⊢
      rw [this]
      simp only [sos_schema_get_val, ods_atomic_inc, (schema_ref_count_cons _).1,
        (schema_ref_count_cons _).2.2.1]
      congr 2
      omega
    | put =>
      have h1 := h 1
      simp only [List.take_succ_cons, List.take_zero, (schema_ref_count_cons _).2.1,
        (schema_ref_count_cons _).2.2.2.1, (schema_ref_count_cons []).2.2.2.2.1,
        (schema_ref_count_cons []).2.2.2.2.2] at h1
      have hrc : s.ref_count ≠ 1 := by omega
      have hput := (sos_schema_put_user s hf).2 hrc
      have hdec : ods_atomic_dec s.ref_count = s.ref_count - 1 := by
        unfold ods_atomic_dec
        rw [if_neg (by omega)]
      have h2 : ∀ k, schema_ref_puts (ops.take k) <
          ({ s with ref_count := ods_atomic_dec s.ref_count } : sos_schema_s).ref_count
            + schema_ref_gets (ops.take k) := by
        intro k
        have := h (k + 1)
        simp only [List.take_succ_cons, (schema_ref_count_cons _).2.1,
          (schema_ref_count_cons _).2.2.2.1] at this
        simp only [hdec]
        omega
      have := ih { s with ref_count := ods_atomic_dec s.ref_count } hf h2
      simp only [schema_life_run, List.foldl_cons, schema_life_step, hput] at this ⊢
      rw [this]
      simp only [hdec, (schema_ref_count_cons _).2.1, (schema_ref_count_cons _).2.2.2.1]
      congr 2
      have hall := h (ops.length + 1)
      simp only [List.take_succ_cons, List.take_length, (schema_ref_count_cons _).2.1,
        (schema_ref_count_cons _).2.2.2.1] at hall
      omega

/-- C24: `sos_schema_put` on a schema carrying the flag `SOS_SCHEMA_F_INTERNAL`, as
every schema `get_ischema` returns does, and on the null schema is a no-op: the
call returns with the schema as it was, and after any number of puts the schema
is as it was and has not been freed. -/
theorem sos_schema_put_internal_noop :
    (∀ (s : sos_schema_s) (n : Nat), s.flags &&& SOS_SCHEMA_F_INTERNAL ≠ 0 →
      sos_schema_put (some s) = .noop (some s) ∧
      schema_life_run (.live s) (List.replicate n .put) = .live s) ∧
    (∀ n : Nat, sos_schema_put none = .noop none ∧
      schema_life_run .null (List.replicate n .put) = .null) ∧
    (∀ (P : sos_priv_h) (I : sos_ischema_ids) (i : sos_ischema) (n : Nat),
      sos_schema_put (some (sos_ischema_value P I i)) = .noop (some (sos_ischema_value P I i)) ∧
      schema_life_run (.live (sos_ischema_value P I i)) (List.replicate n .put) =
        .live (sos_ischema_value P I i)) := by
  have h1 : ∀ (s : sos_schema_s) (n : Nat), s.flags &&& SOS_SCHEMA_F_INTERNAL ≠ 0 →
      sos_schema_put (some s) = .noop (some s) ∧
      schema_life_run (.live s) (List.replicate n .put) = .live s := by
    intro s n hf
    have hput : sos_schema_put (some s) = .noop (some s) := by
      simp [sos_schema_put, hf]
    refine ⟨hput, ?_⟩
    induction n with
    | zero => rfl
    | succ n ih =>
      simp only [schema_life_run, List.replicate_succ, List.foldl_cons, schema_life_step, hput]
        at ih ⊢
      exact ih
  refine ⟨h1, ?_, ?_⟩
  · intro n
    refine ⟨rfl, ?_⟩
    induction n with
    | zero => rfl
    | succ n ih =>
      simp only [schema_life_run, List.replicate_succ, List.foldl_cons, schema_life_step,
        sos_schema_put] at ih ⊢
      exact ih
  · intro P I i n
    apply h1
    cases i <;> simp [sos_ischema_value, ischema_static, SOS_SCHEMA_F_INTERNAL]

/-- C25 (as stated, refuted): from the schema `sos_schema_new("E")` returns, the
order put, get has one get and one put and at no point more puts than gets plus
one, yet the put brings the count to zero and frees the schema, and the get that
follows acts on released memory; the schema is not alive at the end. -/
theorem sos_schema_put_get_order_frees :
    sos_schema_new sos_priv_default "E" true = .ok ex_schema0 ∧
    schema_ref_gets [.put, .get] = 1 ∧ schema_ref_puts [.put, .get] = 1 ∧
    (∀ k, schema_ref_puts (List.take k [.put, .get]) ≤
      schema_ref_gets (List.take k [.put, .get]) + 1) ∧
    schema_life_run (.live ex_schema0) [.put] =
      .freed { obj_put := none, idx_closed := [], attrs_freed := [] } ∧
    schema_life_run (.live ex_schema0) [.put, .get] = .undefined := by
  refine ⟨by decide, by decide, by decide, ?_, by decide, by decide⟩
  intro k
  match k with
  | 0 => decide
  | 1 => decide
  | k + 2 => simp [schema_ref_puts, schema_ref_gets]

/-- C25 (amended): for every user schema returned by `sos_schema_new` and every
sequence of N gets and N puts in which at no point the puts outnumber the gets,
the schema is alive at the end with reference count 1 and unchanged content;
`sos_schema_get` changes the count only; and a put frees the schema exactly when
it brings the count to zero, that is when the count is 1. -/
theorem sos_schema_refcount_law (P : sos_priv_h) (name : String) (s : sos_schema_s)
    (ops : List schema_ref_op)
    (hnew : sos_schema_new P name true = .ok s)
    (hbal : schema_ref_gets ops = schema_ref_puts ops)
    (hord : ∀ k, schema_ref_puts (ops.take k) ≤ schema_ref_gets (ops.take k)) :
    s.ref_count = 1 ∧
    schema_life_run (.live s) ops = .live s ∧
    (∀ t : sos_schema_s, sos_schema_get_val t = { t with ref_count := t.ref_count + 1 }) ∧
    (∀ t : sos_schema_s, t.flags &&& SOS_SCHEMA_F_INTERNAL = 0 →
      ((∃ log, sos_schema_put (some t) = .freed log) ↔ ods_atomic_dec t.ref_count = 0) ∧
      (ods_atomic_dec t.ref_count = 0 ↔ t.ref_count = 1) ∧
      (t.ref_count ≠ 1 →
        sos_schema_put (some t) = .alive { t with ref_count := ods_atomic_dec t.ref_count })) := by
  have hs : s.flags = 0 ∧ s.ref_count = 1 := by
    unfold sos_schema_new at hnew
    split_ifs at hnew
    cases hnew
    exact ⟨rfl, rfl⟩
  have hf : s.flags &&& SOS_SCHEMA_F_INTERNAL = 0 := by
    rw [hs.1]
    decide
  refine ⟨hs.2, ?_, fun t => rfl, ?_⟩
  · have hrun := schema_life_run_live ops s hf (by
      intro k
      have := hord k
      omega)
    rw [hrun, hbal, hs.2]
    have : 1 + schema_ref_puts ops - schema_ref_puts ops = s.ref_count := by
      rw [hs.2]
      omega
    rw [this]
  · intro t ht
    have hdec : ods_atomic_dec t.ref_count = 0 ↔ t.ref_count = 1 := by
      unfold ods_atomic_dec
      split_ifs with h0
      · constructor
        · intro h
          exact absurd h (by decide)
        · intro h
          omega
      · omega
    refine ⟨?_, hdec, (sos_schema_put_user t ht).2⟩
    constructor
    · rintro ⟨log, hlog⟩
      by_contra hne
      have h1 : t.ref_count ≠ 1 := fun h => hne (hdec.mpr h)
      rw [(sos_schema_put_user t ht).2 h1] at hlog
      cases hlog
    · intro h
      exact (sos_schema_put_user t ht).1 (hdec.mp h)

/-- Witness for C25: from `sos_schema_new("E")`, the order get, put, get, put. -/
theorem sos_schema_refcount_law_witness :
    ex_schema0.ref_count = 1 ∧
    schema_life_run (.live ex_schema0) [.get, .put, .get, .put] = .live ex_schema0 :=
  have h := sos_schema_refcount_law sos_priv_default "E" ex_schema0 [.get, .put, .get, .put]
    (by decide) (by decide)
    (by
      intro k
      match k with
      | 0 => decide
      | 1 => decide
      | 2 => decide
      | 3 => decide
      | k + 4 => simp [schema_ref_puts, schema_ref_gets])
  ⟨h.1, h.2.1⟩

/-! ## Extending the store -/

/-- C30 (as stated, refuted): a request of 100 bytes whose first allocation fails
extends the store by `SOS_ODS_EXTEND_SZ` = 1048576 bytes, not by
max(100, 1048576) × 16 = 16777216 bytes. -/
theorem __sos_obj_new_small_extend :
    (__sos_obj_new sos_priv_default ⟨0, []⟩ 100 ⟨none, 0, some 64⟩).2.size = 1048576 ∧
    (__sos_obj_new sos_priv_default ⟨0, []⟩ 100 ⟨none, 0, some 64⟩).1 = some 64 ∧
    max 100 sos_priv_default.SOS_ODS_EXTEND_SZ * 16 = 16777216 := by
  decide

/-- C30 (amended): when the first allocation in `__sos_obj_new` fails and the
store can be extended, it is extended, before the retry, by exactly
`SOS_ODS_EXTEND_SZ` bytes if the requested size is below `SOS_ODS_EXTEND_SZ` and
by the size shifted left by 4 (16 times the size, in 64 bits) otherwise; when
the extension fails the store keeps its size and there is no retry. -/
theorem __sos_obj_new_extend_size (P : sos_priv_h) (ods : ods_s) (size : Nat)
    (env : obj_new_env) (h1 : env.alloc1 = none) :
    (env.extend_rc = 0 →
      (__sos_obj_new P ods size env).2.size =
        ods.size + (if size < P.SOS_ODS_EXTEND_SZ then P.SOS_ODS_EXTEND_SZ
                    else (size * 16) % 2 ^ 64) ∧
      __sos_obj_new P ods size env =
        ods_obj_alloc
          (ods_extend ods (if size < P.SOS_ODS_EXTEND_SZ then P.SOS_ODS_EXTEND_SZ
                           else (size * 16) % 2 ^ 64) 0).2 size env.alloc2) ∧
    (env.extend_rc ≠ 0 → __sos_obj_new P ods size env = (none, ods)) := by
  constructor
  · intro h2
    have h : __sos_obj_new P ods size env =
        ods_obj_alloc
          (ods_extend ods (if size < P.SOS_ODS_EXTEND_SZ then P.SOS_ODS_EXTEND_SZ
                           else (size * 16) % 2 ^ 64) 0).2 size env.alloc2 := by
      simp [__sos_obj_new, ods_obj_alloc, ods_extend, h1, h2]
    refine ⟨?_, h⟩
    rw [h]
    cases env.alloc2 <;> simp [ods_obj_alloc, ods_extend]
  · intro h2
    simp [__sos_obj_new, ods_obj_alloc, ods_extend, h1, h2]

/-- Witness for C30: a request of 2097152 bytes, twice `SOS_ODS_EXTEND_SZ`, extends
the store by 33554432 bytes. -/
theorem __sos_obj_new_extend_size_witness :
    (__sos_obj_new sos_priv_default ⟨0, []⟩ 2097152 ⟨none, 0, some 64⟩).2.size = 33554432 :=
  ((__sos_obj_new_extend_size sos_priv_default ⟨0, []⟩ 2097152 ⟨none, 0, some 64⟩ rfl).1
    rfl).1.trans (by decide)

/-! ## Value views and arrays -/

/-- The three ways `sos_array_new` ends: `EINVAL` without touching the store for an
attribute that is not an array; `ENOMEM` when `__sos_obj_new` gives no block for
the size computed from the internal schema; otherwise the count is written to
the new block, the block's reference is stored in the parent at the attribute's
offset and the view is bound to the block's payload. -/
theorem sos_array_new_cases (P : sos_priv_h) (I : sos_ischema_ids) (ods : ods_s)
    (val : sos_value_s) (attr : sos_attr_s) (obj : sos_obj_s) (count : Nat)
    (env : array_new_env) :
    (sos_attr_is_array attr = false →
      sos_array_new P I ods val attr obj count env = (.null (some EINVAL), ods)) ∧
    (∀ schema ods1, sos_attr_is_array attr = true → get_ischema attr.data.type = some schema →
      __sos_obj_new P ods (sos_array_size P I schema count) env.obj_new = (none, ods1) →
      sos_array_new P I ods val attr obj count env = (.null (some ENOMEM), ods1)) ∧
    (∀ schema r ods1, sos_attr_is_array attr = true →
      get_ischema attr.data.type = some schema →
      __sos_obj_new P ods (sos_array_size P I schema count) env.obj_new = (some r, ods1) →
      env.init_obj_ok = true →
      sos_array_new P I ods val attr obj count env =
        (.val { attr := some attr, obj := some ⟨some schema, r⟩, data := some (.array r) },
         obj_ref_store (ods_obj_write ods1 r (.array (count % 2 ^ 32) none))
           obj.obj attr.data.offset r)) := by
  refine ⟨?_, ?_, ?_⟩
  · intro h
    simp [sos_array_new, h]
  · intro schema ods1 h1 h2 h3
    simp [sos_array_new, h1, h2, h3]
  · intro schema r ods1 h1 h2 h3 h4
    simp [sos_array_new, h1, h2, h3, h4, __sos_init_obj]

/-- C26: for an attribute of type OBJ_ARRAY and count 1, `sos_array_new` requests
`sizeof(struct sos_obj_data_s) + 4 + 1 × 16` = 28 bytes, the record size of the
internal schema, where the record header plus 4 plus the count times
`element_sizes[SOS_TYPE_OBJ_ARRAY]` is 20 bytes. -/
theorem sos_array_new_obj_array_size :
    sos_attr_is_array ex_attr_refs = true ∧
    sos_array_new sos_priv_default sos_ischema_ids_default ex_ods_unset ex_value0
        ex_attr_refs ex_obj 1 ⟨⟨some 192, 0, none⟩, true⟩ =
      (.val { attr := some ex_attr_refs, obj := some ⟨some .sos_obj_array_ischema, 192⟩,
              data := some (.array 192) },
       ⟨4096, [⟨64, 24, .record [(8, 192)]⟩, ⟨192, 28, .array 1 none⟩]⟩) ∧
    sos_array_size sos_priv_default sos_ischema_ids_default .sos_obj_array_ischema 1 = 28 ∧
    sos_priv_default.sizeof_sos_obj_data_s + 4 + 1 * element_sizes ex_attr_refs.data.type
      = 20 := by
  decide

/-- Runs of `sos_obj_attr_from_str` on the attribute First that do what is intended:
from an unset attribute, "Ada" is stored in a new array of 4 elements and read
back; from an array of 3 elements holding "HI", "HELLO" is stored in a new array
of 6 elements at another reference and the old block is deleted. -/
theorem sos_obj_attr_from_str_examples (rc0 : Nat) :
    sos_obj_attr_from_str sos_priv_default sos_ischema_ids_default ex_fn_env ex_ods_unset
        ex_obj ex_attr_first "Ada" ex_from_str_env ex_value0 rc0 =
      some (0, ⟨4096, [⟨64, 24, .record [(8, 192)]⟩, ⟨192, 16, .array 4 (some "Ada")⟩]⟩) ∧
    sos_obj_attr_to_str ex_fn_env
        ⟨4096, [⟨64, 24, .record [(8, 192)]⟩, ⟨192, 16, .array 4 (some "Ada")⟩]⟩
        ex_value0 ex_obj ex_attr_first 32 true = some "Ada" ∧
    sos_obj_attr_from_str sos_priv_default sos_ischema_ids_default ex_fn_env
        (ex_ods_bound 3 "HI") ex_obj ex_attr_first "HELLO" ex_from_str_env ex_value0 rc0 =
      some (0, ⟨4096, [⟨64, 24, .record [(8, 192)]⟩, ⟨192, 18, .array 6 (some "HELLO")⟩]⟩) := by
  refine ⟨?_, ?_, ?_⟩
  · rfl
  · decide
  · rfl

/-- C27: when First is bound to an array of 6 elements holding "HELLO", which is
large enough for "Ada", `sos_obj_attr_from_str(obj, First, "Ada")` calls no
`from_str` function: it leaves the store as it was and returns the content of
the local `rc`, to which nothing was assigned; a following `sos_obj_attr_to_str`
yields "HELLO", not "Ada". -/
theorem sos_obj_attr_from_str_large_enough :
    (∀ rc0 : Nat,
      sos_obj_attr_from_str sos_priv_default sos_ischema_ids_default ex_fn_env
          (ex_ods_bound 6 "HELLO") ex_obj ex_attr_first "Ada" ex_from_str_env ex_value0 rc0 =
        some (rc0, ex_ods_bound 6 "HELLO")) ∧
    sos_obj_attr_to_str ex_fn_env (ex_ods_bound 6 "HELLO") ex_value0 ex_obj ex_attr_first 32
      true = some "HELLO" := by
  refine ⟨fun rc0 => rfl, by decide⟩

/-- C28: when First is bound to the array at 128, of 3 elements, and the store can
neither allocate nor be extended, `sos_obj_attr_from_str(obj, First, "HELLO")`
returns `ENOMEM` after deleting the block at 128, and the record still holds the
reference 128 at the offset of First. -/
theorem sos_obj_attr_from_str_enomem_dangling :
    (∀ rc0 : Nat,
      sos_obj_attr_from_str sos_priv_default sos_ischema_ids_default ex_fn_env
          (ex_ods_bound 3 "HI") ex_obj ex_attr_first "HELLO" ex_from_str_env_nomem ex_value0
          rc0 =
        some (ENOMEM, ⟨4096, [⟨64, 24, .record [(8, 128)]⟩]⟩)) ∧
    obj_ref_load ⟨4096, [⟨64, 24, .record [(8, 128)]⟩]⟩ ex_obj.obj ex_attr_first.data.offset
      = 128 ∧
    ods_ref_as_obj ⟨4096, [⟨64, 24, .record [(8, 128)]⟩]⟩ 128 = none := by
  refine ⟨fun rc0 => rfl, by decide, by decide⟩

/-- C29: `sos_value_init` with no backing object returns null with `EINVAL` exactly
when the attribute is reference-typed (type at least OBJ) and otherwise returns
the view bound to the attribute with its data pointer on the view's own
buffer; `sos_obj_attr_from_str` on an array attribute other than BYTE_ARRAY
returns `EINVAL` and leaves the store as it was. -/
theorem sos_value_init_mem_einval (P : sos_priv_h) (I : sos_ischema_ids) (F : value_fn_env)
    (ods : ods_s) (val v_ : sos_value_s) (obj : sos_obj_s) (attr : sos_attr_s)
    (calloc_ok : Bool) (str : String) (env : attr_from_str_env) (rc0 : Nat) :
    ((sos_value_init ods val none attr calloc_ok = .null (some EINVAL)) ↔
      attr.data.type ≥ SOS_TYPE_OBJ) ∧
    ((∃ e, sos_value_init ods val none attr calloc_ok = .null e) ↔
      attr.data.type ≥ SOS_TYPE_OBJ) ∧
    (¬ attr.data.type ≥ SOS_TYPE_OBJ →
      sos_value_init ods val none attr calloc_ok =
        .val { val with attr := some attr, data := some .data_ }) ∧
    (sos_attr_is_array attr = true → sos_attr_type attr ≠ SOS_TYPE_BYTE_ARRAY →
      sos_obj_attr_from_str P I F ods obj attr str env v_ rc0 = some (EINVAL, ods)) := by
  have hval : ¬ attr.data.type ≥ SOS_TYPE_OBJ →
      sos_value_init ods val none attr calloc_ok =
        .val { val with attr := some attr, data := some .data_ } := by
    intro h
    simp [sos_value_init, mem_value_init, sos_attr_is_ref, h]
  have hnull : attr.data.type ≥ SOS_TYPE_OBJ →
      sos_value_init ods val none attr calloc_ok = .null (some EINVAL) := by
    intro h
    simp [sos_value_init, mem_value_init, sos_attr_is_ref, h]
  refine ⟨⟨?_, hnull⟩, ⟨?_, fun h => ⟨_, hnull h⟩⟩, hval, ?_⟩
  · intro h
    by_contra hn
    rw [hval hn] at h
    cases h
  · rintro ⟨e, h⟩
    by_contra hn
    rw [hval hn] at h
    cases h
  · intro h1 h2
    simp [sos_obj_attr_from_str, h1, h2]

/-! ## The calls of `__sos_obj_new` -/

/-- C31: `__sos_obj_new` takes the lock first and releases it last on every path, calls
the allocator at most twice and `ods_extend` at most once.  When the first
allocation succeeds its object is returned and `ods_extend` is not called; when
it fails `ods_extend` is called exactly once, and the result is that of the
second allocation when the extension succeeds and null, with no second
allocation, when it fails.  The calls are those of the function whose results
the other theorems use. -/
theorem __sos_obj_new_call_order (P : sos_priv_h) (ods : ods_s) (size : Nat)
    (env : obj_new_env) :
    (__sos_obj_new_calls P ods size env).1 = __sos_obj_new P ods size env ∧
    ((__sos_obj_new_calls P ods size env).2.head? = some .pthread_mutex_lock ∧
      (__sos_obj_new_calls P ods size env).2.getLast? = some .pthread_mutex_unlock ∧
      (__sos_obj_new_calls P ods size env).2.count .pthread_mutex_lock = 1 ∧
      (__sos_obj_new_calls P ods size env).2.count .pthread_mutex_unlock = 1) ∧
    ((__sos_obj_new_calls P ods size env).2.filter
        (fun c => match c with | .ods_obj_alloc _ => true | _ => false)).length ≤ 2 ∧
    ((__sos_obj_new_calls P ods size env).2.filter
        (fun c => match c with | .ods_extend _ => true | _ => false)).length ≤ 1 ∧
    (∀ r, env.alloc1 = some r →
      (__sos_obj_new P ods size env).1 = some r ∧
      (__sos_obj_new_calls P ods size env).2 =
        [.pthread_mutex_lock, .ods_obj_alloc size, .pthread_mutex_unlock]) ∧
    (env.alloc1 = none → env.extend_rc = 0 →
      (__sos_obj_new_calls P ods size env).2 =
          [.pthread_mutex_lock, .ods_obj_alloc size,
           .ods_extend (if size < P.SOS_ODS_EXTEND_SZ then P.SOS_ODS_EXTEND_SZ else (size * 16) % 2 ^ 64),
           .ods_obj_alloc size, .pthread_mutex_unlock] ∧
        __sos_obj_new P ods size env =
          ods_obj_alloc (ods_extend ods (if size < P.SOS_ODS_EXTEND_SZ then P.SOS_ODS_EXTEND_SZ else (size * 16) % 2 ^ 64) 0).2
            size env.alloc2 ∧
        (__sos_obj_new P ods size env).1 = env.alloc2) ∧
    (env.alloc1 = none → env.extend_rc ≠ 0 →
      (__sos_obj_new_calls P ods size env).2 =
          [.pthread_mutex_lock, .ods_obj_alloc size,
           .ods_extend (if size < P.SOS_ODS_EXTEND_SZ then P.SOS_ODS_EXTEND_SZ else (size * 16) % 2 ^ 64),
           .pthread_mutex_unlock] ∧
        __sos_obj_new P ods size env = (none, ods)) := by
  cases h1 : env.alloc1 with
  | some r =>
    simp [__sos_obj_new_calls, __sos_obj_new, ods_obj_alloc, h1]
  | none =>
    by_cases h2 : env.extend_rc = 0
    · have hres : (__sos_obj_new P ods size env).1 = env.alloc2 := by
        cases h3 : env.alloc2 <;> simp [__sos_obj_new, ods_obj_alloc, ods_extend, h1, h2, h3]
      refine ⟨?_, ?_, ?_, ?_, ?_, ?_, ?_⟩
      · simp [__sos_obj_new_calls, __sos_obj_new, ods_obj_alloc, ods_extend, h1, h2]
      · simp [__sos_obj_new_calls, ods_obj_alloc, ods_extend, h1, h2]
      · simp [__sos_obj_new_calls, ods_obj_alloc, ods_extend, h1, h2]
      · simp [__sos_obj_new_calls, ods_obj_alloc, ods_extend, h1, h2]
      · intro r hr
        cases hr
      · intro _ _
        refine ⟨?_, ?_, hres⟩
        · simp [__sos_obj_new_calls, ods_obj_alloc, ods_extend, h1, h2]
        · simp [__sos_obj_new, ods_obj_alloc, ods_extend, h1, h2]
      · intro _ h
        exact absurd h2 h
    · refine ⟨?_, ?_, ?_, ?_, ?_, ?_, ?_⟩
      · simp [__sos_obj_new_calls, __sos_obj_new, ods_obj_alloc, ods_extend, h1, h2]
      · simp [__sos_obj_new_calls, ods_obj_alloc, ods_extend, h1, h2]
      · simp [__sos_obj_new_calls, ods_obj_alloc, ods_extend, h1, h2]
      · simp [__sos_obj_new_calls, ods_obj_alloc, ods_extend, h1, h2]
      · intro r hr
        cases hr
      · intro _ h
        exact absurd h h2
      · intro _ _
        refine ⟨?_, ?_⟩
        · simp [__sos_obj_new_calls, ods_obj_alloc, ods_extend, h1, h2]
        · simp [__sos_obj_new, ods_obj_alloc, ods_extend, h1, h2]

/-! ## Failure of `sos_schema_attr_add` -/

/-- C34: a call of `sos_schema_attr_add` that returns `EBUSY`, `EEXIST`, `EINVAL` or
`ENOMEM` leaves the schema exactly as it was: the attribute list, every
attribute in it, the attribute count, the record size and the key size. -/
theorem sos_schema_attr_add_failure_atomic (P : sos_priv_h) (s : sos_schema_s) (name : String)
    (type : sos_type_t) (env : attr_new_env)
    (h : (sos_schema_attr_add P s name type env).1 = EBUSY ∨
         (sos_schema_attr_add P s name type env).1 = EEXIST ∨
         (sos_schema_attr_add P s name type env).1 = EINVAL ∨
         (sos_schema_attr_add P s name type env).1 = ENOMEM) :
    (sos_schema_attr_add P s name type env).2 = s ∧
    (sos_schema_attr_add P s name type env).2.attr_list = s.attr_list ∧
    (sos_schema_attr_add P s name type env).2.data.attr_cnt = s.data.attr_cnt ∧
    (sos_schema_attr_add P s name type env).2.data.obj_sz = s.data.obj_sz ∧
    (sos_schema_attr_add P s name type env).2.data.key_sz = s.data.key_sz := by
  have hne : (sos_schema_attr_add P s name type env).1 ≠ 0 := by
    rcases h with h | h | h | h <;> rw [h] <;> decide
  have hs : (sos_schema_attr_add P s name type env).2 = s := by
    by_cases hok : s.schema_obj = none ∧ _attr_by_name s name = none ∧ type ≤ SOS_TYPE_LAST ∧
        env.calloc_ok = true
    · obtain ⟨attr, _, hrun⟩ := attr_add_success P s name type env hok.1 hok.2.1 hok.2.2.1
        hok.2.2.2
      rw [hrun] at hne
      exact absurd rfl hne
    · exact (attr_add_failure P s name type env hok).1
  rw [hs]
  exact ⟨rfl, rfl, rfl, rfl, rfl⟩

/-- Witness for C34: adding "First" a second time returns `EEXIST`. -/
theorem sos_schema_attr_add_failure_atomic_witness :
    (sos_schema_attr_add sos_priv_default ex_schema1 "First" SOS_TYPE_INT32
        attr_new_env_ok).1 = EEXIST ∧
    (sos_schema_attr_add sos_priv_default ex_schema1 "First" SOS_TYPE_INT32
        attr_new_env_ok).2 = ex_schema1 :=
  ⟨by decide,
   (sos_schema_attr_add_failure_atomic sos_priv_default ex_schema1 "First" SOS_TYPE_INT32
      attr_new_env_ok (Or.inr (Or.inl (by decide)))).1⟩

/-! ## Copying a schema -/

/-- The id table of a copy made by `sos_schema_dup` holds null entries only, so
`sos_schema_attr_by_id` finds no attribute in the copy. -/
theorem sos_schema_dup_dict_null (s : sos_schema_s) (env : schema_dup_env) (dup : sos_schema_s)
    (n : Nat) (h : sos_schema_dup (some s) env = .ok dup n) :
    dup.dict = some (List.replicate s.data.attr_cnt none) ∧
    ∀ id : Int, sos_schema_attr_by_id dup id = none := by
  have hd : dup.dict = some (List.replicate s.data.attr_cnt none) := by
    unfold sos_schema_dup at h
    simp only [] at h
    split_ifs at h
    split at h <;> first | (cases h; rfl) | cases h
  refine ⟨hd, ?_⟩
  intro id
  unfold sos_schema_attr_by_id _attr_by_idx
  split_ifs
  · rfl
  · rw [hd]
    simp only [List.getD_eq_getElem?_getD]
    cases hx : (List.replicate s.data.attr_cnt (none : Option Nat))[id.toNat]? with
    | none => rfl
    | some v =>
      have := List.getElem?_mem hx
      rw [List.mem_replicate] at this
      rw [this.2]
      rfl

/-- C32: the copy of the registered schema "E" (First, Salary) has the name, the
sizes and the attributes of the source and no persistent object, but its id
table holds two null entries, so `sos_schema_attr_by_id` returns null in the copy
for the ids 0 and 1, and the two stores of the loop went into the id table of
the source; the copy of the same schema before it was registered, which has no
id table, does not return. -/
theorem sos_schema_dup_dict_of_source :
    sos_schema_dup (some ex_schema2_added) ex_dup_env = .ok ex_schema2_dup 2 ∧
    ex_schema2_dup.schema_obj = none ∧ ex_schema2_dup.ref_count = 1 ∧
    ex_schema2_dup.data.name = ex_schema2_added.data.name ∧
    ex_schema2_dup.data.obj_sz = ex_schema2_added.data.obj_sz ∧
    ex_schema2_dup.data.attr_cnt = ex_schema2_added.data.attr_cnt ∧
    ex_schema2_dup.attr_list.map (fun a => a.data) =
      ex_schema2_added.attr_list.map (fun a => a.data) ∧
    ex_schema2_dup.dict = some [none, none] ∧
    sos_schema_attr_by_id ex_schema2_dup 0 = none ∧
    sos_schema_attr_by_id ex_schema2_dup 1 = none ∧
    sos_schema_attr_by_id ex_schema2_added 0 = some 0 ∧
    sos_schema_attr_by_id ex_schema2_added 1 = some 1 ∧
    ex_schema2.dict = none ∧
    sos_schema_dup (some ex_schema2) ex_dup_env = .crash := by
  refine ⟨by decide, by decide, by decide, by decide, by decide, by decide, by decide,
    by decide, by decide, by decide, by decide, by decide, by decide, by decide⟩

/-! ## Names, ids and the id table -/

/-- In a list whose ids count up from `pos`, the scan for an id finds the
attribute at the position of that id, and nothing for an id outside the list. -/
theorem attr_list_scan_id_range (l : List sos_attr_s) :
    ∀ pos : Nat, l.map (fun a => a.data.id) = List.range' pos l.length →
    ∀ id : Int, attr_list_scan_id id pos l =
      if (pos : Int) ≤ id ∧ id < (pos : Int) + l.length then some id.toNat else none := by
  induction l with
  | nil =>
    intro pos _ id
    have : ¬ ((pos : Int) ≤ id ∧ id < (pos : Int) + ([] : List sos_attr_s).length) := by
      simp only [List.length_nil]
      omega
    rw [if_neg this]
    rfl
  | cons a l ih =>
    intro pos h id
    simp only [List.map_cons, List.length_cons, List.range'_succ, List.cons.injEq] at h
    have hrest := ih (pos + 1) h.2 id
    unfold attr_list_scan_id
    by_cases hid : (a.data.id : Int) = id
    · rw [if_pos hid]
      have hp : (pos : Int) = id := by rw [← hid, h.1]
      have : (pos : Int) ≤ id ∧ id < (pos : Int) + (a :: l).length := by
        simp only [List.length_cons]
        omega
      rw [if_pos this]
      congr 1
      omega
    · rw [if_neg hid, hrest]
      have hp : (pos : Int) ≠ id := by rw [← h.1]; exact hid
      simp only [List.length_cons]
      by_cases hc : ((pos + 1 : Nat) : Int) ≤ id ∧ id < ((pos + 1 : Nat) : Int) + l.length
      · rw [if_pos hc, if_pos (by omega)]
      · rw [if_neg hc, if_neg (by omega)]

/-- In a list with pairwise distinct names, the lookup of the name of an attribute
of the list finds that attribute. -/
theorem find_name_of_nodup (l : List sos_attr_s)
    (hn : (l.map (fun a => a.data.name)).Nodup) :
    ∀ (i : Nat) (a : sos_attr_s), l[i]? = some a →
      l.find? (fun x => decide (a.data.name = x.data.name)) = some a := by
  induction l with
  | nil => intro i a h; simp at h
  | cons b l ih =>
    intro i a h
    rw [List.map_cons, List.nodup_cons] at hn
    cases i with
    | zero =>
      simp only [List.getElem?_cons_zero, Option.some.injEq] at h
      rw [h]
      simp
    | succ i =>
      simp only [List.getElem?_cons_succ] at h
      have hne : a.data.name ≠ b.data.name := by
        intro he
        apply hn.1
        rw [← he]
        exact List.mem_map.mpr ⟨a, List.getElem?_mem h, rfl⟩
      rw [List.find?_cons_of_neg]
      · exact ih hn.2 i a h
      · simpa using hne

/-- Lookup by id in a schema whose ids are the positions and whose id table,
when there is one, maps every id below the count to its position: the
attribute at position `id` for an id from 0 to the count, null otherwise; the
same with and without the table. -/
theorem _attr_by_idx_of_ids (s : sos_schema_s)
    (hcnt : s.data.attr_cnt = s.attr_list.length)
    (hids : s.attr_list.map (fun a => a.data.id) = List.range s.attr_list.length)
    (hdict : s.dict = none ∨ s.dict = some ((List.range s.data.attr_cnt).map some))
    (id : Int) :
    _attr_by_idx s id =
      (if 0 ≤ id ∧ id < (s.data.attr_cnt : Int) then some id.toNat else none) ∧
    _attr_by_idx { s with dict := none } id =
      (if 0 ≤ id ∧ id < (s.data.attr_cnt : Int) then some id.toNat else none) := by
  have hscan := attr_list_scan_id_range s.attr_list 0
    (by rw [hids, List.range_eq_range']) id
  have hnone : _attr_by_idx { s with dict := none } id =
      (if 0 ≤ id ∧ id < (s.data.attr_cnt : Int) then some id.toNat else none) := by
    unfold _attr_by_idx
    by_cases hout : id < 0 ∨ id ≥ (s.data.attr_cnt : Int)
    · rw [if_pos hout, if_neg (by omega)]
    · rw [if_neg hout, if_pos (by omega)]
      simp only []
      rw [hscan, if_pos]
      rw [← hcnt]
      omega
  refine ⟨?_, hnone⟩
  rcases hdict with hd | hd
  · have : s = { s with dict := none } := by
      cases s
      simp only [] at hd
      rw [hd]
    rw [this]
    exact hnone
  · unfold _attr_by_idx
    by_cases hout : id < 0 ∨ id ≥ (s.data.attr_cnt : Int)
    · rw [if_pos hout, if_neg (by omega)]
    · rw [if_neg hout, if_pos (by omega), hd]
      simp only []
      have hlt : id.toNat < s.data.attr_cnt := by omega
      rw [List.getD_eq_getElem?_getD, List.getElem?_map, List.getElem?_range hlt]
      rfl

/-- A new schema has no attribute and no id table. -/
theorem schema_ids_inv_new (P : sos_priv_h) (name : String) (c : Bool) (s : sos_schema_s)
    (h : sos_schema_new P name c = .ok s) : schema_ids_inv s := by
  unfold sos_schema_new at h
  split_ifs at h
  cases h
  exact ⟨rfl, List.nodup_nil, rfl, rfl⟩

/-- `sos_schema_attr_add` keeps the names distinct and gives the new attribute the
next id. -/
theorem schema_ids_inv_attr_add (P : sos_priv_h) (s : sos_schema_s) (name : String)
    (type : sos_type_t) (env : attr_new_env) (h : schema_ids_inv s) :
    schema_ids_inv (sos_schema_attr_add P s name type env).2 := by
  by_cases hok : s.schema_obj = none ∧ _attr_by_name s name = none ∧ type ≤ SOS_TYPE_LAST ∧
      env.calloc_ok = true
  · obtain ⟨attr, hattr, hrun⟩ := attr_add_success P s name type env hok.1 hok.2.1 hok.2.2.1
      hok.2.2.2
    rw [hrun]
    have hnew : name ∉ s.attr_list.map (fun a => a.data.name) := by
      intro hmem
      obtain ⟨x, hx, hxn⟩ := List.mem_map.mp hmem
      have hnone := hok.2.1
      unfold _attr_by_name at hnone
      rw [List.find?_eq_none] at hnone
      have := hnone x hx
      simp only [decide_eq_true_eq] at this
      exact this hxn.symm
    refine ⟨h.dict, ?_, ?_, ?_⟩
    · simp only [List.map_append, List.map_cons, List.map_nil, hattr]
      rw [List.nodup_append]
      refine ⟨h.names, List.nodup_singleton _, ?_⟩
      intro x hx hx'
      rw [List.mem_singleton] at hx'
      rw [hx'] at hx
      exact hnew hx
    · simp only [List.map_append, List.map_cons, List.map_nil, hattr, List.length_append,
        List.length_singleton, List.range_succ, h.ids, h.count]
    · simp only [List.length_append, List.length_singleton, h.count]
  · rw [(attr_add_failure P s name type env hok).1]
    exact h

/-- A rewrite of the attribute found by name that changes neither names nor ids
keeps the names distinct and the ids in order. -/
theorem schema_ids_inv_update (s : sos_schema_s) (name : String) (f : sos_attr_s → sos_attr_s)
    (hname : ∀ a, (f a).data.name = a.data.name) (hid : ∀ a, (f a).data.id = a.data.id)
    (h : schema_ids_inv s) :
    schema_ids_inv { s with attr_list := attr_list_update name f s.attr_list } := by
  refine ⟨h.dict, ?_, ?_, ?_⟩
  · show ((attr_list_update name f s.attr_list).map (fun a => a.data.name)).Nodup
    rw [attr_list_update_map (fun a => a.data.name) name f hname]
    exact h.names
  · show (attr_list_update name f s.attr_list).map (fun a => a.data.id) =
      List.range (attr_list_update name f s.attr_list).length
    rw [attr_list_update_map (fun a => a.data.id) name f hid, attr_list_update_length]
    exact h.ids
  · show s.data.attr_cnt = (attr_list_update name f s.attr_list).length
    rw [attr_list_update_length]
    exact h.count

/-- Every schema a caller can build has distinct names, ids in list order and no
id table. -/
theorem schema_ids_inv_of_reachable (P : sos_priv_h) (s : sos_schema_s)
    (h : schema_reachable P s) : schema_ids_inv s := by
  induction h with
  | new name c s h => exact schema_ids_inv_new P name c s h
  | attr_add s name type env _ ih => exact schema_ids_inv_attr_add P s name type env ih
  | index_add s name _ ih =>
    unfold sos_schema_index_add
    split_ifs
    · exact ih
    · exact ih
    · exact schema_ids_inv_update s name _ (fun _ => rfl) (fun _ => rfl) ih
  | index_modify s name it kt env rc s' _ h ih =>
    unfold sos_schema_index_modify at h
    by_cases h1 : s.schema_obj.isSome
    · rw [if_pos h1] at h
      cases h
      exact ih
    · rw [if_neg h1] at h
      by_cases h2 : (_attr_by_name s name).isNone
      · rw [if_pos h2] at h
        cases h
        exact ih
      · rw [if_neg h2] at h
        cases kt with
        | none => cases h
        | some k =>
          cases h
          exact schema_ids_inv_update s name _ (fun _ => rfl) (fun _ => rfl) ih

/-- C35: in every schema reachable from `sos_schema_new` by calls of
`sos_schema_attr_add`, `sos_schema_index_add` and `sos_schema_index_modify`, the
attribute names are pairwise distinct, the attribute count is the list length
and the attribute at position `i` has id `i`; so `sos_schema_attr_by_name` with the
name of an attribute returns that attribute, `sos_schema_attr_by_id` with its id
returns it (by its position), and `sos_schema_attr_by_id` returns null exactly
for the ids below 0 and from the count on. -/
theorem schema_reachable_names_ids (P : sos_priv_h) (s : sos_schema_s)
    (h : schema_reachable P s) :
    (s.attr_list.map (fun a => a.data.name)).Nodup ∧
    s.data.attr_cnt = s.attr_list.length ∧
    (∀ (i : Nat) (a : sos_attr_s), s.attr_list[i]? = some a → a.data.id = i) ∧
    (∀ (i : Nat) (a : sos_attr_s), s.attr_list[i]? = some a →
      sos_schema_attr_by_name s a.data.name = some a ∧
      sos_schema_attr_by_id s (a.data.id : Int) = some i) ∧
    (∀ id : Int, sos_schema_attr_by_id s id = none ↔
      (id < 0 ∨ id ≥ (s.data.attr_cnt : Int))) := by
  have inv := schema_ids_inv_of_reachable P s h
  have hid : ∀ (i : Nat) (a : sos_attr_s), s.attr_list[i]? = some a → a.data.id = i := by
    intro i a ha
    have hlt : i < s.attr_list.length := by
      rcases Nat.lt_or_ge i s.attr_list.length with hlt | hge
      · exact hlt
      · rw [List.getElem?_eq_none hge] at ha
        cases ha
    have h1 : (s.attr_list.map (fun a => a.data.id))[i]? = some a.data.id := by
      rw [List.getElem?_map, ha]
      rfl
    rw [inv.ids, List.getElem?_range hlt] at h1
    exact (Option.some.inj h1).symm
  have hby := fun id => (_attr_by_idx_of_ids s inv.count inv.ids (Or.inl inv.dict) id).1
  refine ⟨inv.names, inv.count, hid, ?_, ?_⟩
  · intro i a ha
    have hlt : i < s.attr_list.length := by
      rcases Nat.lt_or_ge i s.attr_list.length with hlt | hge
      · exact hlt
      · rw [List.getElem?_eq_none hge] at ha
        cases ha
    refine ⟨find_name_of_nodup s.attr_list inv.names i a ha, ?_⟩
    unfold sos_schema_attr_by_id
    rw [hby, hid i a ha, if_pos]
    · rfl
    · rw [inv.count]
      omega
  · intro id
    unfold sos_schema_attr_by_id
    rw [hby]
    by_cases hc : 0 ≤ id ∧ id < (s.data.attr_cnt : Int)
    · rw [if_pos hc]
      constructor
      · intro hx
        cases hx
      · intro hx
        omega
    · rw [if_neg hc]
      constructor
      · intro _
        omega
      · intro _
        rfl

/-- Witness for C35: the schema "E" with the attribute First. -/
theorem schema_reachable_names_ids_witness :
    schema_reachable sos_priv_default ex_schema1 ∧
    sos_schema_attr_by_name ex_schema1 "First" = ex_schema1.attr_list[0]? ∧
    sos_schema_attr_by_id ex_schema1 0 = some 0 ∧
    (sos_schema_attr_by_id ex_schema1 1 = none ↔
      ((1 : Int) < 0 ∨ (1 : Int) ≥ (ex_schema1.data.attr_cnt : Int))) :=
  have hr : schema_reachable sos_priv_default ex_schema1 :=
    schema_reachable.attr_add ex_schema0 "First" SOS_TYPE_BYTE_ARRAY attr_new_env_ok
      (schema_reachable.new "E" true ex_schema0 (by decide))
  have h := schema_reachable_names_ids sos_priv_default ex_schema1 hr
  ⟨hr, by decide, by decide, h.2.2.2.2 1⟩

/-! ## The id table of a persisted schema -/

/-- The loop of `sos_schema_add` repoints the attributes and leaves their data as
they were, whether or not it runs to its end. -/
theorem schema_add_attrs_data (ref : ods_ref_t) (l : List sos_attr_s) :
    ∀ idx, (schema_add_attrs ref idx l).2.1.map (fun a => a.data) = l.map (fun a => a.data) := by
  induction l with
  | nil => intro idx; rfl
  | cons a l ih =>
    intro idx
    unfold schema_add_attrs
    simp only []
    split_ifs
    · rfl
    · simp only [List.map_cons, ih]

/-- What `sos_schema_add` leaves in the caller's schema: the attribute count and
the data of the attributes are as before, and the id table is the one the
schema had, or null, or (only when the call returns `EINVAL` from the loop) a
table filled in part, or the table with one entry per attribute. -/
theorem sos_schema_add_schema (P : sos_priv_h) (sos : sos_container_s) (schema : sos_schema_s)
    (env : schema_add_env) :
    (sos_schema_add P sos schema env).2.2.data.attr_cnt = schema.data.attr_cnt ∧
    (sos_schema_add P sos schema env).2.2.attr_list.map (fun a => a.data) =
      schema.attr_list.map (fun a => a.data) ∧
    ((sos_schema_add P sos schema env).2.2.dict = schema.dict ∨
      (sos_schema_add P sos schema env).2.2.dict = none ∨
      (sos_schema_add P sos schema env).1 = EINVAL ∨
      (sos_schema_add P sos schema env).2.2.dict =
        some (schema_add_dict schema.data.attr_cnt schema.attr_list.length)) := by
  unfold sos_schema_add
  by_cases h1 : schema.schema_obj.isSome = true
  · simp [h1]
  · simp only [h1, if_false]
    unfold sos_schema_by_name
    cases hf : schema_name_rbt_find sos schema.data.name with
    | some p => simp
    | none =>
      simp only [Option.isSome_none, Bool.false_eq_true, if_false]
      by_cases hu : env.udata_ok = false
      · simp [hu]
      · simp only [hu, if_false]
        by_cases hs : env.stat_rc ≠ 0
        · simp [hs]
        · simp only [hs, if_false]
          cases ha1 : (__sos_obj_new P sos.schema_ods
              (P.sizeof_sos_schema_data_s + schema.data.attr_cnt * P.sizeof_sos_attr_data_s)
              env.schema_obj).1 with
          | none => simp
          | some schema_obj =>
            simp only []
            cases ha2 : (__sos_obj_new P sos.schema_idx_ods P.sizeof_sos_obj_ref_s
                env.sos_obj_ref).1 with
            | none => simp
            | some sos_obj_ref =>
              simp only []
              cases ha3 : env.schema_key with
              | none => simp [ods_obj_alloc]
              | some schema_key =>
                simp only [ods_obj_alloc]
                by_cases hd : env.dict_calloc = false
                · simp [hd]
                · simp only [hd, if_false]
                  by_cases hl : (schema_add_attrs schema_obj 0 schema.attr_list).1 = false
                  · simp only [hl, if_true]
                    exact ⟨rfl, schema_add_attrs_data _ _ _, Or.inr (Or.inr (Or.inl rfl))⟩
                  · have hl' : (schema_add_attrs schema_obj 0 schema.attr_list).1 = true := by
                      simpa using hl
                    have hlen : (schema_add_attrs schema_obj 0 schema.attr_list).2.2.length =
                        schema.attr_list.length := by
                      rw [schema_add_attrs_slots _ _ _ hl', List.length_map]
                    by_cases hi : env.idx_insert_rc ≠ 0
                    · simp only [hl', hi, Bool.true_eq_false, if_false, ne_eq, not_false_eq_true,
                        if_true, hlen]
                      exact ⟨trivial, schema_add_attrs_data _ _ _, Or.inr (Or.inr (Or.inr trivial))⟩
                    · have hi' : env.idx_insert_rc = 0 := by simpa using hi
                      simp only [hl', hi', Bool.true_eq_false, if_false, ne_eq, not_true_eq_false,
                        hlen]
                      refine ⟨rfl, ?_, Or.inr (Or.inr (Or.inr rfl))⟩
                      rw [← schema_add_attrs_data schema_obj schema.attr_list 0]
                      exact schema_open_attrs_data _ _ _ _ _ _

/-- The id table `sos_schema_add` fills for a schema with as many attributes as its
count says maps every id below the count to its position. -/
theorem schema_add_dict_full (n : Nat) : schema_add_dict n n = (List.range n).map some := by
  unfold schema_add_dict
  apply List.map_congr_left
  intro i hi
  rw [if_pos (List.mem_range.mp hi)]

/-- C33: for a schema a caller built and `sos_schema_add` persisted (the call
returned 0), and for the schema `__sos_schema_init` rebuilds from the record
written by that call, `sos_schema_attr_by_id` through the id table returns for
every integer id what the linear scan of the attribute list returns: the
attribute at list position `id` when `id` is at least 0 and below the attribute
count, null otherwise. -/
theorem sos_schema_attr_by_id_dict_agrees (P : sos_priv_h) (sos : sos_container_s)
    (S : sos_schema_s) (env : schema_add_env)
    (hS : schema_reachable P S)
    (hrc : (sos_schema_add P sos S env).1 = 0) :
    ((sos_schema_add P sos S env).2.2.data.attr_cnt =
        (sos_schema_add P sos S env).2.2.attr_list.length ∧
      ∀ id : Int,
        sos_schema_attr_by_id (sos_schema_add P sos S env).2.2 id =
          sos_schema_attr_by_id { (sos_schema_add P sos S env).2.2 with dict := none } id ∧
        sos_schema_attr_by_id (sos_schema_add P sos S env).2.2 id =
          (if 0 ≤ id ∧ id < ((sos_schema_add P sos S env).2.2.data.attr_cnt : Int)
           then some id.toNat else none)) ∧
    (∀ (ref : ods_ref_t) (d : sos_schema_data_s) (sos2 : sos_container_s)
        (ienv : schema_init_env),
      (sos_schema_add P sos S env).2.2.schema_obj = some ref →
      ods_schema_obj (sos_schema_add P sos S env).2.1.schema_ods ref = some (ref, d) →
      ienv.schema_calloc = true → ienv.dict_calloc = true →
      (∀ i, (ienv.attr_env i).calloc_ok = true) →
      ∃ T : sos_schema_s,
        (__sos_schema_init sos2 (some (ref, d)) ienv).2.schema_mem[sos2.schema_mem.length]? =
          some T ∧
        T.dict ≠ none ∧ T.data.attr_cnt = T.attr_list.length ∧
        ∀ id : Int,
          sos_schema_attr_by_id T id = sos_schema_attr_by_id { T with dict := none } id ∧
          sos_schema_attr_by_id T id =
            (if 0 ≤ id ∧ id < (T.data.attr_cnt : Int) then some id.toNat else none)) := by
  have inv := schema_ids_inv_of_reachable P S hS
  have hmapid : ∀ l1 l2 : List sos_attr_s,
      l1.map (fun a => a.data) = l2.map (fun a => a.data) →
      l1.map (fun a => a.data.id) = l2.map (fun a => a.data.id) := by
    intro l1 l2 h
    have := congrArg (List.map (fun x : sos_attr_data_s => x.id)) h
    simpa [List.map_map, Function.comp] using this
  constructor
  · obtain ⟨hc, hdata, hdict⟩ := sos_schema_add_schema P sos S env
    have hlen : (sos_schema_add P sos S env).2.2.attr_list.length = S.attr_list.length := by
      have := congrArg List.length hdata
      simpa using this
    have hcnt : (sos_schema_add P sos S env).2.2.data.attr_cnt =
        (sos_schema_add P sos S env).2.2.attr_list.length := by
      rw [hc, hlen, inv.count]
    have hids : (sos_schema_add P sos S env).2.2.attr_list.map (fun a => a.data.id) =
        List.range (sos_schema_add P sos S env).2.2.attr_list.length := by
      rw [hmapid _ _ hdata, hlen, inv.ids]
    have hd : (sos_schema_add P sos S env).2.2.dict = none ∨
        (sos_schema_add P sos S env).2.2.dict =
          some ((List.range (sos_schema_add P sos S env).2.2.data.attr_cnt).map some) := by
      rcases hdict with h | h | h | h
      · left
        rw [h, inv.dict]
      · left
        exact h
      · rw [hrc] at h
        exact absurd h (by decide)
      · right
        rw [h, hc, ← inv.count, schema_add_dict_full]
    refine ⟨hcnt, fun id => ?_⟩
    have := _attr_by_idx_of_ids _ hcnt hids hd id
    unfold sos_schema_attr_by_id
    exact ⟨this.1.trans this.2.symm, this.1⟩
  · intro ref d sos2 ienv hobj hrec hsc hdc hac
    rcases sos_schema_add_outcome P sos S env with
      ⟨_, _, _, _, _, h6⟩ | ⟨_, _, ref1, ods, _, _, _, _, _, hobj1, _, hdata, hok, _, hods⟩
    · rcases h6 with h6 | h6 | ⟨ref', h6, h7⟩
      · exact absurd hrc h6
      · rw [h6] at hobj
        cases hobj
      · rw [h6] at hobj
        cases hobj
        rw [ods_schema_obj_none _ _ h7] at hrec
        cases hrec
    · rw [hobj1] at hobj
      cases hobj
      rw [hods] at hrec
      have hd := ods_schema_obj_write _ _ _ _ _ hrec
      rw [hdata, schema_add_attrs_slots _ _ _ hok] at hd
      have hdc' : d.attr_cnt = S.data.attr_cnt := by rw [hd]
      have hdd : d.attr_dict = S.attr_list.map (fun a => a.data) := by rw [hd]
      have hlen : 0 + d.attr_cnt = d.attr_dict.length := by
        rw [hdc', inv.count, hdd, List.length_map, Nat.zero_add]
      obtain ⟨l, hl, hlmap⟩ := schema_init_attrs_ok ref d ienv hac d.attr_cnt 0 hlen
      rw [List.drop_zero, hdd] at hlmap
      have hll : l.length = S.attr_list.length := by
        have := congrArg List.length hlmap
        simpa using this
      have hinit : __sos_schema_init sos2 (some (ref, d)) ienv =
          (some sos2.schema_mem.length,
            { sos2 with
                schema_mem := sos2.schema_mem ++
                  [{ has_sos := true, flags := 0, ref_count := 1, data := d, data_loc := some ref,
                     schema_obj := some ref,
                     dict := some ((List.range d.attr_cnt).map some), attr_list := l }],
                schema_name_rbt := sos2.schema_name_rbt ++ [sos2.schema_mem.length],
                schema_id_rbt := sos2.schema_id_rbt ++ [sos2.schema_mem.length],
                schema_count := sos2.schema_count + 1 }) := by
        unfold __sos_schema_init
        simp only [hsc, hdc, Bool.true_eq_false, if_false, hl]
      rw [hinit]
      have hcnt : d.attr_cnt = l.length := by rw [hdc', inv.count, hll]
      have hids : l.map (fun a => a.data.id) = List.range l.length := by
        rw [hmapid l S.attr_list hlmap, hll, inv.ids]
      refine ⟨_, List.getElem?_concat_length _ _, by simp, hcnt, fun id => ?_⟩
      have := _attr_by_idx_of_ids
        { has_sos := true, flags := 0, ref_count := 1, data := d, data_loc := some ref,
          schema_obj := some ref,
          dict := some ((List.range d.attr_cnt).map some), attr_list := l }
        hcnt hids (Or.inr rfl) id
      unfold sos_schema_attr_by_id
      exact ⟨this.1.trans this.2.symm, this.1⟩

/-- Witness for C33: the schema "E" (First, Salary) added to the empty container;
its id table maps 0 and 1 to the two attributes. -/
theorem sos_schema_attr_by_id_dict_agrees_witness :
    schema_reachable sos_priv_default ex_schema2 ∧
    (sos_schema_add sos_priv_default ex_sos0 ex_schema2 ex_add_env).1 = 0 ∧
    ex_schema2_added.dict = some [some 0, some 1] ∧
    sos_schema_attr_by_id ex_schema2_added 1 =
      sos_schema_attr_by_id { ex_schema2_added with dict := none } 1 ∧
    sos_schema_attr_by_id ex_schema2_added 1 = some 1 ∧
    sos_schema_attr_by_id ex_schema2_added 2 =
      sos_schema_attr_by_id { ex_schema2_added with dict := none } 2 ∧
    sos_schema_attr_by_id ex_schema2_added 2 = none :=
  have hr : schema_reachable sos_priv_default ex_schema2 :=
    schema_reachable.attr_add _ "Salary" SOS_TYPE_FLOAT attr_new_env_ok
      (schema_reachable.index_add ex_schema1 "First"
        (schema_reachable.attr_add ex_schema0 "First" SOS_TYPE_BYTE_ARRAY attr_new_env_ok
          (schema_reachable.new "E" true ex_schema0 (by decide))))
  have h := (sos_schema_attr_by_id_dict_agrees sos_priv_default ex_sos0 ex_schema2 ex_add_env
    hr (by decide)).1.2
  ⟨hr, by decide, by decide, (h 1).1, by decide, (h 2).1, by decide⟩

end SOS
